import Mathlib

/-!
# Field3D Maya cache plugin: codec and channel session

A shallow embedding of `field3D_Format.cpp`, `field3D_Tools.h`, `field3D_Tools.cpp`
and `maya_Tools.cpp`.

Conventions of the embedding:

* `unsigned int` values are natural numbers; every `unsigned int` product or sum of
  the source is wrapped with `u32`.
* `float`, `half` and `double` samples are rationals; the cast to the export type of
  a templated writer is the `cast` field of `ExportType` (the identity for `float`,
  any given rounding for `half`; `halfOfFloat` is the rounding of the library).
* A null pointer is `none`; undefined behaviour (an out-of-bounds array access, or
  `sl[0]` on an empty vector) makes a function return `none`.
* An exception that leaves a function (`std::out_of_range` from `substr`) is `none`
  as well; the loop `while (1)` of `findTime` is run for a bounded number of passes
  and its result says whether it returned, raised, or is still running.
* The Field3D library and the Maya scene are not part of the plugin: files, field
  objects and the scene are records that hold what the plugin can observe of them.
-/

namespace Field3DTools

/-! ## Machine arithmetic -/

/-- Wrap-around of `unsigned int` (32 bits). -/
def u32 (n : Nat) : Nat := n % 4294967296

/-- Conversion of an `int` to `unsigned int`. -/
def u32OfInt (z : Int) : Nat := (z % 4294967296).toNat

/-- Product of two `unsigned int`. -/
def umul (a b : Nat) : Nat := u32 (a * b)

/-- Sum of two `unsigned int`. -/
def uadd (a b : Nat) : Nat := u32 (a + b)

/-! ## Strings -/

/-- Model of `std::string::rfind(c)`: position of the last occurrence of `c`,
`none` for `npos`. -/
def rfind : List Char → Char → Option Nat
  | [], _ => none
  | a :: t, c =>
    match rfind t c with
    | some p => some (p + 1)
    | none => if a = c then some 0 else none

/-- Model of `std::string::rfind(str)`: position of the last occurrence of the string
`pat`, `none` for `npos`. -/
def rfindStr : List Char → List Char → Option Nat
  | [], pat => if pat = [] then some 0 else none
  | a :: t, pat =>
    match rfindStr t pat with
    | some p => some (p + 1)
    | none => if pat.isPrefixOf (a :: t) then some 0 else none

/-- Model of `std::string::substr(pos, len)`, a position or length `none` standing for
`npos`. The result `none` is the exception `std::out_of_range`, thrown when `pos`
is beyond the end of the string. -/
def substr (s : List Char) (pos len : Option Nat) : Option (List Char) :=
  match pos with
  | none => none
  | some p =>
    if p > s.length then none
    else
      match len with
      | none => some (s.drop p)
      | some l => some ((s.drop p).take l)

/-- Model of `isspace` in the C locale. -/
def isspace (c : Char) : Bool :=
  c.toNat = 32 || (9 ≤ c.toNat && c.toNat ≤ 13)

/-- Model of `atoi`: white space is skipped, then an optional sign and the longest run
of decimal digits are read. The result `none` is undefined behaviour (a value that
is not an `int`). -/
def atoi (str : List Char) : Option Int :=
  let s := str.dropWhile isspace
  let neg := decide (s.head? = some '-')
  let s := if s.head? = some '-' ∨ s.head? = some '+' then s.tail else s
  let n : Nat := (s.takeWhile Char.isDigit).foldl (fun acc c => 10 * acc + (c.toNat - 48)) 0
  let v : Int := if neg then -(n : Int) else (n : Int)
  if -2147483648 ≤ v ∧ v ≤ 2147483647 then some v else none

end Field3DTools

open Field3DTools

/-- Source: `extractFluidName`, `nameStr.substr(0, nameStr.rfind('_'))`.
With `pos = npos` the call `substr(0, npos)` is the whole string. -/
def extractFluidName (name : String) : String :=
  match rfind name.data '_' with
  | some pos => String.mk (name.data.take pos)
  | none => name

/-- Source: `extractChannelName`, `nameStr.substr(nameStr.rfind('_') + 1)`.
With `pos = npos` the sum `pos + 1` wraps to `0`, so the result is the whole string. -/
def extractChannelName (name : String) : String :=
  match rfind name.data '_' with
  | some pos => String.mk (name.data.drop (pos + 1))
  | none => name


namespace Field3DTools

/-! ## Field objects of the Field3D library -/

/-- Model of `Imath::Vec3`. -/
structure Vec3 (α : Type) where
  x : α
  y : α
  z : α
  deriving DecidableEq, Repr

/-- Resolutions and voxel coordinates. A `V3i` of the library is stored through its
`unsigned int` reinterpretation: the source converts `unsigned int` to `int` in
`setSize` and back in the readers, and the two conversions cancel. -/
abbrev V3u := Vec3 Nat

/-- Model of `Field3D::V3f`, and of a vector sample. -/
abbrev V3f := Vec3 ℚ

/-- Model of `Field3D::V3i` where the sign matters (`getComponentSize`). -/
abbrev V3i := Vec3 Int

/-- Model of `Field3D::M44d` and of `double [4][4]`. -/
abbrev M44 := Matrix (Fin 4) (Fin 4) ℚ

/-- Source: `const float SPARSE_THRESHOLD = 0.0000001`. The value of the constant is
the `float` nearest to `0.0000001`, which is `14073749 / 2^47`, a little above
`1/10^7`. -/
def SPARSE_THRESHOLD : ℚ := 14073749 / 140737488355328

/-- Source: `enum SupportedFieldTypeEnum`. -/
inductive SupportedFieldTypeEnum
  | DenseScalarField_Half
  | DenseScalarField_Float
  | SparseScalarField_Half
  | SparseScalarField_Float
  | DenseVectorField_Half
  | DenseVectorField_Float
  | SparseVectorField_Half
  | SparseVectorField_Float
  | MACField_Half
  | MACField_Float
  | TypeUnsupported
  deriving DecidableEq, Repr

/-- Source: `enum FieldTypeEnum`. -/
inductive FieldTypeEnum
  | DENSE
  | SPARSE
  deriving DecidableEq, Repr

/-- Source: `enum FieldDataTypeEnum`. -/
inductive FieldDataTypeEnum
  | FLOAT
  | HALF
  deriving DecidableEq, Repr

/-- Sample type of a layer: the template argument of `readScalarLayers` and
`readVectorLayers`. -/
inductive SampleType
  | half
  | float
  | double
  deriving DecidableEq, Repr

/-- The template argument `ExportType` of the writers: the sample type of the
field that is built, and the conversion `(ExportType) value` from `float`. -/
structure ExportType where
  sample : SampleType
  cast : ℚ → ℚ

/-- The instantiation `ExportType = float`: the cast from `float` is the identity. -/
def ExportType.float : ExportType := ⟨SampleType.float, fun v => v⟩

/-- The instantiation `ExportType = Field3D::half`, for a given rounding to half
precision. -/
def ExportType.half (toHalf : ℚ → ℚ) : ExportType := ⟨SampleType.half, toHalf⟩

/-- Model of the conversion `half(float)` of the `half` class behind `Field3D::half`,
for results that are finite: the value is rounded to the nearest number with 11
significant bits on the grid of step `2^-24` (the smallest positive `half`), ties
to the even neighbour. `t` is the magnitude in units of `2^-24`, `2^j` the step of
the grid around it. A magnitude of `65520` or more converts to an infinity in the
library; the rational samples of this development have no such value, and this
function is not a model there. -/
def halfOfFloat (v : ℚ) : ℚ :=
  let t := |v| * 16777216
  let j := Nat.log 2 ⌊t⌋₊ - 10
  let q := t / 2 ^ j
  let n := ⌊q⌋₊
  let r := q - n
  let m := if r > 1 / 2 ∨ (r = 1 / 2 ∧ n % 2 = 1) then n + 1 else n
  (if v < 0 then -1 else 1) * (m * 2 ^ j / 16777216)

/-- Concrete class of a field object, the target of `field_dynamic_cast`. -/
inductive FieldClass
  | DenseField
  | SparseField
  | MACField
  | Other
  deriving DecidableEq, Repr

/-- The part of a field object shared by all classes: name, attribute (the layer
name), mapping and data resolution. -/
structure FieldRes where
  name : String
  attributeName : String
  mapping : Option M44
  dataResolution : V3u

/-- A scalar field object (`Field<T>`). Storage is a function of the voxel. -/
structure ScalarField extends FieldRes where
  cls : FieldClass
  sample : SampleType
  vox : V3u → ℚ

/-- A vector field object (`Field<Vec3<T>>`): `vox` is the storage of a dense or
sparse field, `u`, `v`, `w` are the staggered component grids of a MAC field. -/
structure VectorField extends FieldRes where
  cls : FieldClass
  sample : SampleType
  vox : V3u → V3f
  u : V3u → ℚ
  v : V3u → ℚ
  w : V3u → ℚ

/-- Assignment through the reference returned by `fastLValue(i,j,k)`, `u(x,y,z)`,
`v(x,y,z)` or `w(x,y,z)`. -/
def setVox {β : Type} (f : V3u → β) (c : V3u) (val : β) : V3u → β :=
  fun d => if d = c then val else f d

/-- Source: `setFieldProperties`. -/
def setFieldProperties (field : FieldRes) (name attributeName : String) (transform : M44) :
    FieldRes :=
  { field with name := name, attributeName := attributeName, mapping := some transform }

/-- A field object as the writers create it: `new DenseField<T>()` or
`new SparseField<T>()`, storage and sparse default value zero. -/
def ScalarField.create (cls : FieldClass) (sample : SampleType) : ScalarField :=
  { name := "", attributeName := "", mapping := none, dataResolution := ⟨0, 0, 0⟩,
    cls := cls, sample := sample, vox := fun _ => 0 }

/-- A vector field object as the writers create it. -/
def VectorField.create (cls : FieldClass) (sample : SampleType) : VectorField :=
  { name := "", attributeName := "", mapping := none, dataResolution := ⟨0, 0, 0⟩,
    cls := cls, sample := sample, vox := fun _ => ⟨0, 0, 0⟩,
    u := fun _ => 0, v := fun _ => 0, w := fun _ => 0 }

/-- A scalar layer as `readScalarLayers` returns it: the field object and the
voxels its iterator visits from `cbegin()` to `cend()`. -/
structure ScalarLayer extends ScalarField where
  cells : List V3u

/-- A vector layer as `readVectorLayers` returns it: the field object, the voxels
its iterator visits, the voxels the three component iterators of a MAC field
visit, and the value of `getComponentSize()`. -/
structure VectorLayer extends VectorField where
  cells : List V3u
  cellsU : List V3u
  cellsV : List V3u
  cellsW : List V3u
  componentSize : V3i

/-- A layer handed to `writeScalarLayer`. -/
inductive Layer
  | scalar (f : ScalarField)
  | vector (f : VectorField)

/-- The mapping of the field object of a layer. -/
def Layer.mapping : Layer → Option M44
  | Layer.scalar f => f.mapping
  | Layer.vector f => f.mapping

/-- What the plugin observes of a `Field3DInputFile`. The layer queries take the
sample type and the layer name, the empty name standing for the default argument
(all layers). -/
structure Field3DInputFile where
  isOpen : Bool
  partitionNames : List String
  scalarLayerNames : String → List String
  vectorLayerNames : String → List String
  readScalarLayers : SampleType → String → List ScalarLayer
  readVectorLayers : SampleType → String → List VectorLayer
  vecFloatMetadata : String → Option V3f

/-- What the plugin observes of a `Field3DOutputFile`: the layers written so far,
the metadata held in memory, the metadata flushed by `writeGlobalMetadata`, and
the answer of the store to `writeScalarLayer`. -/
structure Field3DOutputFile where
  isOpen : Bool
  layers : List Layer
  strMetadata : List (String × String)
  vecFloatMetadata : List (String × V3f)
  globalMetadata : Option (List (String × String) × List (String × V3f))
  accepts : List Layer → Layer → Bool

/-- A fresh handle, `new Field3DInputFile()`. -/
def Field3DInputFile.create : Field3DInputFile :=
  { isOpen := false, partitionNames := [], scalarLayerNames := fun _ => [],
    vectorLayerNames := fun _ => [], readScalarLayers := fun _ _ => [],
    readVectorLayers := fun _ _ => [], vecFloatMetadata := fun _ => none }

/-- A fresh handle, `new Field3DOutputFile()`. -/
def Field3DOutputFile.create : Field3DOutputFile :=
  { isOpen := false, layers := [], strMetadata := [], vecFloatMetadata := [],
    globalMetadata := none, accepts := fun _ _ => false }

/-- Model of `Field3DOutputFile::writeScalarLayer`: the store accepts the layer and
keeps it, or refuses it. -/
def Field3DOutputFile.writeScalarLayer (out : Field3DOutputFile) (l : Layer) :
    Bool × Field3DOutputFile :=
  if out.accepts out.layers l then (true, { out with layers := out.layers ++ [l] })
  else (false, out)

/-- Model of `Field3DInputFile::close` and of `Field3DOutputFile::close`. -/
def Field3DInputFile.close (f : Field3DInputFile) : Field3DInputFile :=
  { f with isOpen := false }

/-- Model of `Field3DOutputFile::close`. -/
def Field3DOutputFile.close (f : Field3DOutputFile) : Field3DOutputFile :=
  { f with isOpen := false }

/-! ## Loops -/

/-- The voxels `(i,j,k)` in the order of `for k < res[2]; for j < res[1]; for i < res[0]`. -/
def loopKJI (res : V3u) : List V3u :=
  (List.range res.z).flatMap fun k =>
    (List.range res.y).flatMap fun j =>
      (List.range res.x).map fun i => ⟨i, j, k⟩

/-- The voxels `(x,y,z)` in the order of `for x < res[0]; for y < res[1]; for z < res[2]`. -/
def loopXYZ (res : V3u) : List V3u :=
  (List.range res.x).flatMap fun x =>
    (List.range res.y).flatMap fun y =>
      (List.range res.z).map fun z => ⟨x, y, z⟩

/-- The pairs `(a,b)` in the order of `for a < n; for b < m`. -/
def loop2 (n m : Nat) : List (Nat × Nat) :=
  (List.range n).flatMap fun a => (List.range m).map fun b => (a, b)

/-- Dereference `*(data + idx)`: `none` (undefined behaviour) when the pointer is
null or the index is outside the array. -/
def deref (data : Option (List ℚ)) (idx : Nat) : Option ℚ :=
  match data with
  | none => none
  | some d => d[idx]?

/-- Assignment `data[src] = val` on a Maya array: `none` (undefined behaviour) when
the index is outside the array. -/
def store (data : List ℚ) (src : Nat) (val : ℚ) : Option (List ℚ) :=
  if src < data.length then some (data.set src val) else none

/-! ## Writers (`field3D_Tools.h`) -/

/-- Source: `writeDenseScalarField`, the copy loop: `vox` is the storage of the field.
`none` is undefined behaviour (a read outside the source array). -/
def denseScalarCopy (T : ExportType) (res : V3u) (data : Option (List ℚ))
    (vox : V3u → ℚ) : Option (V3u → ℚ) :=
  (loopKJI res).foldlM (fun (vox : V3u → ℚ) (c : V3u) =>
    match deref data (c.x + umul res.x c.y + umul (umul res.x res.y) c.z) with
    | some d => some (setVox vox c (T.cast d))
    | none => none) vox

/-- Source: `writeDenseScalarField`, from the field declaration to the end of the
copy loop: the field object handed to the store. -/
def denseScalarField (T : ExportType) (fluidName fieldName : String) (res : V3u)
    (transform : M44) (data : Option (List ℚ)) : Option ScalarField :=
  let field := ScalarField.create FieldClass.DenseField T.sample
  let field := { field with
    toFieldRes := setFieldProperties field.toFieldRes fluidName fieldName transform }
  let field := { field with dataResolution := res }
  (denseScalarCopy T res data field.vox).map fun vox => { field with vox := vox }

/-- Source: `writeDenseScalarField`. The result is the returned flag and the output
file after the call. -/
def writeDenseScalarField (T : ExportType) (out : Field3DOutputFile)
    (fluidName fieldName : String) (res : V3u) (transform : M44)
    (data : Option (List ℚ)) : Option (Bool × Field3DOutputFile) :=
  if data.isNone then some (false, out)
  else
    match denseScalarField T fluidName fieldName res transform data with
    | none => none
    | some field =>
      let r := out.writeScalarLayer (Layer.scalar field)
      if !r.1 then some (false, r.2) else some (true, r.2)

/-- Source: `writeSparseScalarField`, the copy loop. -/
def sparseScalarCopy (T : ExportType) (res : V3u) (data : Option (List ℚ))
    (vox : V3u → ℚ) : Option (V3u → ℚ) :=
  (loopKJI res).foldlM (fun (vox : V3u → ℚ) (c : V3u) =>
    match deref data (c.x + umul res.x c.y + umul (umul res.x res.y) c.z) with
    | some d =>
      let val := T.cast d
      if val > SPARSE_THRESHOLD then some (setVox vox c val) else some vox
    | none => none) vox

/-- Source: `writeSparseScalarField`, from the field declaration to the end of the
copy loop. -/
def sparseScalarField (T : ExportType) (fluidName fieldName : String) (res : V3u)
    (transform : M44) (data : Option (List ℚ)) : Option ScalarField :=
  let field := ScalarField.create FieldClass.SparseField T.sample
  let field := { field with
    toFieldRes := setFieldProperties field.toFieldRes fluidName fieldName transform }
  let field := { field with dataResolution := res }
  (sparseScalarCopy T res data field.vox).map fun vox => { field with vox := vox }

/-- Source: `writeSparseScalarField`. -/
def writeSparseScalarField (T : ExportType) (out : Field3DOutputFile)
    (fluidName fieldName : String) (res : V3u) (transform : M44)
    (data : Option (List ℚ)) : Option (Bool × Field3DOutputFile) :=
  if data.isNone then some (false, out)
  else
    match sparseScalarField T fluidName fieldName res transform data with
    | none => none
    | some field =>
      let r := out.writeScalarLayer (Layer.scalar field)
      if !r.1 then some (false, r.2) else some (true, r.2)

/-- Source: `writeDenseVectorField`, the copy loop. -/
def denseVectorCopy (T : ExportType) (res : V3u) (data0 data1 data2 : Option (List ℚ))
    (vox : V3u → V3f) : Option (V3u → V3f) :=
  (loopKJI res).foldlM (fun (vox : V3u → V3f) (c : V3u) =>
    match deref data0 (c.x + umul res.x c.y + umul (umul res.x res.y) c.z),
          deref data1 (c.x + umul res.x c.y + umul (umul res.x res.y) c.z),
          deref data2 (c.x + umul res.x c.y + umul (umul res.x res.y) c.z) with
    | some a, some b, some d => some (setVox vox c ⟨T.cast a, T.cast b, T.cast d⟩)
    | _, _, _ => none) vox

/-- Source: `writeDenseVectorField`, from the field declaration to the end of the
copy loop. -/
def denseVectorField (T : ExportType) (fluidName fieldName : String) (res : V3u)
    (transform : M44) (data0 data1 data2 : Option (List ℚ)) : Option VectorField :=
  let field := VectorField.create FieldClass.DenseField T.sample
  let field := { field with
    toFieldRes := setFieldProperties field.toFieldRes fluidName fieldName transform }
  let field := { field with dataResolution := res }
  (denseVectorCopy T res data0 data1 data2 field.vox).map fun vox => { field with vox := vox }

/-- Source: `writeDenseVectorField`. The null check of the source tests `data0`
twice and `data1` never. -/
def writeDenseVectorField (T : ExportType) (out : Field3DOutputFile)
    (fluidName fieldName : String) (res : V3u) (transform : M44)
    (data0 data1 data2 : Option (List ℚ)) : Option (Bool × Field3DOutputFile) :=
  if data0.isNone || data0.isNone || data2.isNone then some (false, out)
  else
    match denseVectorField T fluidName fieldName res transform data0 data1 data2 with
    | none => none
    | some field =>
      let r := out.writeScalarLayer (Layer.vector field)
      if !r.1 then some (false, r.2) else some (true, r.2)

/-- Source: `writeSparseVectorField`, the copy loop: a voxel is written when its
squared norm exceeds the threshold. -/
def sparseVectorCopy (T : ExportType) (res : V3u) (data0 data1 data2 : Option (List ℚ))
    (vox : V3u → V3f) : Option (V3u → V3f) :=
  (loopKJI res).foldlM (fun (vox : V3u → V3f) (c : V3u) =>
    match deref data0 (c.x + umul res.x c.y + umul (umul res.x res.y) c.z),
          deref data1 (c.x + umul res.x c.y + umul (umul res.x res.y) c.z),
          deref data2 (c.x + umul res.x c.y + umul (umul res.x res.y) c.z) with
    | some a0, some b0, some d0 =>
      let a := T.cast a0
      let b := T.cast b0
      let d := T.cast d0
      if a * a + b * b + d * d > SPARSE_THRESHOLD then some (setVox vox c ⟨a, b, d⟩)
      else some vox
    | _, _, _ => none) vox

/-- Source: `writeSparseVectorField`, from the field declaration to the end of the
copy loop. The field the source allocates is a `DenseField`. -/
def sparseVectorField (T : ExportType) (fluidName fieldName : String) (res : V3u)
    (transform : M44) (data0 data1 data2 : Option (List ℚ)) : Option VectorField :=
  let field := VectorField.create FieldClass.DenseField T.sample
  let field := { field with
    toFieldRes := setFieldProperties field.toFieldRes fluidName fieldName transform }
  let field := { field with dataResolution := res }
  (sparseVectorCopy T res data0 data1 data2 field.vox).map fun vox => { field with vox := vox }

/-- Source: `writeSparseVectorField`. -/
def writeSparseVectorField (T : ExportType) (out : Field3DOutputFile)
    (fluidName fieldName : String) (res : V3u) (transform : M44)
    (data0 data1 data2 : Option (List ℚ)) : Option (Bool × Field3DOutputFile) :=
  if data0.isNone || data0.isNone || data2.isNone then some (false, out)
  else
    match sparseVectorField T fluidName fieldName res transform data0 data1 data2 with
    | none => none
    | some field =>
      let r := out.writeScalarLayer (Layer.vector field)
      if !r.1 then some (false, r.2) else some (true, r.2)

/-- Source: `writeMACVectorField`, the common loop over `x < res[0]`, `y < res[1]`,
`z < res[2]` that fills the three components; `uvw` holds the storage of the
three component grids. -/
def macInterior (T : ExportType) (res : V3u) (vx vy vz : Option (List ℚ))
    (uvw : (V3u → ℚ) × (V3u → ℚ) × (V3u → ℚ)) :
    Option ((V3u → ℚ) × (V3u → ℚ) × (V3u → ℚ)) :=
  (loopXYZ res).foldlM (fun (uvw : (V3u → ℚ) × (V3u → ℚ) × (V3u → ℚ)) (c : V3u) =>
    match deref vx (c.x + umul (uadd res.x 1) c.y + umul (umul (uadd res.x 1) res.y) c.z),
          deref vy (c.x + umul res.x c.y + umul (umul res.x (uadd res.y 1)) c.z),
          deref vz (c.x + umul res.x c.y + umul (umul res.x res.y) c.z) with
    | some a, some b, some d =>
      some (setVox uvw.1 c (T.cast a), setVox uvw.2.1 c (T.cast b), setVox uvw.2.2 c (T.cast d))
    | _, _, _ => none) uvw

/-- Source: `writeMACVectorField`, the loop that fills the remaining slab of `u`. -/
def macBoundaryU (T : ExportType) (res : V3u) (vx : Option (List ℚ)) (u : V3u → ℚ) :
    Option (V3u → ℚ) :=
  (loop2 res.y res.z).foldlM (fun (u : V3u → ℚ) (yz : Nat × Nat) =>
    match deref vx (res.x + umul (uadd res.x 1) yz.1 + umul (umul (uadd res.x 1) res.y) yz.2) with
    | some a => some (setVox u ⟨res.x, yz.1, yz.2⟩ (T.cast a))
    | none => none) u

/-- Source: `writeMACVectorField`, the loop that fills the remaining slab of `v`. -/
def macBoundaryV (T : ExportType) (res : V3u) (vy : Option (List ℚ)) (v : V3u → ℚ) :
    Option (V3u → ℚ) :=
  (loop2 res.x res.z).foldlM (fun (v : V3u → ℚ) (xz : Nat × Nat) =>
    match deref vy (xz.1 + umul res.x res.y + umul (umul res.x (uadd res.y 1)) xz.2) with
    | some b => some (setVox v ⟨xz.1, res.y, xz.2⟩ (T.cast b))
    | none => none) v

/-- Source: `writeMACVectorField`, the loop that fills the remaining slab of `w`. -/
def macBoundaryW (T : ExportType) (res : V3u) (vz : Option (List ℚ)) (w : V3u → ℚ) :
    Option (V3u → ℚ) :=
  (loop2 res.x res.y).foldlM (fun (w : V3u → ℚ) (xy : Nat × Nat) =>
    match deref vz (xy.1 + umul res.x xy.2 + umul (umul res.x res.y) res.z) with
    | some d => some (setVox w ⟨xy.1, xy.2, res.z⟩ (T.cast d))
    | none => none) w

/-- Source: `writeMACVectorField`, from the field declaration to the end of the
last boundary loop. -/
def macVectorField (T : ExportType) (fluidName fieldName : String) (res : V3u)
    (transform : M44) (vx vy vz : Option (List ℚ)) : Option VectorField :=
  let field := VectorField.create FieldClass.MACField T.sample
  let field := { field with
    toFieldRes := setFieldProperties field.toFieldRes fluidName fieldName transform }
  let field := { field with dataResolution := res }
  (macInterior T res vx vy vz (field.u, field.v, field.w)).bind fun uvw =>
  (macBoundaryU T res vx uvw.1).bind fun u =>
  (macBoundaryV T res vy uvw.2.1).bind fun v =>
  (macBoundaryW T res vz uvw.2.2).map fun w =>
  { field with u := u, v := v, w := w }

/-- Source: `writeMACVectorField`. -/
def writeMACVectorField (T : ExportType) (out : Field3DOutputFile)
    (fluidName fieldName : String) (res : V3u) (transform : M44)
    (vx vy vz : Option (List ℚ)) : Option (Bool × Field3DOutputFile) :=
  if vx.isNone || vy.isNone || vz.isNone then some (false, out)
  else
    match macVectorField T fluidName fieldName res transform vx vy vz with
    | none => none
    | some field =>
      let r := out.writeScalarLayer (Layer.vector field)
      if !r.1 then some (false, r.2) else some (true, r.2)

/-! ## Readers (`field3D_Tools.h`) -/

/-- Source: `#define DEBUG_MODE` in `tinyLogger.h`, defined unconditionally. -/
def DEBUG_MODE : Bool := true

/-- Source: `readScalarField`, the copy loop over the voxels the iterator visits.
The result is the returned flag and the destination array. -/
def readScalarLoop (vox : V3u → ℚ) (resolution : V3u) :
    List V3u → List ℚ → Option (Bool × List ℚ)
  | [], data => some (true, data)
  | it :: rest, data =>
    let src := uadd (uadd it.x (umul resolution.x it.y))
      (umul (umul resolution.x resolution.y) it.z)
    if DEBUG_MODE then
      let arraySize := umul (umul resolution.x resolution.y) resolution.z
      if src < arraySize then
        match store data src (vox it) with
        | some data => readScalarLoop vox resolution rest data
        | none => none
      else some (false, data)
    else
      match store data src (vox it) with
      | some data => readScalarLoop vox resolution rest data
      | none => none

/-- Source: `readScalarField<FieldType, MayaArray>`, with `FieldType` the class `cls`
over the sample type `T`. The unused argument `fluidName` is left out. `none` is
undefined behaviour: `sl[0]` on an empty vector, or a write outside `data`. -/
def readScalarField (cls : FieldClass) (T : SampleType) (inF : Field3DInputFile)
    (fieldName : String) (data : List ℚ) : Option (Bool × List ℚ) :=
  match inF.readScalarLayers T fieldName with
  | [] => none
  | sl0 :: _ =>
    if sl0.cls ≠ cls then some (false, data)
    else
      let resolution : V3u :=
        ⟨u32 sl0.dataResolution.x, u32 sl0.dataResolution.y, u32 sl0.dataResolution.z⟩
      readScalarLoop sl0.vox resolution sl0.cells data

/-- Source: `readVectorField<FieldType, MayaArray>`. -/
def readVectorField (cls : FieldClass) (T : SampleType) (inF : Field3DInputFile)
    (fieldName : String) (data : List ℚ) : Option (Bool × List ℚ) :=
  match inF.readVectorLayers T fieldName with
  | [] => none
  | sl0 :: _ =>
    if sl0.cls ≠ cls then some (false, data)
    else
      let resolution : V3u :=
        ⟨u32 sl0.dataResolution.x, u32 sl0.dataResolution.y, u32 sl0.dataResolution.z⟩
      (sl0.cells.foldlM (fun (data : List ℚ) (it : V3u) =>
        let idx := fun (n : Nat) =>
          uadd (uadd (u32 (n + it.x * 3)) (umul (u32 (it.y * 3)) resolution.x))
            (umul (umul (u32 (it.z * 3)) resolution.x) resolution.y)
        (store data (idx 0) (sl0.vox it).x).bind fun data =>
        (store data (idx 1) (sl0.vox it).y).bind fun data =>
        store data (idx 2) (sl0.vox it).z) data).map fun data => (true, data)

/-- Source: `readMACField`, the copy loop of one component: `comp` is the component
grid, `off` the offset into the destination and `r` the resolution of the
component grid. -/
def macCopy (comp : V3u → ℚ) (off : Nat) (r : V3u) (cells : List V3u) (data : List ℚ) :
    Option (List ℚ) :=
  cells.foldlM (fun (data : List ℚ) (i : V3u) =>
    store data (uadd (uadd (uadd off i.x) (umul i.y r.x)) (umul (umul i.z r.x) r.y))
      (comp i)) data

/-- Source: `readMACField<ImportType, MayaArray>`; the loop over `cp = 0, 1, 2` is
unrolled. -/
def readMACField (T : SampleType) (inF : Field3DInputFile) (fieldName : String)
    (data : List ℚ) : Option (Bool × List ℚ) :=
  match inF.readVectorLayers T fieldName with
  | [] => none
  | sl0 :: _ =>
    if sl0.cls ≠ FieldClass.MACField then some (false, data)
    else
      let resolution : V3u :=
        ⟨u32 sl0.dataResolution.x, u32 sl0.dataResolution.y, u32 sl0.dataResolution.z⟩
      let s := sl0.componentSize
      let off0 : Nat := 0
      let r0 : V3u := ⟨uadd resolution.x 1, resolution.y, resolution.z⟩
      let off1 : Nat := u32OfInt (off0 + s.x)
      let r1 : V3u := ⟨resolution.x, uadd resolution.y 1, resolution.z⟩
      let off2 : Nat := u32OfInt (off1 + s.y)
      let r2 : V3u := ⟨resolution.x, resolution.y, uadd resolution.z 1⟩
      ((macCopy sl0.u off0 r0 sl0.cellsU data).bind fun data =>
       (macCopy sl0.v off1 r1 sl0.cellsV data).bind fun data =>
       macCopy sl0.w off2 r2 sl0.cellsW data).map fun data => (true, data)

/-! ## File queries (`field3D_Tools.cpp`) -/

/-- Source: `getFieldNames`. -/
def getFieldNames (file : Field3DInputFile) : List String :=
  file.partitionNames.foldl
    (fun names it => names ++ file.scalarLayerNames it ++ file.vectorLayerNames it) []

/-- Source: the body of both loops of `getHighestResolution`. -/
def highestStep (acc : Bool × V3u) (dataResolution : V3u) : Bool × V3u :=
  (true || acc.1,
   ⟨if u32 dataResolution.x > acc.2.x then u32 dataResolution.x else acc.2.x,
    if u32 dataResolution.y > acc.2.y then u32 dataResolution.y else acc.2.y,
    if u32 dataResolution.z > acc.2.z then u32 dataResolution.z else acc.2.z⟩)

/-- Source: `getHighestResolution<T>`. -/
def getHighestResolution (T : SampleType) (inFile : Field3DInputFile) (resMax : V3u) :
    Bool × V3u :=
  let afterScalars := (inFile.readScalarLayers T "").foldl
    (fun acc its => highestStep acc its.dataResolution) (false, resMax)
  (inFile.readVectorLayers T "").foldl
    (fun acc itv => highestStep acc itv.dataResolution) afterScalars

/-- Source: `getFieldsResolution`. -/
def getFieldsResolution (inFile : Field3DInputFile) : Bool × V3u :=
  let found := false
  let resolution : V3u := ⟨0, 0, 0⟩
  let h := getHighestResolution SampleType.half inFile resolution
  let found := h.1 || found
  let f := getHighestResolution SampleType.float inFile h.2
  let found := f.1 || found
  let d := getHighestResolution SampleType.double inFile f.2
  let found := d.1 || found
  (found, d.2)

/-- Source: `testScalarDataType<Data_Type>`. -/
def testScalarDataType (T : SampleType) (inFile : Field3DInputFile) (name : String) : Bool :=
  if (inFile.readScalarLayers T name).isEmpty then false else true

/-- Source: `testVectorDataType<Data_Type>`. -/
def testVectorDataType (T : SampleType) (inFile : Field3DInputFile) (name : String) : Bool :=
  if (inFile.readVectorLayers T name).isEmpty then false else true

/-- Source: `getFieldValueType`. The result is the returned flag and the value left in
the argument `type`; every path of the source that returns assigns `type`. -/
def getFieldValueType (inFile : Field3DInputFile) (name : String) :
    Bool × SupportedFieldTypeEnum :=
  if testScalarDataType SampleType.half inFile name then
    match inFile.readScalarLayers SampleType.half name with
    | res0 :: _ =>
      if res0.cls = FieldClass.DenseField then
        (true, SupportedFieldTypeEnum.DenseScalarField_Half)
      else if res0.cls = FieldClass.SparseField then
        (true, SupportedFieldTypeEnum.SparseScalarField_Half)
      else (false, SupportedFieldTypeEnum.TypeUnsupported)
    | [] => (false, SupportedFieldTypeEnum.TypeUnsupported)
  else if testScalarDataType SampleType.float inFile name then
    match inFile.readScalarLayers SampleType.float name with
    | res0 :: _ =>
      if res0.cls = FieldClass.DenseField then
        (true, SupportedFieldTypeEnum.DenseScalarField_Float)
      else if res0.cls = FieldClass.SparseField then
        (true, SupportedFieldTypeEnum.SparseScalarField_Float)
      else (false, SupportedFieldTypeEnum.TypeUnsupported)
    | [] => (false, SupportedFieldTypeEnum.TypeUnsupported)
  else if testVectorDataType SampleType.half inFile name then
    match inFile.readVectorLayers SampleType.half name with
    | res0 :: _ =>
      if res0.cls = FieldClass.DenseField then
        (true, SupportedFieldTypeEnum.DenseVectorField_Half)
      else if res0.cls = FieldClass.SparseField then
        (true, SupportedFieldTypeEnum.SparseVectorField_Half)
      else if res0.cls = FieldClass.MACField then
        (true, SupportedFieldTypeEnum.MACField_Half)
      else (false, SupportedFieldTypeEnum.TypeUnsupported)
    | [] => (false, SupportedFieldTypeEnum.TypeUnsupported)
  else if testVectorDataType SampleType.float inFile name then
    match inFile.readVectorLayers SampleType.float name with
    | res0 :: _ =>
      if res0.cls = FieldClass.DenseField then
        (true, SupportedFieldTypeEnum.DenseVectorField_Float)
      else if res0.cls = FieldClass.SparseField then
        (true, SupportedFieldTypeEnum.SparseVectorField_Float)
      else if res0.cls = FieldClass.MACField then
        (true, SupportedFieldTypeEnum.MACField_Float)
      else (false, SupportedFieldTypeEnum.TypeUnsupported)
    | [] => (false, SupportedFieldTypeEnum.TypeUnsupported)
  else (false, SupportedFieldTypeEnum.TypeUnsupported)

/-- The data resolutions of all the layers that `getFieldsResolution` visits, in the
order of its loops: for the sample types half, float and double in turn, the
scalar layers and then the vector layers. -/
def layerResolutions (inFile : Field3DInputFile) : List V3u :=
  (inFile.readScalarLayers SampleType.half "").map (fun its => its.dataResolution) ++
  (inFile.readVectorLayers SampleType.half "").map (fun itv => itv.dataResolution) ++
  (inFile.readScalarLayers SampleType.float "").map (fun its => its.dataResolution) ++
  (inFile.readVectorLayers SampleType.float "").map (fun itv => itv.dataResolution) ++
  (inFile.readScalarLayers SampleType.double "").map (fun its => its.dataResolution) ++
  (inFile.readVectorLayers SampleType.double "").map (fun itv => itv.dataResolution)

/-- Model of `MFloatArray::setLength` and `MDoubleArray::setLength`: the entries kept
are those below the new length, the entries added are zero. -/
def setLength (array : List ℚ) (arraySize : Nat) : List ℚ :=
  array.take arraySize ++ List.replicate (arraySize - array.length) 0

end Field3DTools

/-! ## Maya scene (`maya_Tools.cpp`) -/

/-- Model of the status codes of `MStatus`. -/
inductive MStatus
  | kSuccess
  | kFailure
  | kInsufficientMemory
  | kInvalidParameter
  | kLicenseFailure
  | kUnknownParameter
  | kNotImplemented
  | kNotFound
  | kEndOfFile
  deriving DecidableEq, Repr

/-- What the plugin observes of a fluid node through `MFnFluid`. A grid accessor
gives a pointer, `none` when it is null; `getResolution` and `getDimensions`
leave their arguments when they are `none`; `plug` is `findPlug` followed by
`getValue`, with the failing status when either fails. -/
structure MFnFluid where
  plug : String → Except MStatus ℚ
  getResolution : Option V3u
  getDimensions : Option V3f
  density : Option (List ℚ)
  pressure : Option (List ℚ)
  fuel : Option (List ℚ)
  temperature : Option (List ℚ)
  falloff : Option (List ℚ)
  getColors : Option (List ℚ) × Option (List ℚ) × Option (List ℚ)
  getCoordinates : Option (List ℚ) × Option (List ℚ) × Option (List ℚ)
  getVelocity : Option (List ℚ) × Option (List ℚ) × Option (List ℚ)

/-- One node met by the `MItDag` traversal. -/
structure DagEntry where
  isFluid : Bool
  getPathStatus : MStatus
  dagNodeStatus : MStatus
  name : String
  inclusiveMatrixStatus : MStatus
  inclusiveMatrix : M44
  matrixGetStatus : MStatus
  fluid : Option MFnFluid

/-- The Maya scene: the status of the construction of `MItDag` and the nodes in
depth-first order. -/
structure Scene where
  itDagStatus : MStatus
  dag : List DagEntry

namespace MayaTools

/-- Source: `MayaTools::getDagPath`; `fluidOnly` is the filter `MFn::kFluid`, its
absence the default `MFn::kInvalid`. -/
def getDagPath (scene : Scene) (nodeName : String) (fluidOnly : Bool) :
    MStatus × Option DagEntry :=
  if scene.itDagStatus ≠ MStatus.kSuccess then (scene.itDagStatus, none)
  else
    match (scene.dag.filter fun e => !fluidOnly || e.isFluid).find? fun e =>
        decide (e.getPathStatus = MStatus.kSuccess) &&
        decide (e.dagNodeStatus = MStatus.kSuccess) && decide (nodeName = e.name) with
    | some e => (MStatus.kSuccess, some e)
    | none => (MStatus.kNotFound, none)

/-- Source: `MayaTools::getTransform`. -/
def getTransform (scene : Scene) (nodeName : String) : MStatus × Option M44 :=
  match getDagPath scene nodeName false with
  | (MStatus.kSuccess, some dagPath) =>
    if dagPath.inclusiveMatrixStatus ≠ MStatus.kSuccess then
      (dagPath.inclusiveMatrixStatus, none)
    else if dagPath.matrixGetStatus ≠ MStatus.kSuccess then (dagPath.matrixGetStatus, none)
    else (MStatus.kSuccess, some dagPath.inclusiveMatrix)
  | (st, _) => (st, none)

/-- Source: `MayaTools::getFluidNode`. -/
def getFluidNode (scene : Scene) (fluidName : String) : MStatus × Option MFnFluid :=
  match getDagPath scene fluidName true with
  | (MStatus.kSuccess, some dagPath) =>
    match dagPath.fluid with
    | some fluid => (MStatus.kSuccess, some fluid)
    | none => (MStatus.kFailure, none)
  | (st, _) => (st, none)

/-- Source: `MayaTools::getNodeValue`; the second component is `result` after the
call, untouched when the plug is not found or has no value. -/
def getNodeValue (node : MFnFluid) (valueName : String) (result : ℚ) : MStatus × ℚ :=
  match node.plug valueName with
  | Except.ok val => (MStatus.kSuccess, val)
  | Except.error st => (st, result)

end MayaTools

/-! ## Channel session (`field3D_Format.cpp`) -/

/-- Model of `MPxCacheFormat::FileAccessMode`, with the values outside the three
named ones. -/
inductive FileAccessMode
  | kRead
  | kWrite
  | kReadWrite
  | other (code : Nat)
  deriving DecidableEq, Repr

/-- What the Field3D library finds on disk: the result of `Field3DInputFile::open`
and of `Field3DOutputFile::create` for a path, `none` when the call fails. -/
structure FileSystem where
  openFile : String → Option Field3DInputFile
  createFile : String → Option Field3DOutputFile

/-- Source: the data members of `class Field3dCacheFormat`. -/
structure Field3dCacheFormat where
  m_inFile : Field3DInputFile
  m_outFile : Field3DOutputFile
  m_filename : String
  m_isFileOpened : Bool
  m_currentName : String
  m_ReadNameStack : Bool
  m_offset : V3f
  FIELD_TYPE : FieldTypeEnum
  FIELD_DATA_TYPE : FieldDataTypeEnum

namespace Field3dCacheFormat

/-- Source: the constructor `Field3dCacheFormat::Field3dCacheFormat`. -/
def create (type : FieldTypeEnum) (data_type : FieldDataTypeEnum) : Field3dCacheFormat :=
  { m_inFile := Field3DInputFile.create, m_outFile := Field3DOutputFile.create,
    m_filename := "", m_isFileOpened := false, m_currentName := "",
    m_ReadNameStack := true, m_offset := ⟨0, 0, 0⟩,
    FIELD_TYPE := type, FIELD_DATA_TYPE := data_type }

/-- Source: the reserved vector `er` of `Field3dCacheFormat::open`. -/
def er : V3f := ⟨-999999 / 1000, -999999 / 1000, -999999 / 1000⟩

/-- Source: `Field3dCacheFormat::open`, from the test of the access mode to the end. -/
def openEnd (s : Field3dCacheFormat) (fileName : String) (mode : FileAccessMode) :
    MStatus × Field3dCacheFormat :=
  if mode ≠ FileAccessMode.kReadWrite ∧ mode ≠ FileAccessMode.kWrite ∧
      mode ≠ FileAccessMode.kRead then
    (MStatus.kFailure, { s with m_isFileOpened := false })
  else
    (MStatus.kSuccess, { s with m_filename := fileName, m_isFileOpened := true })

/-- Source: `Field3dCacheFormat::open`, from the block of the write modes to the end. -/
def openWrite (fs : FileSystem) (s : Field3dCacheFormat) (fileName : String)
    (mode : FileAccessMode) : MStatus × Field3dCacheFormat :=
  if mode = FileAccessMode.kReadWrite ∨ mode = FileAccessMode.kWrite then
    match fs.createFile fileName with
    | none => (MStatus.kFailure, { s with m_isFileOpened := false })
    | some f => openEnd { s with m_outFile := f } fileName mode
  else openEnd s fileName mode

/-- Source: `Field3dCacheFormat::open`. -/
def doOpen (fs : FileSystem) (s : Field3dCacheFormat) (fileName : String)
    (mode : FileAccessMode) : MStatus × Field3dCacheFormat :=
  let s := { s with m_inFile := Field3DInputFile.create,
                    m_outFile := Field3DOutputFile.create,
                    m_ReadNameStack := true }
  if mode = FileAccessMode.kReadWrite ∨ mode = FileAccessMode.kRead then
    match fs.openFile fileName with
    | none => (MStatus.kFailure, { s with m_isFileOpened := false })
    | some f =>
      let s := { s with m_inFile := f }
      let off := (f.vecFloatMetadata "Offset").getD er
      if off = er then (MStatus.kFailure, s)
      else openWrite fs { s with m_offset := ⟨off.x, off.y, off.z⟩ } fileName mode
  else openWrite fs s fileName mode

/-- Source: `Field3dCacheFormat::isValid`. -/
def isValid (s : Field3dCacheFormat) : MStatus :=
  if s.m_isFileOpened then MStatus.kSuccess else MStatus.kFailure

/-- Source: `Field3dCacheFormat::rewind`. -/
def rewind (fs : FileSystem) (s : Field3dCacheFormat) : MStatus × Field3dCacheFormat :=
  doOpen fs s s.m_filename FileAccessMode.kRead

/-- Source: `Field3dCacheFormat::close`. -/
def close (s : Field3dCacheFormat) : Field3dCacheFormat :=
  { s with m_inFile := s.m_inFile.close, m_outFile := s.m_outFile.close,
           m_isFileOpened := false }

/-- Source: `Field3dCacheFormat::writeHeader`. -/
def writeHeader (scene : Scene) (s : Field3dCacheFormat) : MStatus × Field3dCacheFormat :=
  let fluidName := extractFluidName s.m_currentName
  if fluidName.isEmpty then (MStatus.kSuccess, s)
  else
    match MayaTools.getFluidNode scene fluidName with
    | (MStatus.kSuccess, some fluid) =>
      let ox := (MayaTools.getNodeValue fluid "dynamicOffsetX" s.m_offset.x).2
      let oy := (MayaTools.getNodeValue fluid "dynamicOffsetY" s.m_offset.y).2
      let oz := (MayaTools.getNodeValue fluid "dynamicOffsetZ" s.m_offset.z).2
      let s := { s with m_offset := ⟨ox, oy, oz⟩ }
      let off : V3f := ⟨s.m_offset.x, s.m_offset.y, s.m_offset.z⟩
      let out := s.m_outFile
      let out := { out with
        strMetadata := ("Info", "File generated by Maya") ::
          out.strMetadata.filter fun e => e.1 ≠ "Info" }
      let out := { out with
        vecFloatMetadata := ("Offset", off) ::
          out.vecFloatMetadata.filter fun e => e.1 ≠ "Offset" }
      let out := { out with globalMetadata := some (out.strMetadata, out.vecFloatMetadata) }
      (MStatus.kSuccess, { s with m_outFile := out })
    | (MStatus.kSuccess, none) => (MStatus.kFailure, s)
    | (st, _) => (st, s)

/-- Source: `Field3dCacheFormat::findChannelName`. -/
def findChannelName (s : Field3dCacheFormat) (name : String) :
    MStatus × Field3dCacheFormat :=
  let channelName := extractChannelName name
  if channelName = "resolution" ∨ channelName = "offset" then
    (MStatus.kSuccess, { s with m_currentName := name })
  else
    let channels := getFieldNames s.m_inFile
    if channelName ∉ channels then (MStatus.kFailure, s)
    else (MStatus.kSuccess, { s with m_currentName := name })

/-- Source: `Field3dCacheFormat::readChannelName`. The function-local
`static stack<string> channelNameStack` is the first argument and the first
component of the result; its head is the top of the stack. The last component is
the value assigned to the argument `name`, `none` when it is left untouched. -/
def readChannelName (channelNameStack : List String) (s : Field3dCacheFormat) :
    List String × Field3dCacheFormat × MStatus × Option String :=
  let fluidName := extractFluidName s.m_currentName
  let built : List String × Field3dCacheFormat :=
    if s.m_ReadNameStack then
      let tmp := getFieldNames s.m_inFile
      let stack := (fluidName ++ "_resolution") :: channelNameStack
      let stack := (fluidName ++ "_offset") :: stack
      let stack := tmp.foldl (fun stack i => (fluidName ++ "_" ++ i) :: stack) stack
      (stack, { s with m_ReadNameStack := false })
    else (channelNameStack, s)
  match built with
  | (top :: rest, s) =>
    (rest, { s with m_currentName := top }, MStatus.kSuccess, some top)
  | ([], s) => ([], s, MStatus.kFailure, none)

/-- Source: `Field3dCacheFormat::writeChannelName`. -/
def writeChannelName (s : Field3dCacheFormat) (name : String) :
    MStatus × Field3dCacheFormat :=
  (MStatus.kSuccess, { s with m_currentName := name })

/-- Source: the matrix `mapTo01` of `writeArray`. -/
def mapTo01 : M44 :=
  Matrix.of ![![1, 0, 0, 0], ![0, 1, 0, 0], ![0, 0, 1, 0], ![-1 / 2, -1 / 2, -1 / 2, 1]]

/-- Source: the matrix `autoResize` of `writeArray`. -/
def autoResize (dimension : V3f) (m_offset : V3f) : M44 :=
  Matrix.of ![![dimension.x, 0, 0, 0], ![0, dimension.y, 0, 0], ![0, 0, dimension.z, 0],
    ![m_offset.x, m_offset.y, m_offset.z, 1]]

/-- Source: `Field3dCacheFormat::writeArray` (and `writeFloatArray`,
`writeDoubleArray`, which only call it; the array argument is not used).
`toHalf` is the rounding of the library to half precision. `none` is undefined
behaviour inside the selected writer. -/
def writeArray (toHalf : ℚ → ℚ) (scene : Scene) (s : Field3dCacheFormat) :
    Option (MStatus × Field3dCacheFormat) :=
  let channelName := extractChannelName s.m_currentName
  let fluidName := extractFluidName s.m_currentName
  if fluidName.isEmpty then some (MStatus.kSuccess, s)
  else if channelName = "resolution" ∨ channelName = "offset" then some (MStatus.kSuccess, s)
  else
    match MayaTools.getFluidNode scene fluidName with
    | (MStatus.kSuccess, some fluid) =>
      match MayaTools.getTransform scene fluidName with
      | (MStatus.kSuccess, some parentTransf) =>
        let resolution : V3u := fluid.getResolution.getD ⟨1, 1, 1⟩
        let dimension : V3f := fluid.getDimensions.getD ⟨0, 0, 0⟩
        let transform : M44 := mapTo01 * autoResize dimension s.m_offset * parentTransf
        let density := decide (channelName = "density")
        let pressure := decide (channelName = "pressure")
        let fuel := decide (channelName = "fuel")
        let temperature := decide (channelName = "temperature")
        let falloff := decide (channelName = "falloff")
        let color := decide (channelName = "color")
        let coord := decide (channelName = "coord")
        let velocity := decide (channelName = "velocity")
        if density || pressure || fuel || temperature || falloff then
          let data : Option (List ℚ) := none
          let data := if density then fluid.density else data
          let data := if pressure then fluid.pressure else data
          let data := if fuel then fluid.fuel else data
          let data := if temperature then fluid.temperature else data
          let data := if falloff then fluid.falloff else data
          let res :=
            if s.FIELD_TYPE = FieldTypeEnum.DENSE ∧ s.FIELD_DATA_TYPE = FieldDataTypeEnum.HALF then
              writeDenseScalarField (ExportType.half toHalf) s.m_outFile fluidName channelName
                resolution transform data
            else if s.FIELD_TYPE = FieldTypeEnum.DENSE ∧
                s.FIELD_DATA_TYPE = FieldDataTypeEnum.FLOAT then
              writeDenseScalarField ExportType.float s.m_outFile fluidName channelName
                resolution transform data
            else if s.FIELD_TYPE = FieldTypeEnum.SPARSE ∧
                s.FIELD_DATA_TYPE = FieldDataTypeEnum.HALF then
              writeSparseScalarField (ExportType.half toHalf) s.m_outFile fluidName channelName
                resolution transform data
            else if s.FIELD_TYPE = FieldTypeEnum.SPARSE ∧
                s.FIELD_DATA_TYPE = FieldDataTypeEnum.FLOAT then
              writeSparseScalarField ExportType.float s.m_outFile fluidName channelName
                resolution transform data
            else some (false, s.m_outFile)
          match res with
          | none => none
          | some (ok, out) =>
            if !ok then some (MStatus.kFailure, { s with m_outFile := out })
            else some (MStatus.kSuccess, { s with m_outFile := out })
        else if color || coord || velocity then
          let abc : Option (List ℚ) × Option (List ℚ) × Option (List ℚ) := (none, none, none)
          let abc := if color then fluid.getColors else abc
          let abc := if coord then fluid.getCoordinates else abc
          let abc := if velocity then fluid.getVelocity else abc
          let res :=
            if s.FIELD_DATA_TYPE = FieldDataTypeEnum.HALF ∧ !velocity then
              writeDenseVectorField (ExportType.half toHalf) s.m_outFile fluidName channelName
                resolution transform abc.1 abc.2.1 abc.2.2
            else if s.FIELD_DATA_TYPE = FieldDataTypeEnum.FLOAT ∧ !velocity then
              writeDenseVectorField ExportType.float s.m_outFile fluidName channelName
                resolution transform abc.1 abc.2.1 abc.2.2
            else if s.FIELD_DATA_TYPE = FieldDataTypeEnum.HALF ∧ velocity then
              writeMACVectorField (ExportType.half toHalf) s.m_outFile fluidName channelName
                resolution transform abc.1 abc.2.1 abc.2.2
            else if s.FIELD_DATA_TYPE = FieldDataTypeEnum.FLOAT ∧ velocity then
              writeMACVectorField ExportType.float s.m_outFile fluidName channelName
                resolution transform abc.1 abc.2.1 abc.2.2
            else some (false, s.m_outFile)
          match res with
          | none => none
          | some (ok, out) =>
            if !ok then some (MStatus.kFailure, { s with m_outFile := out })
            else some (MStatus.kSuccess, { s with m_outFile := out })
        else some (MStatus.kSuccess, s)
      | (MStatus.kSuccess, none) => some (MStatus.kFailure, s)
      | (st, _) => some (st, s)
    | (MStatus.kSuccess, none) => some (MStatus.kFailure, s)
    | (st, _) => some (st, s)

/-- Source: `Field3dCacheFormat::readArraySize`. -/
def readArraySize (s : Field3dCacheFormat) : Nat :=
  let channelName := extractChannelName s.m_currentName
  if channelName = "resolution" ∨ channelName = "offset" then 3
  else
    let resolution := (getFieldsResolution s.m_inFile).2
    let density := decide (channelName = "density")
    let pressure := decide (channelName = "pressure")
    let fuel := decide (channelName = "fuel")
    let temperature := decide (channelName = "temperature")
    let falloff := decide (channelName = "falloff")
    let color := decide (channelName = "color")
    let coord := decide (channelName = "coord")
    let velocity := decide (channelName = "velocity")
    if density || pressure || fuel || temperature || falloff then
      umul (umul resolution.x resolution.y) resolution.z
    else if color || coord then
      umul (umul (umul resolution.x resolution.y) resolution.z) 3
    else if velocity then
      let size := umul (umul (uadd resolution.x 1) resolution.y) resolution.z
      let size := uadd size (umul (umul resolution.x (uadd resolution.y 1)) resolution.z)
      let size := uadd size (umul (umul resolution.x resolution.y) (uadd resolution.z 1))
      size
    else 0

/-- Source: `Field3dCacheFormat::readArray` (and `readFloatArray`, `readDoubleArray`,
which only call it). The result is the returned status and the array after the
call. `none` is undefined behaviour: an assignment outside the array, a call
through the null `readFuncPtr`, or undefined behaviour inside the reader. -/
def readArray (s : Field3dCacheFormat) (array : List ℚ) (arraySize : Nat) :
    Option (MStatus × List ℚ) :=
  let channelName := extractChannelName s.m_currentName
  let resolution := (getFieldsResolution s.m_inFile).2
  let array := setLength array arraySize
  if channelName = "resolution" then
    ((store array 0 resolution.x).bind fun array =>
     (store array 1 resolution.y).bind fun array =>
     store array 2 resolution.z).map fun array => (MStatus.kSuccess, array)
  else if channelName = "offset" then
    ((store array 0 s.m_offset.x).bind fun array =>
     (store array 1 s.m_offset.y).bind fun array =>
     store array 2 s.m_offset.z).map fun array => (MStatus.kSuccess, array)
  else
    let density := decide (channelName = "density")
    let pressure := decide (channelName = "pressure")
    let fuel := decide (channelName = "fuel")
    let temperature := decide (channelName = "temperature")
    let falloff := decide (channelName = "falloff")
    let color := decide (channelName = "color")
    let coord := decide (channelName = "coord")
    let velocity := decide (channelName = "velocity")
    let r := getFieldValueType s.m_inFile channelName
    let fieldType := r.2
    if !r.1 then some (MStatus.kFailure, array)
    else
      let readFuncPtr : Option (Option (List ℚ → Option (Bool × List ℚ))) :=
        if density || pressure || fuel || temperature || falloff then
          if fieldType = SupportedFieldTypeEnum.DenseScalarField_Half then
            some (some (readScalarField FieldClass.DenseField SampleType.half s.m_inFile
              channelName))
          else if fieldType = SupportedFieldTypeEnum.DenseScalarField_Float then
            some (some (readScalarField FieldClass.DenseField SampleType.float s.m_inFile
              channelName))
          else if fieldType = SupportedFieldTypeEnum.SparseScalarField_Half then
            some (some (readScalarField FieldClass.SparseField SampleType.half s.m_inFile
              channelName))
          else if fieldType = SupportedFieldTypeEnum.SparseScalarField_Float then
            some (some (readScalarField FieldClass.SparseField SampleType.float s.m_inFile
              channelName))
          else none
        else if color || coord then
          if fieldType = SupportedFieldTypeEnum.DenseVectorField_Half then
            some (some (readVectorField FieldClass.DenseField SampleType.half s.m_inFile
              channelName))
          else if fieldType = SupportedFieldTypeEnum.DenseVectorField_Float then
            some (some (readVectorField FieldClass.DenseField SampleType.float s.m_inFile
              channelName))
          else if fieldType = SupportedFieldTypeEnum.SparseVectorField_Half then
            some (some (readVectorField FieldClass.SparseField SampleType.half s.m_inFile
              channelName))
          else if fieldType = SupportedFieldTypeEnum.SparseVectorField_Float then
            some (some (readVectorField FieldClass.SparseField SampleType.float s.m_inFile
              channelName))
          else none
        else if velocity then
          if fieldType = SupportedFieldTypeEnum.MACField_Half then
            some (some (readMACField SampleType.half s.m_inFile channelName))
          else if fieldType = SupportedFieldTypeEnum.MACField_Float then
            some (some (readMACField SampleType.float s.m_inFile channelName))
          else some none
        else some none
      match readFuncPtr with
      | none => some (MStatus.kFailure, array)
      | some none => none
      | some (some reader) =>
        match reader array with
        | none => none
        | some (read_ok, array) =>
          if !read_ok then some (MStatus.kFailure, array)
          else some (MStatus.kSuccess, array)

/-- Source: `Field3dCacheFormat::readTime`. The argument `time` is not used by the
source and is left out. The result `none` is an exception or undefined behaviour
inside `substr` or `atoi`. -/
def readTime (s : Field3dCacheFormat) : Option MStatus :=
  let framePos := rfindStr s.m_filename.data "Frame".data
  let pointPos := rfindStr s.m_filename.data ".".data
  match substr s.m_filename.data framePos pointPos with
  | none => none
  | some frameNumberStr =>
    match atoi frameNumberStr with
    | none => none
    | some frameNumber =>
      some (if frameNumber > 0 then MStatus.kSuccess else MStatus.kFailure)

/-- Source: `Field3dCacheFormat::readNextTime`. The result is the returned status and
the value assigned to `foundTime`: the time `readAwTime`, constructed as zero and
passed to `readTime`, which does not assign it. -/
def readNextTime (s : Field3dCacheFormat) : Option (MStatus × ℚ) :=
  match readTime s with
  | none => none
  | some st =>
    let ret := decide (st = MStatus.kSuccess)
    let readAwTime : ℚ := 0
    some (if ret then MStatus.kSuccess else MStatus.kFailure, readAwTime)

/-- Source: `Field3dCacheFormat::beginReadChunk`. -/
def beginReadChunk : MStatus := MStatus.kSuccess

/-- The ways one pass through the body of the loop of `findTime` ends: a `return`
with a status, the session and the value of `foundTime`; an exception or undefined
behaviour; or the end of the body, with the session and the flag `fileRewound`. -/
inductive FindTimeStep
  | ret (st : MStatus) (s : Field3dCacheFormat) (foundTime : ℚ)
  | raise
  | next (s : Field3dCacheFormat) (fileRewound : Bool)

/-- Source: `Field3dCacheFormat::findTime`, the body of the loop from
`if ( timeTagFound )` to its end. Times are rationals; `rTime` is constructed as
zero and `readTime` does not assign it. -/
def findTimeChunk (fs : FileSystem) (time : ℚ) (s : Field3dCacheFormat)
    (fileRewound timeTagFound : Bool) (foundTime : ℚ) : FindTimeStep :=
  let timeTolerance : ℚ := 0
  let preTime := time - timeTolerance
  let postTime := time + timeTolerance
  if timeTagFound then
    match readTime s with
    | none => FindTimeStep.raise
    | some _ =>
      let rTime : ℚ := 0
      if rTime ≥ preTime ∧ rTime ≤ postTime then FindTimeStep.ret MStatus.kSuccess s rTime
      else if rTime > postTime then
        if !fileRewound then
          let r := rewind fs s
          if r.1 ≠ MStatus.kSuccess then FindTimeStep.ret MStatus.kFailure r.2 foundTime
          else FindTimeStep.next r.2 true
        else FindTimeStep.ret MStatus.kFailure s foundTime
      else FindTimeStep.next s true
  else FindTimeStep.ret MStatus.kFailure s foundTime

/-- Source: `Field3dCacheFormat::findTime`, the body of the loop `while (1)`. -/
def findTimeBody (fs : FileSystem) (time : ℚ) (s : Field3dCacheFormat)
    (fileRewound : Bool) (foundTime : ℚ) : FindTimeStep :=
  let timeTagFound := decide (beginReadChunk = MStatus.kSuccess)
  if !timeTagFound && !fileRewound then
    let r := rewind fs s
    if r.1 ≠ MStatus.kSuccess then FindTimeStep.ret MStatus.kFailure r.2 foundTime
    else
      findTimeChunk fs time r.2 true (decide (beginReadChunk = MStatus.kSuccess)) foundTime
  else findTimeChunk fs time s fileRewound timeTagFound foundTime

/-- The result of running a loop for a bounded number of passes. -/
inductive LoopResult (α : Type)
  | returned (a : α)
  | raised
  | unfinished

/-- Source: `Field3dCacheFormat::findTime`, the loop `while (1)` run for at most the
given number of passes, from the session `s` and the flag `fileRewound`. The value
returned is the status, the session and `foundTime`. -/
def findTimeLoop (fs : FileSystem) (time : ℚ) :
    Nat → Field3dCacheFormat → Bool → ℚ → LoopResult (MStatus × Field3dCacheFormat × ℚ)
  | 0, _, _, _ => LoopResult.unfinished
  | n + 1, s, fileRewound, foundTime =>
    match findTimeBody fs time s fileRewound foundTime with
    | FindTimeStep.ret st s2 found => LoopResult.returned (st, s2, found)
    | FindTimeStep.raise => LoopResult.raised
    | FindTimeStep.next s2 rewound => findTimeLoop fs time n s2 rewound foundTime

/-- Source: `Field3dCacheFormat::findTime`, run for at most `fuel` passes of its loop. -/
def findTime (fuel : Nat) (fs : FileSystem) (s : Field3dCacheFormat) (time foundTime : ℚ) :
    LoopResult (MStatus × Field3dCacheFormat × ℚ) :=
  findTimeLoop fs time fuel s false foundTime

/-- The export type that stands for the session precision `FIELD_DATA_TYPE`. -/
def exportType (toHalf : ℚ → ℚ) : FieldDataTypeEnum → ExportType
  | FieldDataTypeEnum.HALF => ExportType.half toHalf
  | FieldDataTypeEnum.FLOAT => ExportType.float

/-- Source: the end of each branch of `writeArray`, from the result `res` of the
selected writer to the returned status. -/
def writeStatus (s : Field3dCacheFormat) (res : Option (Bool × Field3DOutputFile)) :
    Option (MStatus × Field3dCacheFormat) :=
  match res with
  | none => none
  | some (ok, out) =>
    if !ok then some (MStatus.kFailure, { s with m_outFile := out })
    else some (MStatus.kSuccess, { s with m_outFile := out })

/-- The caller of `readChannelName`: `n` successive calls, starting from the static
stack `channelNameStack` and the session `s`. The result lists, for each call, the
returned status, the name assigned to the argument and the current channel after
the call, and gives the static stack and the session after the last call. -/
def readChannelNames : Nat → List String → Field3dCacheFormat →
    List (MStatus × Option String × String) × List String × Field3dCacheFormat
  | 0, channelNameStack, s => ([], channelNameStack, s)
  | n + 1, channelNameStack, s =>
    let r := readChannelName channelNameStack s
    let rest := readChannelNames n r.1 r.2.1
    ((r.2.2.1, r.2.2.2, r.2.1.m_currentName) :: rest.1, rest.2)

end Field3dCacheFormat

/-! ## Example inputs -/

namespace Examples

/-- A file with one partition `fluid` holding the scalar layer `density`, and the
`Offset` metadata `(0,0,0)`. -/
def densityFile : Field3DInputFile :=
  { isOpen := true, partitionNames := ["fluid"],
    scalarLayerNames := fun _ => ["density"], vectorLayerNames := fun _ => [],
    readScalarLayers := fun _ _ => [], readVectorLayers := fun _ _ => [],
    vecFloatMetadata := fun _ => some ⟨0, 0, 0⟩ }

/-- A disk on which every path opens as `densityFile`. -/
def densityDisk : FileSystem :=
  { openFile := fun _ => some densityFile, createFile := fun _ => none }

/-- A session whose current channel is `fluid_density`, after a read-mode open. -/
def densitySession : Field3dCacheFormat :=
  (Field3dCacheFormat.doOpen densityDisk
    (Field3dCacheFormat.writeChannelName
      (Field3dCacheFormat.create FieldTypeEnum.DENSE FieldDataTypeEnum.FLOAT)
      "fluid_density").2
    "fluidFrame1.f3d" FileAccessMode.kRead).2

/-- The first call of `readChannelName` in `densitySession`, on an empty static
stack: it pushes three names and pops one. -/
def firstRead : List String × Field3dCacheFormat × MStatus × Option String :=
  Field3dCacheFormat.readChannelName [] densitySession

/-- The session after that first call and a `rewind`. -/
def rewoundSession : Field3dCacheFormat :=
  (Field3dCacheFormat.rewind densityDisk firstRead.2.1).2

/-- An output file whose store accepts every layer. -/
def acceptingOutput : Field3DOutputFile :=
  { isOpen := true, layers := [], strMetadata := [], vecFloatMetadata := [],
    globalMetadata := none, accepts := fun _ _ => true }

/-- Eight samples equal to one: the density of a `2 x 2 x 2` grid. -/
def onesDensity : List ℚ := [1, 1, 1, 1, 1, 1, 1, 1]

/-- The layer read back for the dense field written from `onesDensity`, with an
iterator that visits the voxels in the order of the writer. -/
def denseLayer : ScalarLayer :=
  { toScalarField :=
      (denseScalarField ExportType.float "fluid" "density" ⟨2, 2, 2⟩ 1 (some onesDensity)).getD
        (ScalarField.create FieldClass.DenseField SampleType.float),
    cells := loopKJI ⟨2, 2, 2⟩ }

/-- An input file whose scalar layers are `denseLayer`. -/
def denseInput : Field3DInputFile :=
  { isOpen := true, partitionNames := ["fluid"],
    scalarLayerNames := fun _ => ["density"], vectorLayerNames := fun _ => [],
    readScalarLayers := fun _ _ => [denseLayer], readVectorLayers := fun _ _ => [],
    vecFloatMetadata := fun _ => some ⟨0, 0, 0⟩ }

/-- Eight samples around the sparse threshold, some of them negative or zero. -/
def mixedDensity : List ℚ := [1, 1 / 100000000, -1, 0, 1 / 10000000, 2, -5, 3]

/-- The layer read back for the sparse field written from `mixedDensity`. -/
def sparseLayer : ScalarLayer :=
  { toScalarField :=
      (sparseScalarField ExportType.float "fluid" "density" ⟨2, 2, 2⟩ 1 (some mixedDensity)).getD
        (ScalarField.create FieldClass.SparseField SampleType.float),
    cells := loopKJI ⟨2, 2, 2⟩ }

/-- An input file whose scalar layers are `sparseLayer`. -/
def sparseInput : Field3DInputFile :=
  { isOpen := true, partitionNames := ["fluid"],
    scalarLayerNames := fun _ => ["density"], vectorLayerNames := fun _ => [],
    readScalarLayers := fun _ _ => [sparseLayer], readVectorLayers := fun _ _ => [],
    vecFloatMetadata := fun _ => some ⟨0, 0, 0⟩ }

/-- Staggered source arrays of a `2 x 1 x 1` grid: three, four and four samples. -/
def stagU : List ℚ := [1, 2, 3]

/-- The source array of the second component. -/
def stagV : List ℚ := [4, 5, 6, 7]

/-- The source array of the third component. -/
def stagW : List ℚ := [8, 9, 10, 11]

/-- The layer read back for the MAC field written from `stagU`, `stagV`, `stagW`:
the component iterators visit the voxels of each component grid, and the
component size is the three element counts. -/
def stagLayer : VectorLayer :=
  { toVectorField :=
      (macVectorField ExportType.float "fluid" "velocity" ⟨2, 1, 1⟩ 1
        (some stagU) (some stagV) (some stagW)).getD
        (VectorField.create FieldClass.MACField SampleType.float),
    cells := loopKJI ⟨2, 1, 1⟩,
    cellsU := loopKJI ⟨3, 1, 1⟩, cellsV := loopKJI ⟨2, 2, 1⟩, cellsW := loopKJI ⟨2, 1, 2⟩,
    componentSize := ⟨3, 4, 4⟩ }

/-- An input file whose vector layers are `stagLayer`. -/
def stagInput : Field3DInputFile :=
  { isOpen := true, partitionNames := ["fluid"],
    scalarLayerNames := fun _ => [], vectorLayerNames := fun _ => ["velocity"],
    readScalarLayers := fun _ _ => [], readVectorLayers := fun _ _ => [stagLayer],
    vecFloatMetadata := fun _ => some ⟨0, 0, 0⟩ }

/-- The layer read back for the MAC field of resolution `(1,1,1)` written from three
staggered arrays filled with one. -/
def unitLayer : VectorLayer :=
  { toVectorField :=
      (macVectorField ExportType.float "fluid" "velocity" ⟨1, 1, 1⟩ 1
        (some [1, 1]) (some [1, 1]) (some [1, 1])).getD
        (VectorField.create FieldClass.MACField SampleType.float),
    cells := loopKJI ⟨1, 1, 1⟩,
    cellsU := loopKJI ⟨2, 1, 1⟩, cellsV := loopKJI ⟨1, 2, 1⟩, cellsW := loopKJI ⟨1, 1, 2⟩,
    componentSize := ⟨2, 2, 2⟩ }

/-- An input file whose only layer is `unitLayer`, a vector layer of sample type
`float`. -/
def unitInput : Field3DInputFile :=
  { isOpen := true, partitionNames := ["fluid"],
    scalarLayerNames := fun _ => [], vectorLayerNames := fun _ => ["velocity"],
    readScalarLayers := fun _ _ => [],
    readVectorLayers := fun T _ => if T = SampleType.float then [unitLayer] else [],
    vecFloatMetadata := fun _ => some ⟨0, 0, 0⟩ }

/-- A session reading `unitInput`, with `fluid_velocity` as current channel. -/
def unitSession : Field3dCacheFormat :=
  { m_inFile := unitInput, m_outFile := Field3DOutputFile.create,
    m_filename := "fluidFrame1.f3d", m_isFileOpened := true,
    m_currentName := "fluid_velocity", m_ReadNameStack := false, m_offset := ⟨0, 0, 0⟩,
    FIELD_TYPE := FieldTypeEnum.DENSE, FIELD_DATA_TYPE := FieldDataTypeEnum.FLOAT }

/-- A fluid node without any plug and without any grid. -/
def bareFluid : MFnFluid :=
  { plug := fun _ => Except.error MStatus.kInvalidParameter,
    getResolution := some ⟨1, 1, 1⟩, getDimensions := some ⟨1, 1, 1⟩,
    density := none, pressure := none, fuel := none, temperature := none, falloff := none,
    getColors := (none, none, none), getCoordinates := (none, none, none),
    getVelocity := (none, none, none) }

/-- A scene whose only node is the fluid `fluid`, without dynamic offset attributes. -/
def bareScene : Scene :=
  { itDagStatus := MStatus.kSuccess,
    dag := [{ isFluid := true, getPathStatus := MStatus.kSuccess,
              dagNodeStatus := MStatus.kSuccess, name := "fluid",
              inclusiveMatrixStatus := MStatus.kSuccess, inclusiveMatrix := 1,
              matrixGetStatus := MStatus.kSuccess, fluid := some bareFluid }] }

/-- A session that holds the offset `(1,2,3)`, as after a read-mode open of a file
with that `Offset` metadata, and whose current channel is `fluid_density`. -/
def shiftedSession : Field3dCacheFormat :=
  { m_inFile := Field3DInputFile.create, m_outFile := acceptingOutput,
    m_filename := "fluidFrame1.f3d", m_isFileOpened := true,
    m_currentName := "fluid_density", m_ReadNameStack := true, m_offset := ⟨1, 2, 3⟩,
    FIELD_TYPE := FieldTypeEnum.DENSE, FIELD_DATA_TYPE := FieldDataTypeEnum.FLOAT }

/-- A scalar layer of data resolution `(4,1,1)`. -/
def wideLayer : ScalarLayer :=
  { denseLayer with dataResolution := ⟨4, 1, 1⟩ }

/-- A scalar layer of data resolution `(1,5,1)`. -/
def tallLayer : ScalarLayer :=
  { denseLayer with dataResolution := ⟨1, 5, 1⟩ }

/-- An input file with the half layer `wideLayer`, the double layer `tallLayer` and
the float vector layer `unitLayer`. -/
def mixedInput : Field3DInputFile :=
  { isOpen := true, partitionNames := ["fluid"],
    scalarLayerNames := fun _ => ["density", "fuel"],
    vectorLayerNames := fun _ => ["velocity"],
    readScalarLayers := fun T _ =>
      if T = SampleType.half then [wideLayer]
      else if T = SampleType.double then [tallLayer] else [],
    readVectorLayers := fun T _ => if T = SampleType.float then [unitLayer] else [],
    vecFloatMetadata := fun _ => some ⟨0, 0, 0⟩ }

/-- A session reading `mixedInput`, with the current channel `fluid_resolution`. -/
def resolutionSession : Field3dCacheFormat :=
  { unitSession with m_inFile := mixedInput, m_currentName := "fluid_resolution" }

/-- A file like `densityFile` whose `Offset` metadata is `(1,2,3)`. -/
def shiftedFile : Field3DInputFile :=
  { densityFile with
    vecFloatMetadata := fun key => if key = "Offset" then some ⟨1, 2, 3⟩ else none }

/-- A disk on which every path opens as `shiftedFile`. -/
def shiftedDisk : FileSystem :=
  { openFile := fun _ => some shiftedFile, createFile := fun _ => none }

/-- A disk on which every path opens as `shiftedFile` and every file can be created. -/
def shiftedStore : FileSystem :=
  { openFile := fun _ => some shiftedFile, createFile := fun _ => some acceptingOutput }

/-- A new session that opens `fluidFrame1.f3d` in read mode, then opens
`fluidFrame2.f3d` in write mode and selects the channel `fluid_density`. -/
def reopenedSession : Field3dCacheFormat :=
  (Field3dCacheFormat.writeChannelName
    (Field3dCacheFormat.doOpen shiftedStore
      (Field3dCacheFormat.doOpen shiftedStore
        (Field3dCacheFormat.create FieldTypeEnum.DENSE FieldDataTypeEnum.FLOAT)
        "fluidFrame1.f3d" FileAccessMode.kRead).2
      "fluidFrame2.f3d" FileAccessMode.kWrite).2
    "fluid_density").2

/-- The session `shiftedSession` with a current channel whose suffix `foo` is not a
channel of the format. -/
def fooSession : Field3dCacheFormat :=
  { shiftedSession with m_currentName := "fluid_foo" }

/-- A sparse session with the current channel `fluid_color`. -/
def colorSession : Field3dCacheFormat :=
  { shiftedSession with m_currentName := "fluid_color", FIELD_TYPE := FieldTypeEnum.SPARSE }

/-- A fluid node of resolution `(1,1,1)` with a colour grid. -/
def colorFluid : MFnFluid :=
  { bareFluid with getColors := (some [1], some [1], some [1]) }

/-- A scene whose only node is the fluid `fluid` with the grids of `colorFluid`. -/
def colorScene : Scene :=
  { itDagStatus := MStatus.kSuccess,
    dag := [{ isFluid := true, getPathStatus := MStatus.kSuccess,
              dagNodeStatus := MStatus.kSuccess, name := "fluid",
              inclusiveMatrixStatus := MStatus.kSuccess, inclusiveMatrix := 1,
              matrixGetStatus := MStatus.kSuccess, fluid := some colorFluid }] }

/-- The field classes of the layers written to an output file, in write order. -/
def layerClasses (out : Field3DOutputFile) : List FieldClass :=
  out.layers.map fun l =>
    match l with
    | Layer.scalar f => f.cls
    | Layer.vector f => f.cls

/-- A file like `densityFile` without any `Offset` metadata. -/
def plainFile : Field3DInputFile :=
  { densityFile with vecFloatMetadata := fun _ => none }

/-- A disk on which `fluidFrame1.f3d` opens as `shiftedFile` and every other path as
`plainFile`; no file can be created. -/
def twoFileDisk : FileSystem :=
  { openFile := fun name => if name = "fluidFrame1.f3d" then some shiftedFile else some plainFile,
    createFile := fun _ => none }

/-- A dense vector layer of sample type `float` without voxels. -/
def denseVectorLayer : VectorLayer :=
  { toVectorField := VectorField.create FieldClass.DenseField SampleType.float,
    cells := [], cellsU := [], cellsV := [], cellsW := [], componentSize := ⟨0, 0, 0⟩ }

/-- An input file in which every vector layer query of sample type `float` answers
with the dense layer `denseVectorLayer`. -/
def denseVectorInput : Field3DInputFile :=
  { isOpen := true, partitionNames := ["fluid"],
    scalarLayerNames := fun _ => [], vectorLayerNames := fun _ => ["velocity"],
    readScalarLayers := fun _ _ => [],
    readVectorLayers := fun T _ => if T = SampleType.float then [denseVectorLayer] else [],
    vecFloatMetadata := fun _ => some ⟨0, 0, 0⟩ }

/-- A session reading `denseVectorInput`, with `fluid_velocity` as current channel. -/
def denseVelocitySession : Field3dCacheFormat :=
  { unitSession with m_inFile := denseVectorInput }

/-- A session reading `denseVectorInput`, with `fluid_foo` as current channel. -/
def fooReadSession : Field3dCacheFormat :=
  { unitSession with m_inFile := denseVectorInput, m_currentName := "fluid_foo" }

/-- A session whose file path is `fluidFrame12.f3d`. -/
def frame12Session : Field3dCacheFormat :=
  { unitSession with m_filename := "fluidFrame12.f3d" }

/-- A session reading `denseInput`, with `fluid_density` as current channel. -/
def denseSession : Field3dCacheFormat :=
  { unitSession with m_inFile := denseInput, m_currentName := "fluid_density" }

/-- A dense scalar layer of sample type `half` and data resolution `(65536,1,1)`. -/
def rowLayer : ScalarLayer :=
  { toScalarField :=
      { ScalarField.create FieldClass.DenseField SampleType.half with
        dataResolution := ⟨65536, 1, 1⟩ },
    cells := loopKJI ⟨65536, 1, 1⟩ }

/-- A dense scalar layer of sample type `half` and data resolution `(1,65536,1)`. -/
def columnLayer : ScalarLayer :=
  { toScalarField :=
      { ScalarField.create FieldClass.DenseField SampleType.half with
        dataResolution := ⟨1, 65536, 1⟩ },
    cells := loopKJI ⟨1, 65536, 1⟩ }

/-- An input file with two scalar layers of sample type `half`: `density`, which is
`rowLayer`, and `fuel`, which is `columnLayer`. -/
def overflowInput : Field3DInputFile :=
  { isOpen := true, partitionNames := ["fluid"],
    scalarLayerNames := fun _ => ["density", "fuel"], vectorLayerNames := fun _ => [],
    readScalarLayers := fun T name =>
      if T = SampleType.half then
        if name = "density" then [rowLayer]
        else if name = "fuel" then [columnLayer]
        else if name = "" then [rowLayer, columnLayer] else []
      else [],
    readVectorLayers := fun _ _ => [],
    vecFloatMetadata := fun _ => some ⟨0, 0, 0⟩ }

/-- A session reading `overflowInput`, with `fluid_density` as current channel. -/
def overflowSession : Field3dCacheFormat :=
  { unitSession with m_inFile := overflowInput, m_currentName := "fluid_density" }

/-- The layer read back for the dense field of element type `half` written from the
single sample `4097/4096` on the grid `(1,1,1)`. -/
def halfDenseLayer : ScalarLayer :=
  { toScalarField :=
      (denseScalarField (ExportType.half halfOfFloat) "fluid" "density" ⟨1, 1, 1⟩ 1
        (some [4097 / 4096])).getD
        (ScalarField.create FieldClass.DenseField SampleType.half),
    cells := loopKJI ⟨1, 1, 1⟩ }

/-- An input file whose scalar layers of sample type `half` are `halfDenseLayer`. -/
def halfDenseInput : Field3DInputFile :=
  { isOpen := true, partitionNames := ["fluid"],
    scalarLayerNames := fun _ => ["density"], vectorLayerNames := fun _ => [],
    readScalarLayers := fun T _ => if T = SampleType.half then [halfDenseLayer] else [],
    readVectorLayers := fun _ _ => [],
    vecFloatMetadata := fun _ => some ⟨0, 0, 0⟩ }

/-- The layer read back for the sparse field of element type `float` written from the
single sample `14073749/2^47`, the value of `SPARSE_THRESHOLD`, on the grid
`(1,1,1)`. -/
def thresholdLayer : ScalarLayer :=
  { toScalarField :=
      (sparseScalarField ExportType.float "fluid" "density" ⟨1, 1, 1⟩ 1
        (some [14073749 / 140737488355328])).getD
        (ScalarField.create FieldClass.SparseField SampleType.float),
    cells := loopKJI ⟨1, 1, 1⟩ }

/-- The layer read back for the sparse field of element type `half` written from the
single sample `13/2^27` on the grid `(1,1,1)`. -/
def halfSparseLayer : ScalarLayer :=
  { toScalarField :=
      (sparseScalarField (ExportType.half halfOfFloat) "fluid" "density" ⟨1, 1, 1⟩ 1
        (some [13 / 134217728])).getD
        (ScalarField.create FieldClass.SparseField SampleType.half),
    cells := loopKJI ⟨1, 1, 1⟩ }

/-- An input file whose scalar layer of sample type `float` is `thresholdLayer` and
whose scalar layer of sample type `half` is `halfSparseLayer`. -/
def thresholdInput : Field3DInputFile :=
  { isOpen := true, partitionNames := ["fluid"],
    scalarLayerNames := fun _ => ["density"], vectorLayerNames := fun _ => [],
    readScalarLayers := fun T _ =>
      if T = SampleType.float then [thresholdLayer]
      else if T = SampleType.half then [halfSparseLayer] else [],
    readVectorLayers := fun _ _ => [],
    vecFloatMetadata := fun _ => some ⟨0, 0, 0⟩ }

/-- The layer read back for the MAC field of element type `half` and resolution
`(1,1,1)` written from the staggered arrays `[4097/4096, 1]`, `[1, 1]`, `[1, 1]`. -/
def halfStagLayer : VectorLayer :=
  { toVectorField :=
      (macVectorField (ExportType.half halfOfFloat) "fluid" "velocity" ⟨1, 1, 1⟩ 1
        (some [4097 / 4096, 1]) (some [1, 1]) (some [1, 1])).getD
        (VectorField.create FieldClass.MACField SampleType.half),
    cells := loopKJI ⟨1, 1, 1⟩,
    cellsU := loopKJI ⟨2, 1, 1⟩, cellsV := loopKJI ⟨1, 2, 1⟩, cellsW := loopKJI ⟨1, 1, 2⟩,
    componentSize := ⟨2, 2, 2⟩ }

/-- An input file whose vector layers of sample type `half` are `halfStagLayer`. -/
def halfStagInput : Field3DInputFile :=
  { isOpen := true, partitionNames := ["fluid"],
    scalarLayerNames := fun _ => [], vectorLayerNames := fun _ => ["velocity"],
    readScalarLayers := fun _ _ => [],
    readVectorLayers := fun T _ => if T = SampleType.half then [halfStagLayer] else [],
    vecFloatMetadata := fun _ => some ⟨0, 0, 0⟩ }

end Examples

open Field3DTools

/-! # Theorems -/

theorem rfind_none_of_not_mem (s : List Char) (c : Char) (h : c ∉ s) : rfind s c = none := by
  induction s with
  | nil => rfl
  | cons a t ih =>
    have h1 : c ∉ t := fun hm => h (List.mem_cons_of_mem _ hm)
    have h2 : a ≠ c := fun e => h (by simp [e])
    simp [rfind, ih h1, h2]

theorem rfind_append_sep (o ch : List Char) (c : Char) (h : c ∉ ch) :
    rfind (o ++ c :: ch) c = some o.length := by
  induction o with
  | nil => simp [rfind, rfind_none_of_not_mem ch c h]
  | cons a t ih => simp [rfind, ih]

theorem drop_succ_length_append (o ch : List Char) (c : Char) :
    List.drop (o.length + 1) (o ++ c :: ch) = ch := by
  induction o with
  | nil => rfl
  | cons a t ih => simp [ih]

theorem take_length_append (o ch : List Char) (c : Char) :
    List.take o.length (o ++ c :: ch) = o := by
  induction o with
  | nil => rfl
  | cons a t ih => simp [ih]

/-- C6. Name split round trip: for every owner (which may contain the separator) and
every channel without separator, splitting `owner_channel` at the last separator
gives back the owner and the channel. -/
theorem name_split_roundtrip (owner channel : String) (h : '_' ∉ channel.data) :
    extractFluidName (owner ++ "_" ++ channel) = owner ∧
    extractChannelName (owner ++ "_" ++ channel) = channel := by
  have hd : (owner ++ "_" ++ channel).data = owner.data ++ '_' :: channel.data := by
    simp [String.data_append]
  have hr := rfind_append_sep owner.data channel.data '_' h
  constructor
  · simp only [extractFluidName, hd, hr, take_length_append]
  · simp only [extractChannelName, hd, hr, drop_succ_length_append]

theorem name_split_roundtrip_witness :
    '_' ∉ "density".data ∧
    extractFluidName ("my_fluid" ++ "_" ++ "density") = "my_fluid" ∧
    extractChannelName ("my_fluid" ++ "_" ++ "density") = "density" :=
  ⟨by decide, name_split_roundtrip "my_fluid" "density" (by decide)⟩

/-! ## Machine arithmetic -/

theorem u32_eq_of_lt {n : Nat} (h : n < 4294967296) : u32 n = n := Nat.mod_eq_of_lt h

theorem velocity_size_mod (a b c : Nat) :
    uadd (uadd (umul (umul (uadd a 1) b) c) (umul (umul a (uadd b 1)) c))
      (umul (umul a b) (uadd c 1))
    = ((a + 1) * b * c + a * (b + 1) * c + a * b * (c + 1)) % 4294967296 := by
  simp only [umul, uadd, u32]
  simp [Nat.add_mod, Nat.mul_mod]

/-- The size `readArraySize` computes for a `velocity` channel. -/
theorem readArraySize_velocity_mod (s : Field3dCacheFormat) (nx ny nz : Nat)
    (hchan : extractChannelName s.m_currentName = "velocity")
    (hres : (getFieldsResolution s.m_inFile).2 = ⟨nx, ny, nz⟩) :
    s.readArraySize
      = ((nx + 1) * ny * nz + nx * (ny + 1) * nz + nx * ny * (nz + 1)) % 4294967296 := by
  unfold Field3dCacheFormat.readArraySize
  simp only [hchan, hres]
  rw [← velocity_size_mod, if_neg (by decide), if_neg (by decide), if_neg (by decide),
    if_pos (by decide)]

/-- C4. MAC staggered sizing: when the resolution read from the file is `(nx,ny,nz)`
and the current channel suffix is `velocity`, `readArraySize` is the sum of the
three staggered component sizes computed in unsigned 32-bit arithmetic, hence
the sum itself when it fits in 32 bits. -/
theorem readArraySize_velocity (s : Field3dCacheFormat) (nx ny nz : Nat)
    (hchan : extractChannelName s.m_currentName = "velocity")
    (hres : (getFieldsResolution s.m_inFile).2 = ⟨nx, ny, nz⟩) :
    s.readArraySize
      = ((nx + 1) * ny * nz + nx * (ny + 1) * nz + nx * ny * (nz + 1)) % 4294967296 ∧
    ((nx + 1) * ny * nz + nx * (ny + 1) * nz + nx * ny * (nz + 1) < 4294967296 →
      s.readArraySize = (nx + 1) * ny * nz + nx * (ny + 1) * nz + nx * ny * (nz + 1)) := by
  have key := readArraySize_velocity_mod s nx ny nz hchan hres
  exact ⟨key, fun h => by rw [key, Nat.mod_eq_of_lt h]⟩

/-! ## Channel names -/

/-- C7 (counterexample). The id `density` has no separator, and its owner is the
whole id, not the empty string; with it as current channel `writeHeader` looks
the node `density` up and, in an empty scene, returns `kNotFound`. -/
theorem no_separator_owner_counterexample :
    '_' ∉ "density".data ∧ extractFluidName "density" = "density" ∧
      extractFluidName "density" ≠ "" ∧
      (Field3dCacheFormat.writeHeader ⟨MStatus.kSuccess, []⟩
        (Field3dCacheFormat.writeChannelName
          (Field3dCacheFormat.create FieldTypeEnum.DENSE FieldDataTypeEnum.FLOAT)
          "density").2).1 = MStatus.kNotFound := by
  refine ⟨by decide, by decide, by decide, by decide⟩

/-- C7 (amended). For every channel id without separator, the owner and the channel
are both the whole id, so the owner is empty only for the empty id; with the
empty id as current channel, `writeHeader` and `writeArray` change nothing and
return success. -/
theorem no_separator_owner (name : String) (h : '_' ∉ name.data) :
    extractFluidName name = name ∧ extractChannelName name = name ∧
    (extractFluidName name = "" ↔ name = "") ∧
    ∀ (toHalf : ℚ → ℚ) (scene : Scene) (s : Field3dCacheFormat), s.m_currentName = "" →
      s.writeHeader scene = (MStatus.kSuccess, s) ∧
      s.writeArray toHalf scene = some (MStatus.kSuccess, s) := by
  have h1 : extractFluidName name = name := by
    simp [extractFluidName, rfind_none_of_not_mem name.data '_' h]
  have h2 : extractChannelName name = name := by
    simp [extractChannelName, rfind_none_of_not_mem name.data '_' h]
  refine ⟨h1, h2, by rw [h1], ?_⟩
  intro toHalf scene s hs
  have he : (extractFluidName s.m_currentName).isEmpty = true := by rw [hs]; decide
  constructor
  · simp [Field3dCacheFormat.writeHeader, he]
  · simp [Field3dCacheFormat.writeArray, he]

theorem no_separator_owner_witness :
    '_' ∉ "density".data ∧ extractFluidName "density" = "density" ∧
    extractChannelName "density" = "density" :=
  ⟨by decide, (no_separator_owner "density" (by decide)).1,
    (no_separator_owner "density" (by decide)).2.1⟩

/-! ## Enumeration of the channel names -/

theorem foldl_push (g : String → String) (l : List String) (init : List String) :
    l.foldl (fun stack i => g i :: stack) init = (l.map g).reverse ++ init := by
  induction l generalizing init with
  | nil => rfl
  | cons a t ih => simp [ih]

theorem getLast?_getD_cons {α : Type} (b : α) (r : List α) (a c : α) :
    (b :: r).getLast?.getD a = (b :: r).getLast?.getD c := by
  rw [List.getLast?_eq_getLast _ (List.cons_ne_nil b r)]; rfl

theorem getLast?_getD_append {α : Type} (A st : List α) (x y c : α) :
    (A ++ x :: y :: st).getLast?.getD c = st.getLast?.getD y := by
  cases st with
  | nil =>
    have : A ++ [x, y] = (A ++ [x]) ++ [y] := by simp
    rw [this, List.getLast?_append_of_ne_nil _ (by simp)]
    rfl
  | cons a t =>
    have : A ++ x :: y :: a :: t = (A ++ [x, y]) ++ (a :: t) := by simp
    rw [this, List.getLast?_append_of_ne_nil _ (by simp)]
    exact getLast?_getD_cons a t c y

/-- The stack `readChannelName` works on once the names are pushed. -/
theorem readChannelName_build (st : List String) (s : Field3dCacheFormat)
    (h : s.m_ReadNameStack = true) :
    Field3dCacheFormat.readChannelName st s =
      Field3dCacheFormat.readChannelName
        (((getFieldNames s.m_inFile).map
            fun l => extractFluidName s.m_currentName ++ "_" ++ l).reverse ++
          (extractFluidName s.m_currentName ++ "_offset") ::
          (extractFluidName s.m_currentName ++ "_resolution") :: st)
        { s with m_ReadNameStack := false } := by
  simp [Field3dCacheFormat.readChannelName, h, foldl_push]

theorem readChannelName_pop (top : String) (rest : List String) (s : Field3dCacheFormat)
    (h : s.m_ReadNameStack = false) :
    Field3dCacheFormat.readChannelName (top :: rest) s =
      (rest, { s with m_currentName := top }, MStatus.kSuccess, some top) := by
  simp [Field3dCacheFormat.readChannelName, h]

theorem readChannelName_empty (s : Field3dCacheFormat) (h : s.m_ReadNameStack = false) :
    Field3dCacheFormat.readChannelName [] s = ([], s, MStatus.kFailure, none) := by
  simp [Field3dCacheFormat.readChannelName, h]

theorem readChannelNames_empty (k : Nat) (s : Field3dCacheFormat)
    (h : s.m_ReadNameStack = false) :
    (Field3dCacheFormat.readChannelNames k [] s).1 =
      List.replicate k (MStatus.kFailure, none, s.m_currentName) := by
  induction k with
  | zero => rfl
  | succ n ih =>
    simp [Field3dCacheFormat.readChannelNames, readChannelName_empty s h, ih,
      List.replicate_succ]

/-- With the names already pushed, the calls pop the stack from its top, then fail
and leave the current channel alone. -/
theorem readChannelNames_pop (st : List String) (k : Nat) (s : Field3dCacheFormat)
    (h : s.m_ReadNameStack = false) :
    (Field3dCacheFormat.readChannelNames (st.length + k) st s).1 =
      st.map (fun n => (MStatus.kSuccess, some n, n)) ++
        List.replicate k (MStatus.kFailure, none, (st.getLast?).getD s.m_currentName) := by
  induction st generalizing s with
  | nil => simpa using readChannelNames_empty k s h
  | cons top rest ih =>
    have hlen : (top :: rest).length + k = (rest.length + k) + 1 := by
      simp only [List.length_cons]; omega
    rw [hlen]
    simp only [Field3dCacheFormat.readChannelNames, readChannelName_pop top rest s h]
    rw [ih { s with m_currentName := top } h]
    cases rest with
    | nil => simp
    | cons b r =>
      rw [getLast?_getD_cons b r _ s.m_currentName]
      simp [List.getLast?_cons_cons]

/-- The calls after the flag `m_ReadNameStack` is set: the names pushed for the file,
then what the static stack held before. -/
theorem readChannelNames_trace (st : List String) (k : Nat) (s : Field3dCacheFormat)
    (h : s.m_ReadNameStack = true) :
    (Field3dCacheFormat.readChannelNames ((getFieldNames s.m_inFile).length + 2 + st.length + k)
        st s).1 =
      (((getFieldNames s.m_inFile).map
            fun l => extractFluidName s.m_currentName ++ "_" ++ l).reverse ++
          (extractFluidName s.m_currentName ++ "_offset") ::
          (extractFluidName s.m_currentName ++ "_resolution") :: st).map
        (fun n => (MStatus.kSuccess, some n, n)) ++
      List.replicate k (MStatus.kFailure, none,
        (st.getLast?).getD (extractFluidName s.m_currentName ++ "_resolution")) := by
  have hb := readChannelName_build st s h
  have hp := readChannelNames_pop
    (((getFieldNames s.m_inFile).map
        fun l => extractFluidName s.m_currentName ++ "_" ++ l).reverse ++
      (extractFluidName s.m_currentName ++ "_offset") ::
      (extractFluidName s.m_currentName ++ "_resolution") :: st) k
    { s with m_ReadNameStack := false } rfl
  have hlen : (((getFieldNames s.m_inFile).map
        fun l => extractFluidName s.m_currentName ++ "_" ++ l).reverse ++
      (extractFluidName s.m_currentName ++ "_offset") ::
      (extractFluidName s.m_currentName ++ "_resolution") :: st).length + k
      = ((getFieldNames s.m_inFile).length + 1 + st.length + k) + 1 := by
    simp only [List.length_append, List.length_reverse, List.length_map, List.length_cons]
    omega
  have hlen2 : (getFieldNames s.m_inFile).length + 2 + st.length + k
      = ((getFieldNames s.m_inFile).length + 1 + st.length + k) + 1 := by omega
  rw [hlen] at hp
  rw [hlen2]
  simp only [Field3dCacheFormat.readChannelNames] at hp ⊢
  rw [hb, hp, getLast?_getD_append]

/-! ## The session after `open` -/

theorem openEnd_fields (s : Field3dCacheFormat) (fileName : String) (mode : FileAccessMode) :
    (Field3dCacheFormat.openEnd s fileName mode).2.m_ReadNameStack = s.m_ReadNameStack ∧
    (Field3dCacheFormat.openEnd s fileName mode).2.m_currentName = s.m_currentName ∧
    (Field3dCacheFormat.openEnd s fileName mode).2.m_inFile = s.m_inFile := by
  unfold Field3dCacheFormat.openEnd
  split <;> simp

theorem openWrite_fields (fs : FileSystem) (s : Field3dCacheFormat) (fileName : String)
    (mode : FileAccessMode) :
    (Field3dCacheFormat.openWrite fs s fileName mode).2.m_ReadNameStack = s.m_ReadNameStack ∧
    (Field3dCacheFormat.openWrite fs s fileName mode).2.m_currentName = s.m_currentName ∧
    (Field3dCacheFormat.openWrite fs s fileName mode).2.m_inFile = s.m_inFile := by
  unfold Field3dCacheFormat.openWrite
  split
  · split
    · simp
    · exact openEnd_fields _ fileName mode
  · exact openEnd_fields s fileName mode

theorem doOpen_flag (fs : FileSystem) (s : Field3dCacheFormat) (fileName : String)
    (mode : FileAccessMode) :
    (Field3dCacheFormat.doOpen fs s fileName mode).2.m_ReadNameStack = true := by
  unfold Field3dCacheFormat.doOpen
  split
  · split
    · simp
    · dsimp only
      split
      · simp
      · rw [(openWrite_fields fs _ fileName mode).1]
  · rw [(openWrite_fields fs _ fileName mode).1]

theorem doOpen_currentName (fs : FileSystem) (s : Field3dCacheFormat) (fileName : String)
    (mode : FileAccessMode) :
    (Field3dCacheFormat.doOpen fs s fileName mode).2.m_currentName = s.m_currentName := by
  unfold Field3dCacheFormat.doOpen
  split
  · split
    · simp
    · dsimp only
      split
      · simp
      · rw [(openWrite_fields fs _ fileName mode).2.1]
  · rw [(openWrite_fields fs _ fileName mode).2.1]

theorem doOpen_inFile (fs : FileSystem) (s : Field3dCacheFormat) (fileName : String)
    (f : Field3DInputFile) (h : fs.openFile fileName = some f) :
    (Field3dCacheFormat.doOpen fs s fileName FileAccessMode.kRead).2.m_inFile = f := by
  unfold Field3dCacheFormat.doOpen
  simp only [h]
  rw [if_pos (by simp)]
  split
  · simp
  · rw [(openWrite_fields fs _ fileName _).2.2]

theorem names_perm (A : List String) (x y : String) :
    (A.reverse ++ [x, y]).Perm (y :: x :: A) := by
  have h1 : (A.reverse ++ [x, y]).Perm ([x, y] ++ A.reverse) := List.perm_append_comm
  have h2 : ([x, y] ++ A.reverse).Perm ([y, x] ++ A) :=
    List.Perm.append (List.Perm.swap y x []) (List.reverse_perm A)
  exact h1.trans h2

/-- C9. Read enumeration completeness: after an open, starting from an empty static
stack, for a file that lists `n` layer names the first `n + 2` calls of
`readChannelName` succeed, each returning a name and making it the current
channel; the names returned are `owner_resolution`, `owner_offset` and
`owner_layer` once per listed layer (in the order in which the stack is popped);
every later call fails and the current channel stays what the last success made it. -/
theorem read_enumeration_complete (fs : FileSystem) (s0 s : Field3dCacheFormat)
    (fileName : String) (mode : FileAccessMode) (k : Nat)
    (hopen : s = (Field3dCacheFormat.doOpen fs s0 fileName mode).2) :
    (Field3dCacheFormat.readChannelNames ((getFieldNames s.m_inFile).length + 2 + k) [] s).1 =
      (((getFieldNames s.m_inFile).map
            fun l => extractFluidName s.m_currentName ++ "_" ++ l).reverse ++
          [extractFluidName s.m_currentName ++ "_offset",
           extractFluidName s.m_currentName ++ "_resolution"]).map
        (fun n => (MStatus.kSuccess, some n, n)) ++
      List.replicate k (MStatus.kFailure, none,
        extractFluidName s.m_currentName ++ "_resolution") ∧
    List.Perm
      (((getFieldNames s.m_inFile).map
            fun l => extractFluidName s.m_currentName ++ "_" ++ l).reverse ++
          [extractFluidName s.m_currentName ++ "_offset",
           extractFluidName s.m_currentName ++ "_resolution"])
      ((extractFluidName s.m_currentName ++ "_resolution") ::
        (extractFluidName s.m_currentName ++ "_offset") ::
        (getFieldNames s.m_inFile).map
          fun l => extractFluidName s.m_currentName ++ "_" ++ l) := by
  have hflag : s.m_ReadNameStack = true := by rw [hopen]; exact doOpen_flag fs s0 fileName mode
  refine ⟨?_, names_perm _ _ _⟩
  have h := readChannelNames_trace [] k s hflag
  simpa using h

theorem read_enumeration_complete_witness :
    Examples.densitySession =
      (Field3dCacheFormat.doOpen Examples.densityDisk
        (Field3dCacheFormat.writeChannelName
          (Field3dCacheFormat.create FieldTypeEnum.DENSE FieldDataTypeEnum.FLOAT)
          "fluid_density").2 "fluidFrame1.f3d" FileAccessMode.kRead).2 ∧
    (Field3dCacheFormat.readChannelNames
        ((getFieldNames Examples.densitySession.m_inFile).length + 2 + 1) []
        Examples.densitySession).1 =
      (((getFieldNames Examples.densitySession.m_inFile).map
            fun l => extractFluidName Examples.densitySession.m_currentName ++ "_" ++ l).reverse ++
          [extractFluidName Examples.densitySession.m_currentName ++ "_offset",
           extractFluidName Examples.densitySession.m_currentName ++ "_resolution"]).map
        (fun n => (MStatus.kSuccess, some n, n)) ++
      List.replicate 1 (MStatus.kFailure, none,
        extractFluidName Examples.densitySession.m_currentName ++ "_resolution") :=
  ⟨rfl, (read_enumeration_complete Examples.densityDisk _ Examples.densitySession
    "fluidFrame1.f3d" FileAccessMode.kRead 1 rfl).1⟩

theorem densitySession_facts :
    Examples.densitySession.m_ReadNameStack = true ∧
    getFieldNames Examples.densitySession.m_inFile = ["density"] ∧
    extractFluidName Examples.densitySession.m_currentName = "fluid" := by
  refine ⟨doOpen_flag _ _ _ _, ?_, ?_⟩
  · have h : Examples.densitySession.m_inFile = Examples.densityFile :=
      doOpen_inFile Examples.densityDisk _ "fluidFrame1.f3d" Examples.densityFile rfl
    rw [h]; rfl
  · have h : Examples.densitySession.m_currentName = "fluid_density" :=
      doOpen_currentName Examples.densityDisk _ "fluidFrame1.f3d" FileAccessMode.kRead
    rw [h]; decide

/-- C8 (counterexample). In a session opened on a file whose only layer is `density`,
with an empty static stack, the three calls of `readChannelName` return
`fluid_density`, `fluid_offset`, `fluid_resolution` in that order: the real layer
comes first and the two synthetic names last. -/
theorem enumeration_order_counterexample :
    (Field3dCacheFormat.readChannelNames 3 [] Examples.densitySession).1.map (fun r => r.2.1) =
      [some "fluid_density", some "fluid_offset", some "fluid_resolution"] := by
  obtain ⟨hflag, hnames, howner⟩ := densitySession_facts
  have h := readChannelNames_trace [] 0 Examples.densitySession hflag
  rw [hnames, howner] at h
  have h3 : (["density"] : List String).length + 2 + ([] : List String).length + 0 = 3 := rfl
  rw [h3] at h
  rw [h]
  decide

/-- C8 (amended). After an open, starting from an empty static stack, the successive
calls of `readChannelName` return the real layer names first, in the reverse of
the order in which the file lists them, and then the two synthetic names:
`owner_offset`, and last `owner_resolution`. -/
theorem enumeration_order (fs : FileSystem) (s0 s : Field3dCacheFormat)
    (fileName : String) (mode : FileAccessMode)
    (hopen : s = (Field3dCacheFormat.doOpen fs s0 fileName mode).2) :
    (Field3dCacheFormat.readChannelNames ((getFieldNames s.m_inFile).length + 2) [] s).1.map
        (fun r => r.2.1) =
      ((getFieldNames s.m_inFile).reverse.map
          fun l => some (extractFluidName s.m_currentName ++ "_" ++ l)) ++
        [some (extractFluidName s.m_currentName ++ "_offset"),
         some (extractFluidName s.m_currentName ++ "_resolution")] := by
  have hflag : s.m_ReadNameStack = true := by rw [hopen]; exact doOpen_flag fs s0 fileName mode
  have h := readChannelNames_trace [] 0 s hflag
  have h0 : (getFieldNames s.m_inFile).length + 2 + ([] : List String).length + 0
      = (getFieldNames s.m_inFile).length + 2 := rfl
  rw [h0] at h
  rw [h]
  simp [List.map_reverse]

theorem enumeration_order_witness :
    Examples.densitySession =
      (Field3dCacheFormat.doOpen Examples.densityDisk
        (Field3dCacheFormat.writeChannelName
          (Field3dCacheFormat.create FieldTypeEnum.DENSE FieldDataTypeEnum.FLOAT)
          "fluid_density").2 "fluidFrame1.f3d" FileAccessMode.kRead).2 ∧
    (Field3dCacheFormat.readChannelNames
        ((getFieldNames Examples.densitySession.m_inFile).length + 2) []
        Examples.densitySession).1.map (fun r => r.2.1) =
      ((getFieldNames Examples.densitySession.m_inFile).reverse.map
          fun l => some (extractFluidName Examples.densitySession.m_currentName ++ "_" ++ l)) ++
        [some (extractFluidName Examples.densitySession.m_currentName ++ "_offset"),
         some (extractFluidName Examples.densitySession.m_currentName ++ "_resolution")] :=
  ⟨rfl, enumeration_order Examples.densityDisk _ Examples.densitySession
    "fluidFrame1.f3d" FileAccessMode.kRead rfl⟩

theorem firstRead_facts :
    Examples.firstRead.1 = ["fluid_offset", "fluid_resolution"] ∧
    Examples.firstRead.2.1.m_currentName = "fluid_density" ∧
    Examples.firstRead.2.2 = (MStatus.kSuccess, some "fluid_density") := by
  obtain ⟨hflag, hnames, howner⟩ := densitySession_facts
  have h := readChannelName_build [] Examples.densitySession hflag
  rw [hnames, howner] at h
  have hpop := readChannelName_pop "fluid_density" ["fluid_offset", "fluid_resolution"]
    { Examples.densitySession with m_ReadNameStack := false } rfl
  have hlist : ((["density"] : List String).map fun l => "fluid" ++ "_" ++ l).reverse ++
      ("fluid" ++ "_offset") :: ("fluid" ++ "_resolution") :: []
      = ["fluid_density", "fluid_offset", "fluid_resolution"] := by decide
  rw [hlist, hpop] at h
  unfold Examples.firstRead
  rw [h]
  exact ⟨rfl, rfl, rfl⟩

theorem rewoundSession_facts :
    Examples.rewoundSession.m_ReadNameStack = true ∧
    getFieldNames Examples.rewoundSession.m_inFile = ["density"] ∧
    extractFluidName Examples.rewoundSession.m_currentName = "fluid" := by
  refine ⟨doOpen_flag _ _ _ _, ?_, ?_⟩
  · have h : Examples.rewoundSession.m_inFile = Examples.densityFile :=
      doOpen_inFile Examples.densityDisk _ _ Examples.densityFile rfl
    rw [h]; rfl
  · have h : Examples.rewoundSession.m_currentName = Examples.firstRead.2.1.m_currentName :=
      doOpen_currentName Examples.densityDisk _ _ FileAccessMode.kRead
    rw [h, firstRead_facts.2.1]; decide

/-- C10 (the code at the failing input). A session reads one of the three names of a
file whose only layer is `density`, then rewinds. The five calls of
`readChannelName` that follow all succeed: after the three names pushed for the
file they return `fluid_offset` and `fluid_resolution` once more, the two names
that were on the static stack before the rewind. -/
theorem stale_names_after_rewind :
    (Field3dCacheFormat.readChannelNames 5 Examples.firstRead.1 Examples.rewoundSession).1.map
        (fun r => (r.1, r.2.1)) =
      [(MStatus.kSuccess, some "fluid_density"), (MStatus.kSuccess, some "fluid_offset"),
       (MStatus.kSuccess, some "fluid_resolution"), (MStatus.kSuccess, some "fluid_offset"),
       (MStatus.kSuccess, some "fluid_resolution")] := by
  obtain ⟨hflag, hnames, howner⟩ := rewoundSession_facts
  have h := readChannelNames_trace Examples.firstRead.1 0 Examples.rewoundSession hflag
  rw [hnames, howner, firstRead_facts.1] at h
  have h5 : (["density"] : List String).length + 2 +
      (["fluid_offset", "fluid_resolution"] : List String).length + 0 = 5 := rfl
  rw [h5] at h
  rw [firstRead_facts.1, h]
  decide

/-! ## Loops and scattered writes -/

theorem foldlM_eq_some_foldl {σ α : Type} (step : σ → α → Option σ) (g : σ → α → σ)
    (l : List α) (init : σ) (h : ∀ a ∈ l, ∀ st, step st a = some (g st a)) :
    l.foldlM step init = some (l.foldl g init) := by
  induction l generalizing init with
  | nil => rfl
  | cons a t ih =>
    rw [List.foldlM_cons, h a (List.mem_cons_self a t) init]
    exact ih (g init a) (fun b hb st => h b (List.mem_cons_of_mem a hb) st)

/-- A loop of conditional assignments to voxels: the value at a voxel after the loop. -/
theorem foldl_setVox {κ β : Type} (key : κ → V3u) (cond : κ → Bool) (val : V3u → β)
    (l : List κ) (init : V3u → β) (d : V3u) :
    (l.foldl (fun f a => if cond a then setVox f (key a) (val (key a)) else f) init) d =
      if (∃ a ∈ l, cond a = true ∧ key a = d) then val d else init d := by
  induction l generalizing init with
  | nil => simp
  | cons a t ih =>
    rw [List.foldl_cons, ih]
    by_cases ht : ∃ b ∈ t, cond b = true ∧ key b = d
    · have : ∃ b ∈ a :: t, cond b = true ∧ key b = d := by
        obtain ⟨b, hb, hc⟩ := ht
        exact ⟨b, List.mem_cons_of_mem a hb, hc⟩
      rw [if_pos ht, if_pos this]
    · rw [if_neg ht]
      by_cases ha : cond a = true ∧ key a = d
      · have : ∃ b ∈ a :: t, cond b = true ∧ key b = d := ⟨a, List.mem_cons_self a t, ha⟩
        rw [if_pos this, if_pos ha.1, setVox, if_pos ha.2.symm, ha.2]
      · have : ¬ ∃ b ∈ a :: t, cond b = true ∧ key b = d := by
          rintro ⟨b, hb, hc⟩
          rcases List.mem_cons.1 hb with rfl | hb
          · exact ha hc
          · exact ht ⟨b, hb, hc⟩
        rw [if_neg this]
        by_cases hca : cond a = true
        · have hk : ¬ d = key a := fun e => ha ⟨hca, e.symm⟩
          rw [if_pos hca, setVox, if_neg hk]
        · rw [if_neg hca]

theorem foldl_triple {α σ1 σ2 σ3 : Type} (g1 : σ1 → α → σ1) (g2 : σ2 → α → σ2)
    (g3 : σ3 → α → σ3) (l : List α) (i1 : σ1) (i2 : σ2) (i3 : σ3) :
    l.foldl (fun (s : σ1 × σ2 × σ3) a => (g1 s.1 a, g2 s.2.1 a, g3 s.2.2 a)) (i1, i2, i3) =
      (l.foldl g1 i1, l.foldl g2 i2, l.foldl g3 i3) := by
  induction l generalizing i1 i2 i3 with
  | nil => rfl
  | cons a t ih => simp [ih]

theorem store_eq_some (data : List ℚ) (src : Nat) (val : ℚ) (h : src < data.length) :
    store data src val = some (data.set src val) := by
  simp [store, h]

/-- A loop of assignments `data[src i] = val i` whose values are those of a list `y`
at the same index: it stays inside the array and copies `y` at the visited
indices. -/
theorem scatter_spec {κ : Type} (src : κ → Nat) (val : κ → ℚ) (y : List ℚ) (cells : List κ)
    (data : List ℚ)
    (h : ∀ c ∈ cells, src c < data.length ∧ y[src c]? = some (val c)) :
    ∃ out, cells.foldlM (fun (data : List ℚ) i => store data (src i) (val i)) data = some out ∧
      out.length = data.length ∧
      ∀ p, out[p]? = if (∃ c ∈ cells, src c = p) then y[p]? else data[p]? := by
  induction cells generalizing data with
  | nil => exact ⟨data, rfl, rfl, fun p => by simp⟩
  | cons a t ih =>
    have ha := h a (List.mem_cons_self a t)
    have ht : ∀ c ∈ t, src c < (data.set (src a) (val a)).length ∧ y[src c]? = some (val c) := by
      intro c hc
      rw [List.length_set]
      exact h c (List.mem_cons_of_mem a hc)
    obtain ⟨out, ho, hl, hp⟩ := ih (data.set (src a) (val a)) ht
    refine ⟨out, ?_, ?_, ?_⟩
    · rw [List.foldlM_cons, store_eq_some data _ _ ha.1]
      exact ho
    · rw [hl, List.length_set]
    · intro p
      rw [hp p]
      by_cases hex : ∃ c ∈ t, src c = p
      · have : ∃ c ∈ a :: t, src c = p := by
          obtain ⟨c, hc, e⟩ := hex
          exact ⟨c, List.mem_cons_of_mem a hc, e⟩
        rw [if_pos hex, if_pos this]
      · rw [if_neg hex]
        by_cases hap : src a = p
        · have : ∃ c ∈ a :: t, src c = p := ⟨a, List.mem_cons_self a t, hap⟩
          rw [if_pos this, ← hap, ha.2, List.getElem?_set, if_pos rfl, if_pos ha.1]
        · have : ¬ ∃ c ∈ a :: t, src c = p := by
            rintro ⟨c, hc, e⟩
            rcases List.mem_cons.1 hc with rfl | hc
            · exact hap e
            · exact hex ⟨c, hc, e⟩
          rw [if_neg this, List.getElem?_set_ne hap]

theorem mem_loopKJI (res c : V3u) :
    c ∈ loopKJI res ↔ c.x < res.x ∧ c.y < res.y ∧ c.z < res.z := by
  cases c with
  | mk x y z =>
    simp only [loopKJI, List.mem_flatMap, List.mem_map, List.mem_range, Vec3.mk.injEq]
    constructor
    · rintro ⟨k, hk, j, hj, i, hi, rfl, rfl, rfl⟩
      exact ⟨hi, hj, hk⟩
    · rintro ⟨hi, hj, hk⟩
      exact ⟨z, hk, y, hj, x, hi, rfl, rfl, rfl⟩

theorem mem_loopXYZ (res c : V3u) :
    c ∈ loopXYZ res ↔ c.x < res.x ∧ c.y < res.y ∧ c.z < res.z := by
  cases c with
  | mk x y z =>
    simp only [loopXYZ, List.mem_flatMap, List.mem_map, List.mem_range, Vec3.mk.injEq]
    constructor
    · rintro ⟨i, hi, j, hj, k, hk, rfl, rfl, rfl⟩
      exact ⟨hi, hj, hk⟩
    · rintro ⟨hi, hj, hk⟩
      exact ⟨x, hi, y, hj, z, hk, rfl, rfl, rfl⟩

theorem mem_loop2 (n m : Nat) (p : Nat × Nat) : p ∈ loop2 n m ↔ p.1 < n ∧ p.2 < m := by
  cases p with
  | mk a b =>
    simp only [loop2, List.mem_flatMap, List.mem_map, List.mem_range, Prod.mk.injEq]
    constructor
    · rintro ⟨i, hi, j, hj, rfl, rfl⟩
      exact ⟨hi, hj⟩
    · rintro ⟨hi, hj⟩
      exact ⟨a, hi, b, hj, rfl, rfl⟩

/-! ## Index arithmetic -/

theorem flat_index_lt {nx ny nz i j k : Nat} (hi : i < nx) (hj : j < ny) (hk : k < nz) :
    i + nx * j + nx * ny * k < nx * ny * nz := by
  have h1 : i + nx * j < nx * ny := by
    calc i + nx * j < nx + nx * j := by omega
      _ = nx * (j + 1) := by ring
      _ ≤ nx * ny := Nat.mul_le_mul_left _ hj
  calc i + nx * j + nx * ny * k < nx * ny + nx * ny * k := by omega
    _ = nx * ny * (k + 1) := by ring
    _ ≤ nx * ny * nz := Nat.mul_le_mul_left _ hk

theorem flat_index_surj {nx ny nz p : Nat} (hp : p < nx * ny * nz) :
    ∃ i j k, i < nx ∧ j < ny ∧ k < nz ∧ i + nx * j + nx * ny * k = p := by
  have hx : 0 < nx := by
    rcases Nat.eq_zero_or_pos nx with h | h
    · simp [h] at hp
    · exact h
  have hy : 0 < ny := by
    rcases Nat.eq_zero_or_pos ny with h | h
    · simp [h] at hp
    · exact h
  refine ⟨p % nx, (p / nx) % ny, p / (nx * ny), Nat.mod_lt _ hx, Nat.mod_lt _ hy, ?_, ?_⟩
  · exact Nat.div_lt_of_lt_mul hp
  · have h1 : (p / nx) % ny + ny * (p / (nx * ny)) = p / nx := by
      rw [← Nat.div_div_eq_div_mul]
      exact Nat.mod_add_div (p / nx) ny
    have h2 : p % nx + nx * (p / nx) = p := Nat.mod_add_div p nx
    calc p % nx + nx * ((p / nx) % ny) + nx * ny * (p / (nx * ny))
        = p % nx + nx * ((p / nx) % ny + ny * (p / (nx * ny))) := by ring
      _ = p := by rw [h1, h2]

/-- Two numbers with the same residue modulo `2^32` have the same `u32`. -/
theorem u32_eq_of_zmod {a b : Nat} (h : (a : ZMod 4294967296) = (b : ZMod 4294967296)) :
    u32 a = u32 b :=
  (ZMod.natCast_eq_natCast_iff' a b 4294967296).1 h

theorem u32_u32 (a : Nat) : u32 (u32 a) = u32 a := Nat.mod_mod _ _

/-- The flat index the scalar reader computes, as one wrap-around. -/
theorem reader_index_eq (nx ny i j k : Nat) :
    uadd (uadd i (umul (u32 nx) j)) (umul (umul (u32 nx) (u32 ny)) k) =
      u32 (i + nx * j + nx * ny * k) := by
  unfold uadd umul
  apply u32_eq_of_zmod
  simp only [u32]
  push_cast [ZMod.natCast_mod]
  ring

theorem array_size_eq (nx ny nz : Nat) :
    umul (umul (u32 nx) (u32 ny)) (u32 nz) = u32 (nx * ny * nz) := by
  unfold umul
  apply u32_eq_of_zmod
  simp only [u32]
  push_cast [ZMod.natCast_mod]
  ring

/-- Inside a grid whose size fits in 32 bits, the products of the flat index do not
wrap. -/
theorem flat_products {a b c i j k : Nat} (hi : i < a) (hj : j < b) (hk : k < c)
    (h32 : a * b * c < 4294967296) :
    umul a j = a * j ∧ umul (umul a b) k = a * b * k ∧ a < 4294967296 ∧ b < 4294967296 ∧
      c < 4294967296 := by
  have hlt := flat_index_lt hi hj hk
  have ha : 0 < a := by omega
  have hb : 0 < b := by omega
  have hc : 0 < c := by omega
  have hab : a * b ≤ a * b * c := Nat.le_mul_of_pos_right _ hc
  have h1 : a * j < 4294967296 := by omega
  have h2 : a * b * k < 4294967296 := by omega
  have ha' : a ≤ a * b := Nat.le_mul_of_pos_right _ hb
  have hb' : b ≤ a * b := Nat.le_mul_of_pos_left _ ha
  have hc' : c ≤ a * b * c := Nat.le_mul_of_pos_left _ (Nat.mul_pos ha hb)
  refine ⟨u32_eq_of_lt h1, ?_, by omega, by omega, by omega⟩
  unfold umul
  rw [u32_eq_of_lt (by omega : a * b < 4294967296)]
  exact u32_eq_of_lt h2

/-! ## Scalar fields -/

/-- The copy loop of a scalar writer, dense (`sparse = false`) or sparse: it stays
inside the source array and leaves at every voxel of the grid the cast source
value, or zero for a sparse field when that value does not exceed the threshold. -/
theorem scalarCopy_spec (T : ExportType) (nx ny nz : Nat) (x : List ℚ)
    (hx : x.length = nx * ny * nz) (h32 : nx * ny * nz < 4294967296) :
    (∃ vox, denseScalarCopy T ⟨nx, ny, nz⟩ (some x) (fun _ => 0) = some vox ∧
      ∀ c : V3u, c.x < nx → c.y < ny → c.z < nz →
        (x.map T.cast)[c.x + nx * c.y + nx * ny * c.z]? = some (vox c)) ∧
    (∃ vox, sparseScalarCopy T ⟨nx, ny, nz⟩ (some x) (fun _ => 0) = some vox ∧
      ∀ c : V3u, c.x < nx → c.y < ny → c.z < nz →
        (x.map fun v => if T.cast v > SPARSE_THRESHOLD then T.cast v else 0)[
          c.x + nx * c.y + nx * ny * c.z]? = some (vox c)) := by
  have hidx : ∀ c ∈ loopKJI ⟨nx, ny, nz⟩,
      deref (some x) (c.x + umul nx c.y + umul (umul nx ny) c.z) =
        some (x.getD (c.x + nx * c.y + nx * ny * c.z) 0) := by
    intro c hc
    obtain ⟨h1, h2, h3⟩ := (mem_loopKJI _ c).1 hc
    obtain ⟨e1, e2, -⟩ := flat_products h1 h2 h3 h32
    have hlt : c.x + nx * c.y + nx * ny * c.z < x.length := by
      rw [hx]; exact flat_index_lt h1 h2 h3
    rw [e1, e2]
    simp [deref, List.getD, List.getElem?_eq_getElem hlt]
  have hget : ∀ (f : ℚ → ℚ) (c : V3u), c.x < nx → c.y < ny → c.z < nz →
      (x.map f)[c.x + nx * c.y + nx * ny * c.z]? =
        some (f (x.getD (c.x + nx * c.y + nx * ny * c.z) 0)) := by
    intro f c h1 h2 h3
    have hlt : c.x + nx * c.y + nx * ny * c.z < x.length := by
      rw [hx]; exact flat_index_lt h1 h2 h3
    simp [List.getD, List.getElem?_eq_getElem hlt]
  constructor
  · refine ⟨_, foldlM_eq_some_foldl _
      (fun f c => if (fun _ => true) c then
        setVox f ((fun c => c) c)
          ((fun d : V3u => T.cast (x.getD (d.x + nx * d.y + nx * ny * d.z) 0)) ((fun c => c) c))
        else f) _ _ ?_, ?_⟩
    · intro c hc st
      simp only [hidx c hc]
      simp
    · intro c h1 h2 h3
      rw [foldl_setVox (fun c => c) (fun _ => true), hget T.cast c h1 h2 h3, if_pos]
      exact ⟨c, (mem_loopKJI _ c).2 ⟨h1, h2, h3⟩, rfl, rfl⟩
  · refine ⟨_, foldlM_eq_some_foldl _
      (fun f c => if (fun d : V3u => decide
          (T.cast (x.getD (d.x + nx * d.y + nx * ny * d.z) 0) > SPARSE_THRESHOLD)) c then
        setVox f ((fun c => c) c)
          ((fun d : V3u => T.cast (x.getD (d.x + nx * d.y + nx * ny * d.z) 0)) ((fun c => c) c))
        else f) _ _ ?_, ?_⟩
    · intro c hc st
      simp only [hidx c hc]
      by_cases hgt : T.cast (x.getD (c.x + nx * c.y + nx * ny * c.z) 0) > SPARSE_THRESHOLD
      · rw [if_pos hgt, if_pos (decide_eq_true hgt)]
      · rw [if_neg hgt, if_neg (by simpa using hgt)]
    · intro c h1 h2 h3
      rw [foldl_setVox (fun c => c), hget _ c h1 h2 h3]
      by_cases hgt : T.cast (x.getD (c.x + nx * c.y + nx * ny * c.z) 0) > SPARSE_THRESHOLD
      · rw [if_pos hgt, if_pos]
        exact ⟨c, (mem_loopKJI _ c).2 ⟨h1, h2, h3⟩, by simpa using hgt, rfl⟩
      · rw [if_neg hgt, if_neg]
        rintro ⟨a, -, ha, rfl⟩
        exact hgt (by simpa using ha)

/-- While every visited voxel has its index below the array size, the debug check of
`readScalarField` never fires and the copy loop is a plain loop of stores. -/
theorem readScalarLoop_eq_foldlM (vox : V3u → ℚ) (resolution : V3u) (cells : List V3u)
    (data : List ℚ)
    (h : ∀ c ∈ cells,
      uadd (uadd c.x (umul resolution.x c.y)) (umul (umul resolution.x resolution.y) c.z) <
        umul (umul resolution.x resolution.y) resolution.z) :
    readScalarLoop vox resolution cells data =
      (cells.foldlM (fun (data : List ℚ) (c : V3u) =>
        store data
          (uadd (uadd c.x (umul resolution.x c.y)) (umul (umul resolution.x resolution.y) c.z))
          (vox c)) data).map fun d => (true, d) := by
  induction cells generalizing data with
  | nil => rfl
  | cons a t ih =>
    have ha := h a (List.mem_cons_self a t)
    have ht := fun c hc => h c (List.mem_cons_of_mem a hc)
    rw [List.foldlM_cons]
    unfold readScalarLoop
    simp only [DEBUG_MODE, if_true, if_pos ha]
    cases hs : store data
        (uadd (uadd a.x (umul resolution.x a.y)) (umul (umul resolution.x resolution.y) a.z))
        (vox a) with
    | none => rfl
    | some d => exact ih d ht

/-- Reading a scalar layer whose voxels hold the values of a list `y` at their flat
index, through an iterator that visits exactly the voxels of the grid, into a
destination array with at least one entry per voxel: the call returns `true`,
the destination holds `y` below the number of voxels and is unchanged above. -/
theorem readScalarField_copy (cls : FieldClass) (T : SampleType) (inF : Field3DInputFile)
    (fieldName : String) (layer : ScalarLayer) (rest : List ScalarLayer) (nx ny nz : Nat)
    (y data : List ℚ)
    (hin : inF.readScalarLayers T fieldName = layer :: rest)
    (hcls : layer.cls = cls) (hres : layer.dataResolution = ⟨nx, ny, nz⟩)
    (h32 : nx * ny * nz < 4294967296) (hy : y.length = nx * ny * nz)
    (hd : nx * ny * nz ≤ data.length)
    (hcells : ∀ c, c ∈ layer.cells ↔ c.x < nx ∧ c.y < ny ∧ c.z < nz)
    (hvox : ∀ c : V3u, c.x < nx → c.y < ny → c.z < nz →
      y[c.x + nx * c.y + nx * ny * c.z]? = some (layer.vox c)) :
    ∃ dest, readScalarField cls T inF fieldName data = some (true, dest) ∧
      dest.length = data.length ∧
      (∀ p, p < nx * ny * nz → dest[p]? = y[p]?) ∧
      (∀ p, nx * ny * nz ≤ p → dest[p]? = data[p]?) := by
  have hidx : ∀ c ∈ layer.cells,
      uadd (uadd c.x (umul (u32 nx) c.y)) (umul (umul (u32 nx) (u32 ny)) c.z) =
        c.x + nx * c.y + nx * ny * c.z ∧ c.x + nx * c.y + nx * ny * c.z < nx * ny * nz := by
    intro c hc
    obtain ⟨h1, h2, h3⟩ := (hcells c).1 hc
    have hlt := flat_index_lt h1 h2 h3
    exact ⟨by rw [reader_index_eq, u32_eq_of_lt (by omega)], hlt⟩
  have hsize : umul (umul (u32 nx) (u32 ny)) (u32 nz) = nx * ny * nz := by
    rw [array_size_eq, u32_eq_of_lt h32]
  obtain ⟨out, ho, hl, hp⟩ := scatter_spec
    (fun c : V3u => uadd (uadd c.x (umul (u32 nx) c.y)) (umul (umul (u32 nx) (u32 ny)) c.z))
    layer.vox y layer.cells data (by
      intro c hc
      obtain ⟨h1, h2, h3⟩ := (hcells c).1 hc
      obtain ⟨e, hlt⟩ := hidx c hc
      simp only [e]
      exact ⟨by omega, hvox c h1 h2 h3⟩)
  refine ⟨out, ?_, hl, ?_, ?_⟩
  · unfold readScalarField
    rw [hin]
    simp only [hcls, ne_eq, not_true_eq_false, if_false, hres]
    rw [readScalarLoop_eq_foldlM, ho]
    · rfl
    · intro c hc
      simp only [hsize, (hidx c hc).1]
      exact (hidx c hc).2
  · intro p hlt
    rw [hp p]
    obtain ⟨i, j, k, h1, h2, h3, e⟩ := flat_index_surj hlt
    have hc : (⟨i, j, k⟩ : V3u) ∈ layer.cells := (hcells ⟨i, j, k⟩).2 ⟨h1, h2, h3⟩
    rw [if_pos ⟨⟨i, j, k⟩, hc, by rw [(hidx _ hc).1]; exact e⟩]
  · intro p hge
    rw [hp p, if_neg]
    rintro ⟨c, hc, e⟩
    have := hidx c hc
    omega

/-- When the destination has exactly one entry per voxel, it becomes `y`. -/
theorem eq_of_getElem?_prefix (dest y : List ℚ) (n : Nat) (hy : y.length = n)
    (hl : dest.length = n) (h : ∀ p, p < n → dest[p]? = y[p]?) : dest = y := by
  apply List.ext_getElem?
  intro p
  by_cases hlt : p < n
  · exact h p hlt
  · rw [List.getElem?_eq_none (by omega), List.getElem?_eq_none (by omega)]

theorem writeScalarLayer_accepted (out : Field3DOutputFile) (l : Layer)
    (hacc : ∀ l, out.accepts out.layers l = true) :
    out.writeScalarLayer l = (true, { out with layers := out.layers ++ [l] }) := by
  simp [Field3DOutputFile.writeScalarLayer, hacc]

/-- The conversion to `half` of two samples used below: `1 + 2^-12` is rounded to `1`,
and `13/2^27` (about `9.7e-8`) to `2^-23` (about `1.2e-7`). -/
theorem halfOfFloat_values :
    halfOfFloat (4097 / 4096) = 1 ∧ halfOfFloat 1 = 1 ∧
    halfOfFloat (13 / 134217728) = 1 / 8388608 := by
  refine ⟨?_, ?_, ?_⟩
  · have ht : |(4097 / 4096 : ℚ)| * 16777216 = 16781312 := by
      rw [abs_of_pos (by norm_num)]
      norm_num
    have hf : ⌊(16781312 : ℚ)⌋₊ = 16781312 := by
      rw [Nat.floor_eq_iff (by norm_num)]
      norm_num
    have hj : Nat.log 2 16781312 - 10 = 14 := by
      rw [Nat.log_eq_of_pow_le_of_lt_pow (by norm_num : 2 ^ 24 ≤ 16781312) (by norm_num)]
    have hq : ⌊(16781312 : ℚ) / 2 ^ 14⌋₊ = 1024 := by
      rw [Nat.floor_eq_iff (by norm_num)]
      norm_num
    unfold halfOfFloat
    simp only [ht, hf, hj, hq]
    norm_num
  · have ht : |(1 : ℚ)| * 16777216 = 16777216 := by
      rw [abs_of_pos (by norm_num)]
      norm_num
    have hf : ⌊(16777216 : ℚ)⌋₊ = 16777216 := by
      rw [Nat.floor_eq_iff (by norm_num)]
      norm_num
    have hj : Nat.log 2 16777216 - 10 = 14 := by
      rw [Nat.log_eq_of_pow_le_of_lt_pow (by norm_num : 2 ^ 24 ≤ 16777216) (by norm_num)]
    have hq : ⌊(16777216 : ℚ) / 2 ^ 14⌋₊ = 1024 := by
      rw [Nat.floor_eq_iff (by norm_num)]
      norm_num
    unfold halfOfFloat
    simp only [ht, hf, hj, hq]
    norm_num
  · have ht : |(13 / 134217728 : ℚ)| * 16777216 = 13 / 8 := by
      rw [abs_of_pos (by norm_num)]
      norm_num
    have hf : ⌊(13 / 8 : ℚ)⌋₊ = 1 := by
      rw [Nat.floor_eq_iff (by norm_num)]
      norm_num
    have hj : Nat.log 2 1 - 10 = 0 := by
      rw [Nat.log_one_right]
    unfold halfOfFloat
    simp only [ht, hf, hj, pow_zero, div_one]
    norm_num

/-- Dense scalar round trip for every element type: `writeDenseScalarField` builds a
dense field and hands it to the store, and `readScalarField` at the same element
type leaves in the destination the source values cast to that type. -/
theorem denseScalar_decode (T : ExportType) (out : Field3DOutputFile)
    (fluidName fieldName : String)
    (nx ny nz : Nat) (transform : M44) (x : List ℚ) (inF : Field3DInputFile)
    (layer : ScalarLayer) (rest : List ScalarLayer) (data : List ℚ)
    (hx : x.length = nx * ny * nz) (h32 : nx * ny * nz < 4294967296)
    (hacc : ∀ l, out.accepts out.layers l = true)
    (hin : inF.readScalarLayers T.sample fieldName = layer :: rest)
    (hlayer : ∀ field, denseScalarField T fluidName fieldName ⟨nx, ny, nz⟩
      transform (some x) = some field → layer.toScalarField = field)
    (hcells : ∀ c, c ∈ layer.cells ↔ c.x < nx ∧ c.y < ny ∧ c.z < nz)
    (hdata : nx * ny * nz ≤ data.length) :
    (∃ field, denseScalarField T fluidName fieldName ⟨nx, ny, nz⟩
        transform (some x) = some field ∧
      writeDenseScalarField T out fluidName fieldName ⟨nx, ny, nz⟩ transform
        (some x) = some (true, { out with layers := out.layers ++ [Layer.scalar field] })) ∧
    ∃ dest, readScalarField FieldClass.DenseField T.sample inF fieldName data
        = some (true, dest) ∧
      dest.length = data.length ∧
      (∀ i j k, i < nx → j < ny → k < nz →
        dest[i + nx * j + nx * ny * k]? = (x.map T.cast)[i + nx * j + nx * ny * k]?) ∧
      (data.length = nx * ny * nz → dest = x.map T.cast) := by
  obtain ⟨vox, hcopy, hvox⟩ := (scalarCopy_spec T nx ny nz x hx h32).1
  have hfield : denseScalarField T fluidName fieldName ⟨nx, ny, nz⟩ transform
      (some x) = some
        { name := fluidName, attributeName := fieldName, mapping := some transform,
          dataResolution := ⟨nx, ny, nz⟩, cls := FieldClass.DenseField,
          sample := T.sample, vox := vox } := by
    unfold denseScalarField
    simp only [ScalarField.create, setFieldProperties]
    rw [hcopy]
    rfl
  have hl := hlayer _ hfield
  have hylen : (x.map T.cast).length = nx * ny * nz := by simp [hx]
  obtain ⟨dest, hread, hlen, hlow, -⟩ :=
    readScalarField_copy FieldClass.DenseField T.sample inF fieldName layer rest
      nx ny nz (x.map T.cast) data hin (by rw [hl]) (by rw [hl]) h32 hylen hdata hcells
      (fun c h1 h2 h3 => by rw [hl]; exact hvox c h1 h2 h3)
  refine ⟨⟨_, hfield, ?_⟩, dest, hread, hlen,
    fun i j k h1 h2 h3 => hlow _ (flat_index_lt h1 h2 h3),
    fun he => eq_of_getElem?_prefix dest _ _ hylen (by rw [hlen, he]) hlow⟩
  unfold writeDenseScalarField
  rw [hfield]
  simp [writeScalarLayer_accepted out _ hacc]

/-- C1 (counterexample). Element type `half` on both sides, resolution `(1,1,1)`, source
array `[4097/4096]` (the sample `1 + 2^-12`): the dense field `writeDenseScalarField`
builds is read back by `readScalarField` as `[1]`, which is not the source
array. -/
theorem dense_half_counterexample :
    ([4097 / 4096] : List ℚ).length = 1 * 1 * 1 ∧
    Examples.halfDenseInput.readScalarLayers SampleType.half "density" =
      [Examples.halfDenseLayer] ∧
    (∃ field, denseScalarField (ExportType.half halfOfFloat) "fluid" "density" ⟨1, 1, 1⟩ 1
        (some [4097 / 4096]) = some field ∧ Examples.halfDenseLayer.toScalarField = field) ∧
    readScalarField FieldClass.DenseField SampleType.half Examples.halfDenseInput "density"
      [0] = some (true, [1]) ∧
    ([1] : List ℚ) ≠ [4097 / 4096] := by
  have hlayer : ∀ field, denseScalarField (ExportType.half halfOfFloat) "fluid" "density"
      ⟨1, 1, 1⟩ 1 (some [4097 / 4096]) = some field →
      Examples.halfDenseLayer.toScalarField = field := by
    intro field h
    unfold Examples.halfDenseLayer
    simp only [h, Option.getD_some]
  obtain ⟨⟨field, hfield, -⟩, dest, hread, -, -, heq⟩ :=
    denseScalar_decode (ExportType.half halfOfFloat) Examples.acceptingOutput "fluid" "density"
      1 1 1 1 [4097 / 4096] Examples.halfDenseInput Examples.halfDenseLayer [] [0]
      rfl (by decide) (fun _ => rfl) rfl hlayer (fun c => mem_loopKJI ⟨1, 1, 1⟩ c) (by decide)
  refine ⟨rfl, rfl, ⟨field, hfield, hlayer field hfield⟩, ?_, ?_⟩
  · have hread2 : readScalarField FieldClass.DenseField SampleType.half
        Examples.halfDenseInput "density" [0] = some (true, dest) := hread
    rw [hread2, heq rfl]
    simp [ExportType.half, halfOfFloat_values.1]
  · intro h
    have h1 := List.head_eq_of_cons_eq h
    norm_num at h1

/-- C1 (amended). Dense scalar round trip: for a resolution whose product fits in 32
bits, a source array `x` of that size and every element type `T`,
`writeDenseScalarField` builds a dense field and hands it to the store; when the
layer read back is that field, with an iterator visiting exactly the voxels of
the grid, `readScalarField` at the same element type returns `true` and leaves
in the destination array, at every index `i + nx*j + nx*ny*k`, the value
`x[i + nx*j + nx*ny*k]` converted to the element type; a destination with exactly
one entry per voxel becomes `x` converted entry by entry. The converted array is
`x` itself when the conversion changes no entry, as for the element type
`float`. -/
theorem dense_scalar_roundtrip (T : ExportType) (out : Field3DOutputFile)
    (fluidName fieldName : String)
    (nx ny nz : Nat) (transform : M44) (x : List ℚ) (inF : Field3DInputFile)
    (layer : ScalarLayer) (rest : List ScalarLayer) (data : List ℚ)
    (hx : x.length = nx * ny * nz) (h32 : nx * ny * nz < 4294967296)
    (hacc : ∀ l, out.accepts out.layers l = true)
    (hin : inF.readScalarLayers T.sample fieldName = layer :: rest)
    (hlayer : ∀ field, denseScalarField T fluidName fieldName ⟨nx, ny, nz⟩
      transform (some x) = some field → layer.toScalarField = field)
    (hcells : ∀ c, c ∈ layer.cells ↔ c.x < nx ∧ c.y < ny ∧ c.z < nz)
    (hdata : nx * ny * nz ≤ data.length) :
    ((∃ field, denseScalarField T fluidName fieldName ⟨nx, ny, nz⟩
        transform (some x) = some field ∧
      writeDenseScalarField T out fluidName fieldName ⟨nx, ny, nz⟩ transform
        (some x) = some (true, { out with layers := out.layers ++ [Layer.scalar field] })) ∧
    ∃ dest, readScalarField FieldClass.DenseField T.sample inF fieldName data
        = some (true, dest) ∧
      dest.length = data.length ∧
      (∀ i j k, i < nx → j < ny → k < nz →
        dest[i + nx * j + nx * ny * k]? = (x.map T.cast)[i + nx * j + nx * ny * k]?) ∧
      (data.length = nx * ny * nz → dest = x.map T.cast)) ∧
    ((∀ v ∈ x, T.cast v = v) → x.map T.cast = x) ∧
    x.map ExportType.float.cast = x ∧ ExportType.float.sample = SampleType.float :=
  ⟨denseScalar_decode T out fluidName fieldName nx ny nz transform x inF layer rest data
      hx h32 hacc hin hlayer hcells hdata,
    fun h => by
      conv_rhs => rw [← List.map_id x]
      exact List.map_congr_left h,
    by simp [ExportType.float], rfl⟩

theorem dense_scalar_roundtrip_witness :
    Examples.onesDensity.length = 2 * 2 * 2 ∧
    Examples.denseInput.readScalarLayers SampleType.float "density" = [Examples.denseLayer] ∧
    readScalarField FieldClass.DenseField SampleType.float Examples.denseInput "density"
      [0, 0, 0, 0, 0, 0, 0, 0] = some (true, [1, 1, 1, 1, 1, 1, 1, 1]) := by
  obtain ⟨⟨-, dest, hread, -, -, heq⟩, -, hid, -⟩ :=
    dense_scalar_roundtrip ExportType.float Examples.acceptingOutput "fluid" "density" 2 2 2 1
      Examples.onesDensity Examples.denseInput Examples.denseLayer [] [0, 0, 0, 0, 0, 0, 0, 0]
      rfl (by decide) (fun _ => rfl) rfl
      (fun field h => by
        unfold Examples.denseLayer
        simp only [h, Option.getD_some])
      (fun c => mem_loopKJI ⟨2, 2, 2⟩ c) (by decide)
  rw [heq rfl, hid] at hread
  exact ⟨rfl, rfl, hread⟩

/-- Sparse thresholding for every element type: the value written at a voxel is the
source value cast to the element type, and it is written only when it exceeds
`SPARSE_THRESHOLD`; `readScalarField` at the same element type reads that value,
or the sparse default zero. -/
theorem sparseScalar_decode (T : ExportType) (out : Field3DOutputFile)
    (fluidName fieldName : String)
    (nx ny nz : Nat) (transform : M44) (x : List ℚ) (inF : Field3DInputFile)
    (layer : ScalarLayer) (rest : List ScalarLayer) (data : List ℚ)
    (hx : x.length = nx * ny * nz)
    (hacc : ∀ l, out.accepts out.layers l = true)
    (hin : inF.readScalarLayers T.sample fieldName = layer :: rest)
    (hlayer : ∀ field, sparseScalarField T fluidName fieldName ⟨nx, ny, nz⟩
      transform (some x) = some field → layer.toScalarField = field)
    (hcells : ∀ c, c ∈ layer.cells ↔ c.x < nx ∧ c.y < ny ∧ c.z < nz)
    (hdata : nx * ny * nz ≤ data.length) (hmaya : data.length < 4294967296) :
    (∃ field, sparseScalarField T fluidName fieldName ⟨nx, ny, nz⟩
        transform (some x) = some field ∧
      writeSparseScalarField T out fluidName fieldName ⟨nx, ny, nz⟩ transform
        (some x) = some (true, { out with layers := out.layers ++ [Layer.scalar field] })) ∧
    ∃ dest, readScalarField FieldClass.SparseField T.sample inF fieldName data
        = some (true, dest) ∧
      dest.length = data.length ∧
      (∀ (idx : Nat) (v : ℚ), x[idx]? = some v →
        (T.cast v > SPARSE_THRESHOLD → dest[idx]? = some (T.cast v)) ∧
        (T.cast v ≤ SPARSE_THRESHOLD → dest[idx]? = some 0)) ∧
      (data.length = nx * ny * nz →
        dest = x.map fun v => if T.cast v > SPARSE_THRESHOLD then T.cast v else 0) := by
  have h32 : nx * ny * nz < 4294967296 := by omega
  obtain ⟨vox, hcopy, hvox⟩ := (scalarCopy_spec T nx ny nz x hx h32).2
  have hfield : sparseScalarField T fluidName fieldName ⟨nx, ny, nz⟩ transform
      (some x) = some
        { name := fluidName, attributeName := fieldName, mapping := some transform,
          dataResolution := ⟨nx, ny, nz⟩, cls := FieldClass.SparseField,
          sample := T.sample, vox := vox } := by
    unfold sparseScalarField
    simp only [ScalarField.create, setFieldProperties]
    rw [hcopy]
    rfl
  have hl := hlayer _ hfield
  have hylen : (x.map fun v => if T.cast v > SPARSE_THRESHOLD then T.cast v else 0).length =
      nx * ny * nz := by
    simp [hx]
  obtain ⟨dest, hread, hlen, hlow, -⟩ :=
    readScalarField_copy FieldClass.SparseField T.sample inF fieldName layer rest
      nx ny nz _ data hin (by rw [hl]) (by rw [hl]) h32 hylen hdata hcells
      (fun c h1 h2 h3 => by rw [hl]; exact hvox c h1 h2 h3)
  refine ⟨⟨_, hfield, ?_⟩, dest, hread, hlen, ?_,
    fun he => eq_of_getElem?_prefix dest _ _ hylen (by rw [hlen, he]) hlow⟩
  · unfold writeSparseScalarField
    rw [hfield]
    simp [writeScalarLayer_accepted out _ hacc]
  · intro idx v hv
    have hlt : idx < nx * ny * nz := by
      rw [← hx]
      exact (List.getElem?_eq_some_iff.1 hv).1
    rw [hlow idx hlt]
    constructor
    · intro hgt
      simp [hv, hgt]
    · intro hle
      simp [hv, not_lt.2 hle]

/-- C2 (counterexample). Resolution `(1,1,1)`. With element type `float` and the source
sample `14073749/2^47`, which is above `1e-7`, the sparse field decodes to `0`,
not to the sample: the sample equals `SPARSE_THRESHOLD` and does not exceed it.
With element type `half` and the source sample `13/2^27`, which is not above
`1e-7`, the sparse field decodes to `2^-23`, not to `0`: the value compared with
the threshold and written is the sample converted to `half`. -/
theorem sparse_threshold_counterexample :
    ((14073749 / 140737488355328 : ℚ) > 1 / 10000000 ∧
      Examples.thresholdInput.readScalarLayers SampleType.float "density" =
        [Examples.thresholdLayer] ∧
      (∃ field, sparseScalarField ExportType.float "fluid" "density" ⟨1, 1, 1⟩ 1
          (some [14073749 / 140737488355328]) = some field ∧
        Examples.thresholdLayer.toScalarField = field) ∧
      readScalarField FieldClass.SparseField SampleType.float Examples.thresholdInput
        "density" [7] = some (true, [0]) ∧
      (0 : ℚ) ≠ 14073749 / 140737488355328) ∧
    ((13 / 134217728 : ℚ) ≤ 1 / 10000000 ∧
      Examples.thresholdInput.readScalarLayers SampleType.half "density" =
        [Examples.halfSparseLayer] ∧
      (∃ field, sparseScalarField (ExportType.half halfOfFloat) "fluid" "density" ⟨1, 1, 1⟩ 1
          (some [13 / 134217728]) = some field ∧
        Examples.halfSparseLayer.toScalarField = field) ∧
      readScalarField FieldClass.SparseField SampleType.half Examples.thresholdInput
        "density" [7] = some (true, [1 / 8388608]) ∧
      (1 / 8388608 : ℚ) ≠ 0) := by
  have hlayerF : ∀ field, sparseScalarField ExportType.float "fluid" "density"
      ⟨1, 1, 1⟩ 1 (some [14073749 / 140737488355328]) = some field →
      Examples.thresholdLayer.toScalarField = field := by
    intro field h
    unfold Examples.thresholdLayer
    simp only [h, Option.getD_some]
  have hlayerH : ∀ field, sparseScalarField (ExportType.half halfOfFloat) "fluid" "density"
      ⟨1, 1, 1⟩ 1 (some [13 / 134217728]) = some field →
      Examples.halfSparseLayer.toScalarField = field := by
    intro field h
    unfold Examples.halfSparseLayer
    simp only [h, Option.getD_some]
  obtain ⟨⟨fieldF, hfieldF, -⟩, destF, hreadF, -, -, heqF⟩ :=
    sparseScalar_decode ExportType.float Examples.acceptingOutput "fluid" "density"
      1 1 1 1 [14073749 / 140737488355328] Examples.thresholdInput Examples.thresholdLayer []
      [7] rfl (fun _ => rfl) rfl hlayerF (fun c => mem_loopKJI ⟨1, 1, 1⟩ c) (by decide)
      (by decide)
  obtain ⟨⟨fieldH, hfieldH, -⟩, destH, hreadH, -, -, heqH⟩ :=
    sparseScalar_decode (ExportType.half halfOfFloat) Examples.acceptingOutput "fluid"
      "density" 1 1 1 1 [13 / 134217728] Examples.thresholdInput Examples.halfSparseLayer []
      [7] rfl (fun _ => rfl) rfl hlayerH (fun c => mem_loopKJI ⟨1, 1, 1⟩ c) (by decide)
      (by decide)
  have hreadF2 : readScalarField FieldClass.SparseField SampleType.float
      Examples.thresholdInput "density" [7] = some (true, destF) := hreadF
  have hreadH2 : readScalarField FieldClass.SparseField SampleType.half
      Examples.thresholdInput "density" [7] = some (true, destH) := hreadH
  refine ⟨⟨by norm_num, rfl, ⟨fieldF, hfieldF, hlayerF fieldF hfieldF⟩, ?_, by norm_num⟩,
    ⟨by norm_num, rfl, ⟨fieldH, hfieldH, hlayerH fieldH hfieldH⟩, ?_, by norm_num⟩⟩
  · rw [hreadF2, heqF rfl]
    simp [ExportType.float, SPARSE_THRESHOLD]
  · rw [hreadH2, heqH rfl]
    simp only [ExportType.half, List.map_cons, List.map_nil, halfOfFloat_values.2.2]
    norm_num [SPARSE_THRESHOLD]

/-- C2 (amended). Sparse thresholding: for every resolution, every source array `x` of
that size and every element type `T`, decoding the sparse field built by
`writeSparseScalarField` (sparse default value zero) into a destination Maya
array with at least one entry per voxel (a Maya array has its length in an
`unsigned int`, so below `2^32`) gives at every voxel index the value `v` when
`v` exceeds `SPARSE_THRESHOLD` and zero when it does not, whatever its sign,
where `v` is the source value converted to the element type (the source value
itself for `float`) and `SPARSE_THRESHOLD` is the `float` constant of the
source, `14073749/2^47`, which is above `1e-7`. -/
theorem sparse_thresholding (T : ExportType) (out : Field3DOutputFile)
    (fluidName fieldName : String)
    (nx ny nz : Nat) (transform : M44) (x : List ℚ) (inF : Field3DInputFile)
    (layer : ScalarLayer) (rest : List ScalarLayer) (data : List ℚ)
    (hx : x.length = nx * ny * nz)
    (hacc : ∀ l, out.accepts out.layers l = true)
    (hin : inF.readScalarLayers T.sample fieldName = layer :: rest)
    (hlayer : ∀ field, sparseScalarField T fluidName fieldName ⟨nx, ny, nz⟩
      transform (some x) = some field → layer.toScalarField = field)
    (hcells : ∀ c, c ∈ layer.cells ↔ c.x < nx ∧ c.y < ny ∧ c.z < nz)
    (hdata : nx * ny * nz ≤ data.length) (hmaya : data.length < 4294967296) :
    ((∃ field, sparseScalarField T fluidName fieldName ⟨nx, ny, nz⟩
        transform (some x) = some field ∧
      writeSparseScalarField T out fluidName fieldName ⟨nx, ny, nz⟩ transform
        (some x) = some (true, { out with layers := out.layers ++ [Layer.scalar field] })) ∧
    ∃ dest, readScalarField FieldClass.SparseField T.sample inF fieldName data
        = some (true, dest) ∧
      dest.length = data.length ∧
      (∀ (idx : Nat) (v : ℚ), x[idx]? = some v →
        (T.cast v > SPARSE_THRESHOLD → dest[idx]? = some (T.cast v)) ∧
        (T.cast v ≤ SPARSE_THRESHOLD → dest[idx]? = some 0)) ∧
      (data.length = nx * ny * nz →
        dest = x.map fun v => if T.cast v > SPARSE_THRESHOLD then T.cast v else 0)) ∧
    (∀ v, ExportType.float.cast v = v) ∧ ExportType.float.sample = SampleType.float ∧
    SPARSE_THRESHOLD = 14073749 / 140737488355328 ∧ (1 / 10000000 : ℚ) < SPARSE_THRESHOLD :=
  ⟨sparseScalar_decode T out fluidName fieldName nx ny nz transform x inF layer rest data
      hx hacc hin hlayer hcells hdata hmaya,
    fun _ => rfl, rfl, rfl, by norm_num [SPARSE_THRESHOLD]⟩

theorem sparse_thresholding_witness :
    Examples.mixedDensity.length = 2 * 2 * 2 ∧
    Examples.sparseInput.readScalarLayers SampleType.float "density" = [Examples.sparseLayer] ∧
    readScalarField FieldClass.SparseField SampleType.float Examples.sparseInput "density"
      [7, 7, 7, 7, 7, 7, 7, 7] = some (true, [1, 0, 0, 0, 0, 2, 0, 3]) := by
  refine ⟨rfl, rfl, ?_⟩
  obtain ⟨⟨-, dest, hread, -, -, heq⟩, -⟩ :=
    sparse_thresholding ExportType.float Examples.acceptingOutput "fluid" "density" 2 2 2 1
      Examples.mixedDensity Examples.sparseInput Examples.sparseLayer [] [7, 7, 7, 7, 7, 7, 7, 7]
      rfl (fun _ => rfl) rfl
      (fun field h => by
        unfold Examples.sparseLayer
        simp only [h, Option.getD_some])
      (fun c => mem_loopKJI ⟨2, 2, 2⟩ c) (by decide) (by decide)
  have hread2 : readScalarField FieldClass.SparseField SampleType.float Examples.sparseInput
      "density" [7, 7, 7, 7, 7, 7, 7, 7] = some (true, dest) := hread
  rw [heq rfl] at hread2
  rw [hread2]
  norm_num [Examples.mixedDensity, SPARSE_THRESHOLD, ExportType.float]

/-! ## Staggered (MAC) fields -/

/-- Reading a source array of size `a*b*c` at the flat index of a voxel of the grid
`(a,b,c)`: the products do not wrap and the read is inside the array. -/
theorem deref_flat (l : List ℚ) {a b c i j k : Nat} (hl : l.length = a * b * c)
    (h32 : a * b * c < 4294967296) (hi : i < a) (hj : j < b) (hk : k < c) :
    deref (some l) (i + umul a j + umul (umul a b) k) =
      some (l.getD (i + a * j + a * b * k) 0) := by
  obtain ⟨e1, e2, -⟩ := flat_products hi hj hk h32
  have hlt : i + a * j + a * b * k < l.length := by rw [hl]; exact flat_index_lt hi hj hk
  rw [e1, e2]
  simp [deref, List.getD, List.getElem?_eq_getElem hlt]

theorem map_flat (f : ℚ → ℚ) (l : List ℚ) {a b c i j k : Nat} (hl : l.length = a * b * c)
    (hi : i < a) (hj : j < b) (hk : k < c) :
    (l.map f)[i + a * j + a * b * k]? = some (f (l.getD (i + a * j + a * b * k) 0)) := by
  have hlt : i + a * j + a * b * k < l.length := by rw [hl]; exact flat_index_lt hi hj hk
  simp [List.getD, List.getElem?_eq_getElem hlt]

/-- A loop of assignments to voxels: the value at a voxel after the loop. -/
theorem foldl_setVox_all {κ β : Type} (key : κ → V3u) (val : V3u → β)
    (l : List κ) (init : V3u → β) (d : V3u) :
    (l.foldl (fun f a => setVox f (key a) (val (key a))) init) d =
      if (∃ a ∈ l, key a = d) then val d else init d := by
  have h := foldl_setVox key (fun _ => true) val l init d
  simpa using h

/-- The common loop of `writeMACVectorField`: it stays inside the three source arrays
and fills the voxels below the resolution of each component grid. -/
theorem macInterior_spec (T : ExportType) (nx ny nz : Nat) (vx vy vz : List ℚ)
    (hu : vx.length = (nx + 1) * ny * nz) (hv : vy.length = nx * (ny + 1) * nz)
    (hw : vz.length = nx * ny * (nz + 1))
    (bu : (nx + 1) * ny * nz < 4294967296) (bv : nx * (ny + 1) * nz < 4294967296)
    (bw : nx * ny * (nz + 1) < 4294967296) (u0 v0 w0 : V3u → ℚ) :
    macInterior T ⟨nx, ny, nz⟩ (some vx) (some vy) (some vz) (u0, v0, w0) = some
      (fun d => if d.x < nx ∧ d.y < ny ∧ d.z < nz then
          T.cast (vx.getD (d.x + (nx + 1) * d.y + (nx + 1) * ny * d.z) 0) else u0 d,
       fun d => if d.x < nx ∧ d.y < ny ∧ d.z < nz then
          T.cast (vy.getD (d.x + nx * d.y + nx * (ny + 1) * d.z) 0) else v0 d,
       fun d => if d.x < nx ∧ d.y < ny ∧ d.z < nz then
          T.cast (vz.getD (d.x + nx * d.y + nx * ny * d.z) 0) else w0 d) := by
  have hmem : ∀ d : V3u, (∃ a ∈ loopXYZ ⟨nx, ny, nz⟩, (fun c : V3u => c) a = d) ↔
      d.x < nx ∧ d.y < ny ∧ d.z < nz := by
    intro d
    constructor
    · rintro ⟨a, ha, rfl⟩
      exact (mem_loopXYZ _ _).1 ha
    · intro h
      exact ⟨d, (mem_loopXYZ _ _).2 h, rfl⟩
  unfold macInterior
  rw [foldlM_eq_some_foldl _
    (fun (s : (V3u → ℚ) × (V3u → ℚ) × (V3u → ℚ)) (a : V3u) =>
      ((fun (f : V3u → ℚ) (a : V3u) => setVox f ((fun c : V3u => c) a)
          ((fun d : V3u => T.cast (vx.getD (d.x + (nx + 1) * d.y + (nx + 1) * ny * d.z) 0))
            ((fun c : V3u => c) a))) s.1 a,
       (fun (f : V3u → ℚ) (a : V3u) => setVox f ((fun c : V3u => c) a)
          ((fun d : V3u => T.cast (vy.getD (d.x + nx * d.y + nx * (ny + 1) * d.z) 0))
            ((fun c : V3u => c) a))) s.2.1 a,
       (fun (f : V3u → ℚ) (a : V3u) => setVox f ((fun c : V3u => c) a)
          ((fun d : V3u => T.cast (vz.getD (d.x + nx * d.y + nx * ny * d.z) 0))
            ((fun c : V3u => c) a))) s.2.2 a))]
  · rw [foldl_triple
      (fun (f : V3u → ℚ) (a : V3u) => setVox f ((fun c : V3u => c) a)
          ((fun d : V3u => T.cast (vx.getD (d.x + (nx + 1) * d.y + (nx + 1) * ny * d.z) 0))
            ((fun c : V3u => c) a)))
      (fun (f : V3u → ℚ) (a : V3u) => setVox f ((fun c : V3u => c) a)
          ((fun d : V3u => T.cast (vy.getD (d.x + nx * d.y + nx * (ny + 1) * d.z) 0))
            ((fun c : V3u => c) a)))
      (fun (f : V3u → ℚ) (a : V3u) => setVox f ((fun c : V3u => c) a)
          ((fun d : V3u => T.cast (vz.getD (d.x + nx * d.y + nx * ny * d.z) 0))
            ((fun c : V3u => c) a)))]
    simp only [Option.some.injEq, Prod.mk.injEq]
    refine ⟨?_, ?_, ?_⟩ <;>
    · funext d
      rw [foldl_setVox_all (fun c : V3u => c)]
      simp only [hmem d]
  · intro c hc st
    obtain ⟨h1, h2, h3⟩ := (mem_loopXYZ _ c).1 hc
    have e1 : uadd nx 1 = nx + 1 :=
      u32_eq_of_lt (flat_products (Nat.lt_succ_of_lt h1) h2 h3 bu).2.2.1
    have e2 : uadd ny 1 = ny + 1 :=
      u32_eq_of_lt (flat_products h1 (Nat.lt_succ_of_lt h2) h3 bv).2.2.2.1
    simp only [e1, e2]
    rw [deref_flat vx hu bu (Nat.lt_succ_of_lt h1) h2 h3,
      deref_flat vy hv bv h1 (Nat.lt_succ_of_lt h2) h3,
      deref_flat vz hw bw h1 h2 (Nat.lt_succ_of_lt h3)]

/-- The loop of `writeMACVectorField` over the last slab of `u`. -/
theorem macBoundaryU_spec (T : ExportType) (nx ny nz : Nat) (vx : List ℚ)
    (hu : vx.length = (nx + 1) * ny * nz) (bu : (nx + 1) * ny * nz < 4294967296)
    (u0 : V3u → ℚ) :
    macBoundaryU T ⟨nx, ny, nz⟩ (some vx) u0 = some
      (fun d => if d.x = nx ∧ d.y < ny ∧ d.z < nz then
          T.cast (vx.getD (d.x + (nx + 1) * d.y + (nx + 1) * ny * d.z) 0) else u0 d) := by
  have hmem : ∀ d : V3u,
      (∃ a ∈ loop2 ny nz, (fun yz : Nat × Nat => (⟨nx, yz.1, yz.2⟩ : V3u)) a = d) ↔
        d.x = nx ∧ d.y < ny ∧ d.z < nz := by
    intro d
    constructor
    · rintro ⟨a, ha, rfl⟩
      exact ⟨rfl, (mem_loop2 _ _ a).1 ha⟩
    · rintro ⟨h1, h2, h3⟩
      refine ⟨(d.y, d.z), (mem_loop2 _ _ _).2 ⟨h2, h3⟩, ?_⟩
      cases d
      simp only at h1
      simp [h1]
  unfold macBoundaryU
  rw [foldlM_eq_some_foldl _
    (fun (f : V3u → ℚ) (a : Nat × Nat) =>
      setVox f ((fun yz : Nat × Nat => (⟨nx, yz.1, yz.2⟩ : V3u)) a)
        ((fun d : V3u => T.cast (vx.getD (d.x + (nx + 1) * d.y + (nx + 1) * ny * d.z) 0))
          ((fun yz : Nat × Nat => (⟨nx, yz.1, yz.2⟩ : V3u)) a)))]
  · apply congrArg some
    funext d
    have h := foldl_setVox_all (fun yz : Nat × Nat => (⟨nx, yz.1, yz.2⟩ : V3u))
      (fun d : V3u => T.cast (vx.getD (d.x + (nx + 1) * d.y + (nx + 1) * ny * d.z) 0))
      (loop2 ny nz) u0 d
    rw [if_congr (hmem d) rfl rfl] at h
    exact h
  · intro yz hyz st
    obtain ⟨h2, h3⟩ := (mem_loop2 _ _ yz).1 hyz
    have e1 : uadd nx 1 = nx + 1 :=
      u32_eq_of_lt (flat_products (Nat.lt_succ_self nx) h2 h3 bu).2.2.1
    simp only [e1]
    rw [deref_flat vx hu bu (Nat.lt_succ_self nx) h2 h3]

/-- The loop of `writeMACVectorField` over the last slab of `v`. -/
theorem macBoundaryV_spec (T : ExportType) (nx ny nz : Nat) (vy : List ℚ)
    (hv : vy.length = nx * (ny + 1) * nz) (bv : nx * (ny + 1) * nz < 4294967296)
    (v0 : V3u → ℚ) :
    macBoundaryV T ⟨nx, ny, nz⟩ (some vy) v0 = some
      (fun d => if d.x < nx ∧ d.y = ny ∧ d.z < nz then
          T.cast (vy.getD (d.x + nx * d.y + nx * (ny + 1) * d.z) 0) else v0 d) := by
  have hmem : ∀ d : V3u,
      (∃ a ∈ loop2 nx nz, (fun xz : Nat × Nat => (⟨xz.1, ny, xz.2⟩ : V3u)) a = d) ↔
        d.x < nx ∧ d.y = ny ∧ d.z < nz := by
    intro d
    constructor
    · rintro ⟨a, ha, rfl⟩
      exact ⟨((mem_loop2 _ _ a).1 ha).1, rfl, ((mem_loop2 _ _ a).1 ha).2⟩
    · rintro ⟨h1, h2, h3⟩
      refine ⟨(d.x, d.z), (mem_loop2 _ _ _).2 ⟨h1, h3⟩, ?_⟩
      cases d
      simp only at h2
      simp [h2]
  unfold macBoundaryV
  rw [foldlM_eq_some_foldl _
    (fun (f : V3u → ℚ) (a : Nat × Nat) =>
      setVox f ((fun xz : Nat × Nat => (⟨xz.1, ny, xz.2⟩ : V3u)) a)
        ((fun d : V3u => T.cast (vy.getD (d.x + nx * d.y + nx * (ny + 1) * d.z) 0))
          ((fun xz : Nat × Nat => (⟨xz.1, ny, xz.2⟩ : V3u)) a)))]
  · apply congrArg some
    funext d
    have h := foldl_setVox_all (fun xz : Nat × Nat => (⟨xz.1, ny, xz.2⟩ : V3u))
      (fun d : V3u => T.cast (vy.getD (d.x + nx * d.y + nx * (ny + 1) * d.z) 0))
      (loop2 nx nz) v0 d
    rw [if_congr (hmem d) rfl rfl] at h
    exact h
  · intro xz hxz st
    obtain ⟨h1, h3⟩ := (mem_loop2 _ _ xz).1 hxz
    have e2 : uadd ny 1 = ny + 1 :=
      u32_eq_of_lt (flat_products h1 (Nat.lt_succ_self ny) h3 bv).2.2.2.1
    simp only [e2]
    have hd := deref_flat vy hv bv h1 (Nat.lt_succ_self ny) h3
    have e3 : umul nx ny = nx * ny := (flat_products h1 (Nat.lt_succ_self ny) h3 bv).1
    rw [e3] at hd ⊢
    rw [hd]

/-- The loop of `writeMACVectorField` over the last slab of `w`. -/
theorem macBoundaryW_spec (T : ExportType) (nx ny nz : Nat) (vz : List ℚ)
    (hw : vz.length = nx * ny * (nz + 1)) (bw : nx * ny * (nz + 1) < 4294967296)
    (w0 : V3u → ℚ) :
    macBoundaryW T ⟨nx, ny, nz⟩ (some vz) w0 = some
      (fun d => if d.x < nx ∧ d.y < ny ∧ d.z = nz then
          T.cast (vz.getD (d.x + nx * d.y + nx * ny * d.z) 0) else w0 d) := by
  have hmem : ∀ d : V3u,
      (∃ a ∈ loop2 nx ny, (fun xy : Nat × Nat => (⟨xy.1, xy.2, nz⟩ : V3u)) a = d) ↔
        d.x < nx ∧ d.y < ny ∧ d.z = nz := by
    intro d
    constructor
    · rintro ⟨a, ha, rfl⟩
      exact ⟨((mem_loop2 _ _ a).1 ha).1, ((mem_loop2 _ _ a).1 ha).2, rfl⟩
    · rintro ⟨h1, h2, h3⟩
      refine ⟨(d.x, d.y), (mem_loop2 _ _ _).2 ⟨h1, h2⟩, ?_⟩
      cases d
      simp only at h3
      simp [h3]
  unfold macBoundaryW
  rw [foldlM_eq_some_foldl _
    (fun (f : V3u → ℚ) (a : Nat × Nat) =>
      setVox f ((fun xy : Nat × Nat => (⟨xy.1, xy.2, nz⟩ : V3u)) a)
        ((fun d : V3u => T.cast (vz.getD (d.x + nx * d.y + nx * ny * d.z) 0))
          ((fun xy : Nat × Nat => (⟨xy.1, xy.2, nz⟩ : V3u)) a)))]
  · apply congrArg some
    funext d
    have h := foldl_setVox_all (fun xy : Nat × Nat => (⟨xy.1, xy.2, nz⟩ : V3u))
      (fun d : V3u => T.cast (vz.getD (d.x + nx * d.y + nx * ny * d.z) 0))
      (loop2 nx ny) w0 d
    rw [if_congr (hmem d) rfl rfl] at h
    exact h
  · intro xy hxy st
    obtain ⟨h1, h2⟩ := (mem_loop2 _ _ xy).1 hxy
    rw [deref_flat vz hw bw h1 h2 (Nat.lt_succ_self nz)]

/-- The field `writeMACVectorField` builds: every voxel of each staggered component
grid holds the cast source value at the flat index of that grid. -/
theorem macVectorField_spec (T : ExportType) (fluidName fieldName : String) (nx ny nz : Nat)
    (transform : M44) (vx vy vz : List ℚ)
    (hu : vx.length = (nx + 1) * ny * nz) (hv : vy.length = nx * (ny + 1) * nz)
    (hw : vz.length = nx * ny * (nz + 1))
    (bu : (nx + 1) * ny * nz < 4294967296) (bv : nx * (ny + 1) * nz < 4294967296)
    (bw : nx * ny * (nz + 1) < 4294967296) :
    ∃ field, macVectorField T fluidName fieldName ⟨nx, ny, nz⟩ transform
        (some vx) (some vy) (some vz) = some field ∧
      field.cls = FieldClass.MACField ∧ field.dataResolution = ⟨nx, ny, nz⟩ ∧
      field.sample = T.sample ∧ field.name = fluidName ∧ field.attributeName = fieldName ∧
      field.mapping = some transform ∧
      (∀ c : V3u, c.x < nx + 1 → c.y < ny → c.z < nz →
        (vx.map T.cast)[c.x + (nx + 1) * c.y + (nx + 1) * ny * c.z]? = some (field.u c)) ∧
      (∀ c : V3u, c.x < nx → c.y < ny + 1 → c.z < nz →
        (vy.map T.cast)[c.x + nx * c.y + nx * (ny + 1) * c.z]? = some (field.v c)) ∧
      (∀ c : V3u, c.x < nx → c.y < ny → c.z < nz + 1 →
        (vz.map T.cast)[c.x + nx * c.y + nx * ny * c.z]? = some (field.w c)) := by
  refine ⟨
    { name := fluidName, attributeName := fieldName, mapping := some transform,
      dataResolution := ⟨nx, ny, nz⟩, cls := FieldClass.MACField, sample := T.sample,
      vox := fun _ => ⟨0, 0, 0⟩,
      u := fun d => if d.x = nx ∧ d.y < ny ∧ d.z < nz then
          T.cast (vx.getD (d.x + (nx + 1) * d.y + (nx + 1) * ny * d.z) 0)
        else if d.x < nx ∧ d.y < ny ∧ d.z < nz then
          T.cast (vx.getD (d.x + (nx + 1) * d.y + (nx + 1) * ny * d.z) 0) else 0,
      v := fun d => if d.x < nx ∧ d.y = ny ∧ d.z < nz then
          T.cast (vy.getD (d.x + nx * d.y + nx * (ny + 1) * d.z) 0)
        else if d.x < nx ∧ d.y < ny ∧ d.z < nz then
          T.cast (vy.getD (d.x + nx * d.y + nx * (ny + 1) * d.z) 0) else 0,
      w := fun d => if d.x < nx ∧ d.y < ny ∧ d.z = nz then
          T.cast (vz.getD (d.x + nx * d.y + nx * ny * d.z) 0)
        else if d.x < nx ∧ d.y < ny ∧ d.z < nz then
          T.cast (vz.getD (d.x + nx * d.y + nx * ny * d.z) 0) else 0 },
    ?_, rfl, rfl, rfl, rfl, rfl, rfl, ?_, ?_, ?_⟩
  · unfold macVectorField
    simp only [VectorField.create, setFieldProperties]
    rw [macInterior_spec T nx ny nz vx vy vz hu hv hw bu bv bw]
    simp only [Option.bind_eq_bind, Option.some_bind]
    rw [macBoundaryU_spec T nx ny nz vx hu bu]
    simp only [Option.some_bind]
    rw [macBoundaryV_spec T nx ny nz vy hv bv]
    simp only [Option.some_bind]
    rw [macBoundaryW_spec T nx ny nz vz hw bw]
    rfl
  · intro c h1 h2 h3
    rw [map_flat T.cast vx hu h1 h2 h3]
    by_cases hb : c.x = nx
    · simp [hb, h2, h3]
    · have : c.x < nx := by omega
      simp [hb, this, h2, h3]
  · intro c h1 h2 h3
    rw [map_flat T.cast vy hv h1 h2 h3]
    by_cases hb : c.y = ny
    · simp [hb, h1, h3]
    · have : c.y < ny := by omega
      simp [hb, this, h1, h3]
  · intro c h1 h2 h3
    rw [map_flat T.cast vz hw h1 h2 h3]
    by_cases hb : c.z = nz
    · simp [hb, h1, h2]
    · have : c.z < nz := by omega
      simp [hb, this, h1, h2]

theorem u32OfInt_natCast (n : Nat) : u32OfInt (n : Int) = u32 n := by
  unfold u32OfInt u32
  have h : ((n : Int) % 4294967296) = ((n % 4294967296 : Nat) : Int) := by norm_cast
  rw [h, Int.toNat_ofNat]

/-- The destination index the MAC reader computes for a voxel of a component grid
with resolution `(a, b, _)`, as one wrap-around. The resolution the reader holds
may itself be wrapped. -/
theorem mac_index_eq (off i j k a b a1 b1 : Nat) (ha : u32 a1 = u32 a) (hb : u32 b1 = u32 b) :
    uadd (uadd (uadd off i) (umul j a1)) (umul (umul k a1) b1) =
      u32 (off + (i + a * j + a * b * k)) := by
  have ha' : (a1 : ZMod 4294967296) = (a : ZMod 4294967296) :=
    (ZMod.natCast_eq_natCast_iff' a1 a 4294967296).2 ha
  have hb' : (b1 : ZMod 4294967296) = (b : ZMod 4294967296) :=
    (ZMod.natCast_eq_natCast_iff' b1 b 4294967296).2 hb
  unfold uadd umul
  apply u32_eq_of_zmod
  simp only [u32]
  push_cast [ZMod.natCast_mod]
  rw [ha', hb']
  ring

theorem uadd_u32_one (n : Nat) : u32 (uadd (u32 n) 1) = u32 (n + 1) := by
  unfold uadd
  rw [u32_u32]
  simp [u32]

/-- Three lists laid end to end, read at an index of the first, second or third. -/
theorem append3_getElem? (yu yv yw : List ℚ) (p : Nat) :
    (p < yu.length → (yu ++ yv ++ yw)[p]? = yu[p]?) ∧
    (p < yv.length → (yu ++ yv ++ yw)[yu.length + p]? = yv[p]?) ∧
    ((yu ++ yv ++ yw)[yu.length + yv.length + p]? = yw[p]?) := by
  refine ⟨fun h => ?_, fun h => ?_, ?_⟩
  · rw [List.append_assoc, List.getElem?_append_left h]
  · rw [List.append_assoc, List.getElem?_append_right (by omega),
      List.getElem?_append_left (by omega)]
    congr 1
    omega
  · rw [List.getElem?_append_right (by simp)]
    congr 1
    simp

/-- Reading a MAC layer whose three component grids hold the values of the lists
`yu`, `yv`, `yw` at their flat index, when the reported component size is the
three element counts and the iterators visit exactly the voxels of each grid: the
call returns `true` and the destination array becomes `yu ++ yv ++ yw`. -/
theorem readMACField_copy (T : SampleType) (inF : Field3DInputFile) (fieldName : String)
    (layer : VectorLayer) (rest : List VectorLayer) (nx ny nz : Nat)
    (yu yv yw data : List ℚ)
    (hin : inF.readVectorLayers T fieldName = layer :: rest)
    (hcls : layer.cls = FieldClass.MACField) (hres : layer.dataResolution = ⟨nx, ny, nz⟩)
    (hs : layer.componentSize =
      ⟨(((nx + 1) * ny * nz : Nat) : Int), ((nx * (ny + 1) * nz : Nat) : Int),
        ((nx * ny * (nz + 1) : Nat) : Int)⟩)
    (hyu : yu.length = (nx + 1) * ny * nz) (hyv : yv.length = nx * (ny + 1) * nz)
    (hyw : yw.length = nx * ny * (nz + 1))
    (hd : data.length = (nx + 1) * ny * nz + nx * (ny + 1) * nz + nx * ny * (nz + 1))
    (h32 : data.length < 4294967296)
    (hcU : ∀ c, c ∈ layer.cellsU ↔ c.x < nx + 1 ∧ c.y < ny ∧ c.z < nz)
    (hcV : ∀ c, c ∈ layer.cellsV ↔ c.x < nx ∧ c.y < ny + 1 ∧ c.z < nz)
    (hcW : ∀ c, c ∈ layer.cellsW ↔ c.x < nx ∧ c.y < ny ∧ c.z < nz + 1)
    (hu : ∀ c : V3u, c.x < nx + 1 → c.y < ny → c.z < nz →
      yu[c.x + (nx + 1) * c.y + (nx + 1) * ny * c.z]? = some (layer.u c))
    (hv : ∀ c : V3u, c.x < nx → c.y < ny + 1 → c.z < nz →
      yv[c.x + nx * c.y + nx * (ny + 1) * c.z]? = some (layer.v c))
    (hw : ∀ c : V3u, c.x < nx → c.y < ny → c.z < nz + 1 →
      yw[c.x + nx * c.y + nx * ny * c.z]? = some (layer.w c)) :
    readMACField T inF fieldName data = some (true, yu ++ yv ++ yw) := by
  have hoff1 : u32OfInt (((0 : Nat) : Int) + (((nx + 1) * ny * nz : Nat) : Int))
      = (nx + 1) * ny * nz := by
    rw [Int.ofNat_zero, zero_add, u32OfInt_natCast, u32_eq_of_lt (by omega)]
  have hoff2 : u32OfInt ((((nx + 1) * ny * nz : Nat) : Int) + ((nx * (ny + 1) * nz : Nat) : Int))
      = (nx + 1) * ny * nz + nx * (ny + 1) * nz := by
    rw [← Int.ofNat_add, u32OfInt_natCast, u32_eq_of_lt (by omega)]
  -- the destination index of each component
  have hsrcU : ∀ c ∈ layer.cellsU,
      uadd (uadd (uadd 0 c.x) (umul c.y (uadd (u32 nx) 1)))
          (umul (umul c.z (uadd (u32 nx) 1)) (u32 ny)) =
        c.x + (nx + 1) * c.y + (nx + 1) * ny * c.z ∧
      c.x + (nx + 1) * c.y + (nx + 1) * ny * c.z < (nx + 1) * ny * nz := by
    intro c hc
    obtain ⟨h1, h2, h3⟩ := (hcU c).1 hc
    have hlt := flat_index_lt h1 h2 h3
    rw [mac_index_eq 0 c.x c.y c.z (nx + 1) ny _ _ (uadd_u32_one nx) (u32_u32 ny),
      u32_eq_of_lt (by omega)]
    exact ⟨by omega, hlt⟩
  have hsrcV : ∀ c ∈ layer.cellsV,
      uadd (uadd (uadd ((nx + 1) * ny * nz) c.x) (umul c.y (u32 nx)))
          (umul (umul c.z (u32 nx)) (uadd (u32 ny) 1)) =
        (nx + 1) * ny * nz + (c.x + nx * c.y + nx * (ny + 1) * c.z) ∧
      c.x + nx * c.y + nx * (ny + 1) * c.z < nx * (ny + 1) * nz := by
    intro c hc
    obtain ⟨h1, h2, h3⟩ := (hcV c).1 hc
    have hlt := flat_index_lt h1 h2 h3
    rw [mac_index_eq _ c.x c.y c.z nx (ny + 1) _ _ (u32_u32 nx) (uadd_u32_one ny),
      u32_eq_of_lt (by omega)]
    exact ⟨rfl, hlt⟩
  have hsrcW : ∀ c ∈ layer.cellsW,
      uadd (uadd (uadd ((nx + 1) * ny * nz + nx * (ny + 1) * nz) c.x) (umul c.y (u32 nx)))
          (umul (umul c.z (u32 nx)) (u32 ny)) =
        (nx + 1) * ny * nz + nx * (ny + 1) * nz + (c.x + nx * c.y + nx * ny * c.z) ∧
      c.x + nx * c.y + nx * ny * c.z < nx * ny * (nz + 1) := by
    intro c hc
    obtain ⟨h1, h2, h3⟩ := (hcW c).1 hc
    have hlt := flat_index_lt h1 h2 h3
    rw [mac_index_eq _ c.x c.y c.z nx ny _ _ (u32_u32 nx) (u32_u32 ny),
      u32_eq_of_lt (by omega)]
    exact ⟨rfl, hlt⟩
  -- the three copy loops
  obtain ⟨d1, ho1, hl1, hp1⟩ := scatter_spec
    (fun c : V3u => uadd (uadd (uadd 0 c.x) (umul c.y (uadd (u32 nx) 1)))
      (umul (umul c.z (uadd (u32 nx) 1)) (u32 ny)))
    layer.u (yu ++ yv ++ yw) layer.cellsU data (by
      intro c hc
      obtain ⟨h1, h2, h3⟩ := (hcU c).1 hc
      obtain ⟨e, hlt⟩ := hsrcU c hc
      simp only [e]
      refine ⟨by omega, ?_⟩
      rw [(append3_getElem? yu yv yw _).1 (by omega)]
      exact hu c h1 h2 h3)
  obtain ⟨d2, ho2, hl2, hp2⟩ := scatter_spec
    (fun c : V3u => uadd (uadd (uadd ((nx + 1) * ny * nz) c.x) (umul c.y (u32 nx)))
      (umul (umul c.z (u32 nx)) (uadd (u32 ny) 1)))
    layer.v (yu ++ yv ++ yw) layer.cellsV d1 (by
      intro c hc
      obtain ⟨h1, h2, h3⟩ := (hcV c).1 hc
      obtain ⟨e, hlt⟩ := hsrcV c hc
      simp only [e]
      refine ⟨by omega, ?_⟩
      rw [← hyu, (append3_getElem? yu yv yw _).2.1 (by omega)]
      exact hv c h1 h2 h3)
  obtain ⟨d3, ho3, hl3, hp3⟩ := scatter_spec
    (fun c : V3u =>
      uadd (uadd (uadd ((nx + 1) * ny * nz + nx * (ny + 1) * nz) c.x) (umul c.y (u32 nx)))
        (umul (umul c.z (u32 nx)) (u32 ny)))
    layer.w (yu ++ yv ++ yw) layer.cellsW d2 (by
      intro c hc
      obtain ⟨h1, h2, h3⟩ := (hcW c).1 hc
      obtain ⟨e, hlt⟩ := hsrcW c hc
      simp only [e]
      refine ⟨by omega, ?_⟩
      rw [← hyu, ← hyv, (append3_getElem? yu yv yw _).2.2]
      exact hw c h1 h2 h3)
  have hfinal : d3 = yu ++ yv ++ yw := by
    apply List.ext_getElem?
    intro p
    rw [hp3 p]
    split
    · rfl
    · rename_i hW
      rw [hp2 p]
      split
      · rfl
      · rename_i hV
        rw [hp1 p]
        split
        · rfl
        · rename_i hU
          have hge : data.length ≤ p := by
            by_contra hlt
            have hlt : p < (nx + 1) * ny * nz + nx * (ny + 1) * nz + nx * ny * (nz + 1) := by
              omega
            by_cases hpu : p < (nx + 1) * ny * nz
            · obtain ⟨i, j, k, h1, h2, h3, e⟩ := flat_index_surj hpu
              have hc : (⟨i, j, k⟩ : V3u) ∈ layer.cellsU := (hcU ⟨i, j, k⟩).2 ⟨h1, h2, h3⟩
              exact hU ⟨⟨i, j, k⟩, hc, by rw [(hsrcU _ hc).1]; exact e⟩
            · by_cases hpv : p - (nx + 1) * ny * nz < nx * (ny + 1) * nz
              · obtain ⟨i, j, k, h1, h2, h3, e⟩ := flat_index_surj hpv
                have hc : (⟨i, j, k⟩ : V3u) ∈ layer.cellsV := (hcV ⟨i, j, k⟩).2 ⟨h1, h2, h3⟩
                refine hV ⟨⟨i, j, k⟩, hc, ?_⟩
                rw [(hsrcV _ hc).1]
                simp only at e ⊢
                omega
              · have hpw : p - (nx + 1) * ny * nz - nx * (ny + 1) * nz < nx * ny * (nz + 1) := by
                  omega
                obtain ⟨i, j, k, h1, h2, h3, e⟩ := flat_index_surj hpw
                have hc : (⟨i, j, k⟩ : V3u) ∈ layer.cellsW := (hcW ⟨i, j, k⟩).2 ⟨h1, h2, h3⟩
                refine hW ⟨⟨i, j, k⟩, hc, ?_⟩
                rw [(hsrcW _ hc).1]
                simp only at e ⊢
                omega
          rw [List.getElem?_eq_none hge, List.getElem?_eq_none]
          simp only [List.length_append, hyu, hyv, hyw]
          omega
  unfold readMACField
  rw [hin]
  simp only [hcls, ne_eq, not_true_eq_false, if_false, hres, hs, hoff1, hoff2]
  unfold macCopy
  rw [ho1]
  simp only [Option.bind_eq_bind, Option.some_bind]
  rw [ho2]
  simp only [Option.some_bind]
  rw [ho3, hfinal]
  rfl

/-- MAC round trip for every element type: `writeMACVectorField` builds a MAC field
and hands it to the store, and `readMACField` at the same element type turns the
destination into the three source arrays, cast to that type, laid end to end. -/
theorem mac_decode (T : ExportType) (out : Field3DOutputFile) (fluidName fieldName : String)
    (nx ny nz : Nat) (transform : M44) (vx vy vz : List ℚ) (inF : Field3DInputFile)
    (layer : VectorLayer) (rest : List VectorLayer) (data : List ℚ)
    (hvx : vx.length = (nx + 1) * ny * nz) (hvy : vy.length = nx * (ny + 1) * nz)
    (hvz : vz.length = nx * ny * (nz + 1))
    (hacc : ∀ l, out.accepts out.layers l = true)
    (hin : inF.readVectorLayers T.sample fieldName = layer :: rest)
    (hlayer : ∀ field, macVectorField T fluidName fieldName ⟨nx, ny, nz⟩
      transform (some vx) (some vy) (some vz) = some field → layer.toVectorField = field)
    (hs : layer.componentSize =
      ⟨(((nx + 1) * ny * nz : Nat) : Int), ((nx * (ny + 1) * nz : Nat) : Int),
        ((nx * ny * (nz + 1) : Nat) : Int)⟩)
    (hcU : ∀ c, c ∈ layer.cellsU ↔ c.x < nx + 1 ∧ c.y < ny ∧ c.z < nz)
    (hcV : ∀ c, c ∈ layer.cellsV ↔ c.x < nx ∧ c.y < ny + 1 ∧ c.z < nz)
    (hcW : ∀ c, c ∈ layer.cellsW ↔ c.x < nx ∧ c.y < ny ∧ c.z < nz + 1)
    (hdata : data.length = (nx + 1) * ny * nz + nx * (ny + 1) * nz + nx * ny * (nz + 1))
    (h32 : data.length < 4294967296) :
    (∃ field, macVectorField T fluidName fieldName ⟨nx, ny, nz⟩ transform
        (some vx) (some vy) (some vz) = some field ∧
      writeMACVectorField T out fluidName fieldName ⟨nx, ny, nz⟩ transform
        (some vx) (some vy) (some vz) =
          some (true, { out with layers := out.layers ++ [Layer.vector field] })) ∧
    readMACField T.sample inF fieldName data =
      some (true, vx.map T.cast ++ vy.map T.cast ++ vz.map T.cast) := by
  obtain ⟨field, hfield, hcls, hres, -, -, -, -, hu, hv, hw⟩ :=
    macVectorField_spec T fluidName fieldName nx ny nz transform vx vy vz
      hvx hvy hvz (by omega) (by omega) (by omega)
  have hl := hlayer field hfield
  refine ⟨⟨field, hfield, ?_⟩, ?_⟩
  · unfold writeMACVectorField
    rw [hfield]
    simp [writeScalarLayer_accepted out _ hacc]
  · exact readMACField_copy T.sample inF fieldName layer rest nx ny nz
      (vx.map T.cast) (vy.map T.cast) (vz.map T.cast) data
      hin (by rw [hl]; exact hcls) (by rw [hl]; exact hres) hs
      (by simp [hvx]) (by simp [hvy]) (by simp [hvz]) hdata h32
      hcU hcV hcW (fun c h1 h2 h3 => by rw [hl]; exact hu c h1 h2 h3)
      (fun c h1 h2 h3 => by rw [hl]; exact hv c h1 h2 h3)
      (fun c h1 h2 h3 => by rw [hl]; exact hw c h1 h2 h3)

/-- C3 (counterexample). Element type `half`, resolution `(1,1,1)`, source arrays
`[4097/4096, 1]`, `[1, 1]`, `[1, 1]`, reported component size `(2,2,2)`:
`readMACField` applied to the field `writeMACVectorField` builds produces
`[1, 1, 1, 1, 1, 1]`, which is not the concatenation of the source arrays: the
first entry is the source entry `1 + 2^-12` converted to `half`. -/
theorem mac_half_counterexample :
    Examples.halfStagInput.readVectorLayers SampleType.half "velocity" =
      [Examples.halfStagLayer] ∧
    Examples.halfStagLayer.componentSize = ⟨2, 2, 2⟩ ∧
    (∃ field, macVectorField (ExportType.half halfOfFloat) "fluid" "velocity" ⟨1, 1, 1⟩ 1
        (some [4097 / 4096, 1]) (some [1, 1]) (some [1, 1]) = some field ∧
      Examples.halfStagLayer.toVectorField = field) ∧
    readMACField SampleType.half Examples.halfStagInput "velocity" [0, 0, 0, 0, 0, 0] =
      some (true, [1, 1, 1, 1, 1, 1]) ∧
    ([1, 1, 1, 1, 1, 1] : List ℚ) ≠ [4097 / 4096, 1] ++ [1, 1] ++ [1, 1] := by
  have hlayer : ∀ field, macVectorField (ExportType.half halfOfFloat) "fluid" "velocity"
      ⟨1, 1, 1⟩ 1 (some [4097 / 4096, 1]) (some [1, 1]) (some [1, 1]) = some field →
      Examples.halfStagLayer.toVectorField = field := by
    intro field h
    unfold Examples.halfStagLayer
    simp only [h, Option.getD_some]
  obtain ⟨⟨field, hfield, -⟩, hread⟩ :=
    mac_decode (ExportType.half halfOfFloat) Examples.acceptingOutput "fluid" "velocity"
      1 1 1 1 [4097 / 4096, 1] [1, 1] [1, 1] Examples.halfStagInput Examples.halfStagLayer []
      [0, 0, 0, 0, 0, 0] rfl rfl rfl (fun _ => rfl) rfl hlayer rfl
      (fun c => mem_loopKJI ⟨2, 1, 1⟩ c) (fun c => mem_loopKJI ⟨1, 2, 1⟩ c)
      (fun c => mem_loopKJI ⟨1, 1, 2⟩ c) rfl (by decide)
  have hread2 : readMACField SampleType.half Examples.halfStagInput "velocity"
      [0, 0, 0, 0, 0, 0] = some (true,
        [4097 / 4096, 1].map (ExportType.half halfOfFloat).cast ++
        [1, 1].map (ExportType.half halfOfFloat).cast ++
        [1, 1].map (ExportType.half halfOfFloat).cast) := hread
  refine ⟨rfl, rfl, ⟨field, hfield, hlayer field hfield⟩, ?_, ?_⟩
  · rw [hread2]
    simp [ExportType.half, halfOfFloat_values.1, halfOfFloat_values.2.1]
  · intro h
    have h1 := List.head_eq_of_cons_eq h
    norm_num at h1

/-- C3 (amended). MAC round trip: for source arrays of the three staggered sizes and
every element type `T`, `writeMACVectorField` builds a MAC field and hands it to
the store; when the layer read back is that field, its reported component size is
exactly the three element counts and the component iterators visit exactly the
voxels of each component grid, `readMACField` at the same element type returns
`true` and turns a destination Maya array of the total size (a length below
`2^32`) into the concatenation of `vx`, `vy`, `vz` with every entry converted to
the element type: the three components fill consecutive regions in the order
`u`, `v`, `w`, each entry equal to the converted source entry it came from. The
result is `vx ++ vy ++ vz` itself when the conversion changes no entry, as for
the element type `float`. -/
theorem mac_roundtrip (T : ExportType) (out : Field3DOutputFile)
    (fluidName fieldName : String)
    (nx ny nz : Nat) (transform : M44) (vx vy vz : List ℚ) (inF : Field3DInputFile)
    (layer : VectorLayer) (rest : List VectorLayer) (data : List ℚ)
    (hvx : vx.length = (nx + 1) * ny * nz) (hvy : vy.length = nx * (ny + 1) * nz)
    (hvz : vz.length = nx * ny * (nz + 1))
    (hacc : ∀ l, out.accepts out.layers l = true)
    (hin : inF.readVectorLayers T.sample fieldName = layer :: rest)
    (hlayer : ∀ field, macVectorField T fluidName fieldName ⟨nx, ny, nz⟩
      transform (some vx) (some vy) (some vz) = some field → layer.toVectorField = field)
    (hs : layer.componentSize =
      ⟨(((nx + 1) * ny * nz : Nat) : Int), ((nx * (ny + 1) * nz : Nat) : Int),
        ((nx * ny * (nz + 1) : Nat) : Int)⟩)
    (hcU : ∀ c, c ∈ layer.cellsU ↔ c.x < nx + 1 ∧ c.y < ny ∧ c.z < nz)
    (hcV : ∀ c, c ∈ layer.cellsV ↔ c.x < nx ∧ c.y < ny + 1 ∧ c.z < nz)
    (hcW : ∀ c, c ∈ layer.cellsW ↔ c.x < nx ∧ c.y < ny ∧ c.z < nz + 1)
    (hdata : data.length = (nx + 1) * ny * nz + nx * (ny + 1) * nz + nx * ny * (nz + 1))
    (h32 : data.length < 4294967296) :
    ((∃ field, macVectorField T fluidName fieldName ⟨nx, ny, nz⟩ transform
        (some vx) (some vy) (some vz) = some field ∧
      writeMACVectorField T out fluidName fieldName ⟨nx, ny, nz⟩ transform
        (some vx) (some vy) (some vz) =
          some (true, { out with layers := out.layers ++ [Layer.vector field] })) ∧
    readMACField T.sample inF fieldName data =
      some (true, vx.map T.cast ++ vy.map T.cast ++ vz.map T.cast)) ∧
    ((∀ v, T.cast v = v) →
      vx.map T.cast ++ vy.map T.cast ++ vz.map T.cast = vx ++ vy ++ vz) ∧
    (∀ v, ExportType.float.cast v = v) ∧ ExportType.float.sample = SampleType.float :=
  ⟨mac_decode T out fluidName fieldName nx ny nz transform vx vy vz inF layer rest data
      hvx hvy hvz hacc hin hlayer hs hcU hcV hcW hdata h32,
    fun h => by
      have hid : ∀ l : List ℚ, l.map T.cast = l := fun l => by
        conv_rhs => rw [← List.map_id l]
        exact List.map_congr_left (fun v _ => h v)
      rw [hid, hid, hid],
    fun _ => rfl, rfl⟩

theorem mac_roundtrip_witness :
    Examples.stagInput.readVectorLayers SampleType.float "velocity" = [Examples.stagLayer] ∧
    Examples.stagLayer.componentSize = ⟨3, 4, 4⟩ ∧
    readMACField SampleType.float Examples.stagInput "velocity" [0, 0, 0, 0, 0, 0, 0, 0, 0, 0, 0]
      = some (true, [1, 2, 3, 4, 5, 6, 7, 8, 9, 10, 11]) := by
  obtain ⟨⟨-, hread⟩, hid, hfloat, -⟩ :=
    mac_roundtrip ExportType.float Examples.acceptingOutput "fluid" "velocity" 2 1 1 1
      Examples.stagU Examples.stagV Examples.stagW Examples.stagInput Examples.stagLayer []
      [0, 0, 0, 0, 0, 0, 0, 0, 0, 0, 0] rfl rfl rfl (fun _ => rfl) rfl
      (fun field h => by
        unfold Examples.stagLayer
        simp only [h, Option.getD_some])
      rfl (fun c => mem_loopKJI ⟨3, 1, 1⟩ c) (fun c => mem_loopKJI ⟨2, 2, 1⟩ c)
      (fun c => mem_loopKJI ⟨2, 1, 2⟩ c) rfl (by decide)
  rw [hid hfloat] at hread
  exact ⟨rfl, rfl, hread⟩

theorem unitLayer_facts :
    Examples.unitLayer.dataResolution = ⟨1, 1, 1⟩ ∧
    Examples.unitLayer.cls = FieldClass.MACField := by
  obtain ⟨field, hf, hcls, hres, -⟩ :=
    macVectorField_spec ExportType.float "fluid" "velocity" 1 1 1 1 [1, 1] [1, 1] [1, 1]
      rfl rfl rfl (by decide) (by decide) (by decide)
  unfold Examples.unitLayer
  simp only [hf, Option.getD_some]
  exact ⟨hres, hcls⟩

theorem unitSession_facts :
    extractChannelName Examples.unitSession.m_currentName = "velocity" ∧
    (getFieldsResolution Examples.unitSession.m_inFile).2 = ⟨1, 1, 1⟩ := by
  refine ⟨by decide, ?_⟩
  simp [getFieldsResolution, getHighestResolution, Examples.unitSession, Examples.unitInput,
    highestStep, unitLayer_facts.1, u32]

theorem readArraySize_velocity_witness :
    extractChannelName Examples.unitSession.m_currentName = "velocity" ∧
    (getFieldsResolution Examples.unitSession.m_inFile).2 = ⟨1, 1, 1⟩ ∧
    Examples.unitSession.readArraySize
      = ((1 + 1) * 1 * 1 + 1 * (1 + 1) * 1 + 1 * 1 * (1 + 1)) % 4294967296 :=
  ⟨unitSession_facts.1, unitSession_facts.2,
    (readArraySize_velocity Examples.unitSession 1 1 1 unitSession_facts.1
      unitSession_facts.2).1⟩

/-- C5 (counterexample). For the velocity channel of a file whose resolution is
`(1,1,1)`, `readArraySize` returns 6, not 8. -/
theorem scenario3_size_counterexample :
    extractChannelName Examples.unitSession.m_currentName = "velocity" ∧
    (getFieldsResolution Examples.unitSession.m_inFile).2 = ⟨1, 1, 1⟩ ∧
    Examples.unitSession.readArraySize = 6 ∧ Examples.unitSession.readArraySize ≠ 8 := by
  have h := readArraySize_velocity_mod Examples.unitSession 1 1 1 unitSession_facts.1
    unitSession_facts.2
  have h6 : Examples.unitSession.readArraySize = 6 := by rw [h]
  exact ⟨unitSession_facts.1, unitSession_facts.2, h6, by rw [h6]; decide⟩

/-- C5 (amended). End-to-end scenario 3: for a velocity channel in a file whose
resolution is `(1,1,1)`, `readArraySize` returns 6 (two samples for each of the
three staggered components), and decoding, into an array of that size, the field
written from three staggered arrays filled with one returns 6 values all equal to
one. -/
theorem scenario3 (s : Field3dCacheFormat) (out : Field3DOutputFile)
    (fluidName fieldName : String) (transform : M44) (inF : Field3DInputFile)
    (layer : VectorLayer) (rest : List VectorLayer) (data : List ℚ)
    (hchan : extractChannelName s.m_currentName = "velocity")
    (hres : (getFieldsResolution s.m_inFile).2 = ⟨1, 1, 1⟩)
    (hacc : ∀ l, out.accepts out.layers l = true)
    (hin : inF.readVectorLayers SampleType.float fieldName = layer :: rest)
    (hlayer : ∀ field, macVectorField ExportType.float fluidName fieldName ⟨1, 1, 1⟩
      transform (some [1, 1]) (some [1, 1]) (some [1, 1]) = some field →
      layer.toVectorField = field)
    (hs : layer.componentSize = ⟨2, 2, 2⟩)
    (hcU : ∀ c, c ∈ layer.cellsU ↔ c.x < 2 ∧ c.y < 1 ∧ c.z < 1)
    (hcV : ∀ c, c ∈ layer.cellsV ↔ c.x < 1 ∧ c.y < 2 ∧ c.z < 1)
    (hcW : ∀ c, c ∈ layer.cellsW ↔ c.x < 1 ∧ c.y < 1 ∧ c.z < 2)
    (hdata : data.length = s.readArraySize) :
    s.readArraySize = 6 ∧
    (∃ field, macVectorField ExportType.float fluidName fieldName ⟨1, 1, 1⟩ transform
        (some [1, 1]) (some [1, 1]) (some [1, 1]) = some field ∧
      writeMACVectorField ExportType.float out fluidName fieldName ⟨1, 1, 1⟩ transform
        (some [1, 1]) (some [1, 1]) (some [1, 1]) =
          some (true, { out with layers := out.layers ++ [Layer.vector field] })) ∧
    readMACField SampleType.float inF fieldName data = some (true, [1, 1, 1, 1, 1, 1]) := by
  have h6 : s.readArraySize = 6 := by
    rw [readArraySize_velocity_mod s 1 1 1 hchan hres]
  obtain ⟨field, hfield, hcls, hrs, -, -, -, -, hu, hv, hw⟩ :=
    macVectorField_spec ExportType.float fluidName fieldName 1 1 1 transform
      [1, 1] [1, 1] [1, 1] rfl rfl rfl (by decide) (by decide) (by decide)
  have hid : ∀ l : List ℚ, l.map ExportType.float.cast = l := fun l => by
    simp [ExportType.float]
  rw [hid] at hu hv hw
  have hl := hlayer field hfield
  refine ⟨h6, ⟨field, hfield, ?_⟩, ?_⟩
  · unfold writeMACVectorField
    rw [hfield]
    simp [writeScalarLayer_accepted out _ hacc]
  · have hd : data.length = (1 + 1) * 1 * 1 + 1 * (1 + 1) * 1 + 1 * 1 * (1 + 1) := by
      rw [hdata, h6]
    exact readMACField_copy SampleType.float inF fieldName layer rest 1 1 1
      [1, 1] [1, 1] [1, 1] data
      hin (by rw [hl]; exact hcls) (by rw [hl]; exact hrs) (by rw [hs]; rfl) rfl rfl rfl hd
      (by rw [hd]; decide)
      hcU hcV hcW (fun c h1 h2 h3 => by rw [hl]; exact hu c h1 h2 h3)
      (fun c h1 h2 h3 => by rw [hl]; exact hv c h1 h2 h3)
      (fun c h1 h2 h3 => by rw [hl]; exact hw c h1 h2 h3)

theorem scenario3_witness :
    extractChannelName Examples.unitSession.m_currentName = "velocity" ∧
    (getFieldsResolution Examples.unitSession.m_inFile).2 = ⟨1, 1, 1⟩ ∧
    Examples.unitSession.readArraySize = 6 ∧
    readMACField SampleType.float Examples.unitInput "velocity" [0, 0, 0, 0, 0, 0]
      = some (true, [1, 1, 1, 1, 1, 1]) := by
  have h6 : Examples.unitSession.readArraySize = 6 := by
    rw [readArraySize_velocity_mod Examples.unitSession 1 1 1 unitSession_facts.1
      unitSession_facts.2]
  have h := scenario3 Examples.unitSession Examples.acceptingOutput "fluid" "velocity" 1
    Examples.unitInput Examples.unitLayer [] [0, 0, 0, 0, 0, 0]
    unitSession_facts.1 unitSession_facts.2 (fun _ => rfl) rfl
    (fun field h => by
      unfold Examples.unitLayer
      simp only [h, Option.getD_some])
    rfl (fun c => mem_loopKJI ⟨2, 1, 1⟩ c) (fun c => mem_loopKJI ⟨1, 2, 1⟩ c)
    (fun c => mem_loopKJI ⟨1, 1, 2⟩ c) (by rw [h6]; rfl)
  exact ⟨unitSession_facts.1, unitSession_facts.2, h.1, h.2.2⟩

/-! ## Random-access probe and open -/

/-- C11. `findChannelName`: for a name whose channel suffix is `resolution` or `offset`
the probe succeeds and records the name as current, whatever the input file is
(the store is not queried); for any other name it succeeds, recording the name as
current, exactly when the channel suffix is in the list `getFieldNames` returns,
and otherwise fails and leaves the session, hence the current channel, as it was. -/
theorem findChannelName_probe (s : Field3dCacheFormat) (name : String) :
    ((extractChannelName name = "resolution" ∨ extractChannelName name = "offset") →
      ∀ f : Field3DInputFile,
        Field3dCacheFormat.findChannelName { s with m_inFile := f } name =
          (MStatus.kSuccess, { s with m_inFile := f, m_currentName := name })) ∧
    (¬ (extractChannelName name = "resolution" ∨ extractChannelName name = "offset") →
      ((s.findChannelName name).1 = MStatus.kSuccess ↔
        extractChannelName name ∈ getFieldNames s.m_inFile) ∧
      (extractChannelName name ∈ getFieldNames s.m_inFile →
        s.findChannelName name = (MStatus.kSuccess, { s with m_currentName := name })) ∧
      (extractChannelName name ∉ getFieldNames s.m_inFile →
        s.findChannelName name = (MStatus.kFailure, s) ∧
        (s.findChannelName name).2.m_currentName = s.m_currentName)) := by
  constructor
  · intro h f
    simp [Field3dCacheFormat.findChannelName, h]
  · intro h
    by_cases hm : extractChannelName name ∈ getFieldNames s.m_inFile
    · simp [Field3dCacheFormat.findChannelName, h, hm]
    · simp [Field3dCacheFormat.findChannelName, h, hm]

theorem openEnd_kRead (s : Field3dCacheFormat) (fileName : String) :
    Field3dCacheFormat.openEnd s fileName FileAccessMode.kRead =
      (MStatus.kSuccess, { s with m_filename := fileName, m_isFileOpened := true }) := by
  simp [Field3dCacheFormat.openEnd]

theorem openWrite_kRead (fs : FileSystem) (s : Field3dCacheFormat) (fileName : String) :
    Field3dCacheFormat.openWrite fs s fileName FileAccessMode.kRead =
      (MStatus.kSuccess, { s with m_filename := fileName, m_isFileOpened := true }) := by
  simp [Field3dCacheFormat.openWrite, openEnd_kRead]

/-- The three outcomes of an open in read mode. -/
theorem doOpen_kRead (fs : FileSystem) (s : Field3dCacheFormat) (fileName : String) :
    (fs.openFile fileName = none →
      Field3dCacheFormat.doOpen fs s fileName FileAccessMode.kRead =
        (MStatus.kFailure,
          { s with m_inFile := Field3DInputFile.create, m_outFile := Field3DOutputFile.create,
                   m_ReadNameStack := true, m_isFileOpened := false })) ∧
    (∀ f, fs.openFile fileName = some f →
      (f.vecFloatMetadata "Offset").getD Field3dCacheFormat.er = Field3dCacheFormat.er →
      Field3dCacheFormat.doOpen fs s fileName FileAccessMode.kRead =
        (MStatus.kFailure,
          { s with m_inFile := f, m_outFile := Field3DOutputFile.create,
                   m_ReadNameStack := true })) ∧
    (∀ f, fs.openFile fileName = some f →
      (f.vecFloatMetadata "Offset").getD Field3dCacheFormat.er ≠ Field3dCacheFormat.er →
      Field3dCacheFormat.doOpen fs s fileName FileAccessMode.kRead =
        (MStatus.kSuccess,
          { s with m_inFile := f, m_outFile := Field3DOutputFile.create,
                   m_ReadNameStack := true,
                   m_offset := (f.vecFloatMetadata "Offset").getD Field3dCacheFormat.er,
                   m_filename := fileName, m_isFileOpened := true })) := by
  refine ⟨?_, ?_, ?_⟩
  · intro h
    simp [Field3dCacheFormat.doOpen, h]
  · intro f h he
    simp [Field3dCacheFormat.doOpen, h, he]
  · intro f h he
    simp [Field3dCacheFormat.doOpen, h, he, openWrite_kRead]

/-- C13. For every access mode other than read, write and read-write, `open` returns
failure and marks the session not open; the two handles are the fresh ones and
the result is the same whatever is on disk (no store open, no store create); the
recorded file path is unchanged. -/
theorem open_unknown_mode (fs : FileSystem) (s : Field3dCacheFormat) (fileName : String)
    (mode : FileAccessMode) (hr : mode ≠ FileAccessMode.kRead)
    (hw : mode ≠ FileAccessMode.kWrite) (hrw : mode ≠ FileAccessMode.kReadWrite) :
    Field3dCacheFormat.doOpen fs s fileName mode =
      (MStatus.kFailure,
        { s with m_inFile := Field3DInputFile.create, m_outFile := Field3DOutputFile.create,
                 m_ReadNameStack := true, m_isFileOpened := false }) ∧
    (Field3dCacheFormat.doOpen fs s fileName mode).2.isValid = MStatus.kFailure ∧
    (Field3dCacheFormat.doOpen fs s fileName mode).2.m_filename = s.m_filename ∧
    ∀ fs2 : FileSystem,
      Field3dCacheFormat.doOpen fs2 s fileName mode = Field3dCacheFormat.doOpen fs s fileName mode := by
  have key : ∀ fs : FileSystem, Field3dCacheFormat.doOpen fs s fileName mode =
      (MStatus.kFailure,
        { s with m_inFile := Field3DInputFile.create, m_outFile := Field3DOutputFile.create,
                 m_ReadNameStack := true, m_isFileOpened := false }) := by
    intro fs
    simp [Field3dCacheFormat.doOpen, Field3dCacheFormat.openWrite, Field3dCacheFormat.openEnd,
      hr, hw, hrw]
  refine ⟨key fs, ?_, ?_, fun fs2 => by rw [key fs2, key fs]⟩
  · rw [key fs]; rfl
  · rw [key fs]

theorem open_unknown_mode_witness :
    FileAccessMode.other 7 ≠ FileAccessMode.kRead ∧
    (Field3dCacheFormat.doOpen Examples.densityDisk Examples.densitySession "fluidFrame2.f3d"
      (FileAccessMode.other 7)).1 = MStatus.kFailure ∧
    (Field3dCacheFormat.doOpen Examples.densityDisk Examples.densitySession "fluidFrame2.f3d"
      (FileAccessMode.other 7)).2.m_filename = Examples.densitySession.m_filename :=
  ⟨by decide,
    by rw [(open_unknown_mode Examples.densityDisk Examples.densitySession "fluidFrame2.f3d"
      (FileAccessMode.other 7) (by decide) (by decide) (by decide)).1],
    (open_unknown_mode Examples.densityDisk Examples.densitySession "fluidFrame2.f3d"
      (FileAccessMode.other 7) (by decide) (by decide) (by decide)).2.2.1⟩

/-! ## Null source arrays -/

/-- The writers that test every source pointer: a null pointer makes them return
`false` and leave the output file alone. -/
theorem null_rejected_scalar_mac (T : ExportType) (out : Field3DOutputFile)
    (fluidName fieldName : String) (res : V3u) (transform : M44)
    (a b : Option (List ℚ)) :
    writeDenseScalarField T out fluidName fieldName res transform none = some (false, out) ∧
    writeSparseScalarField T out fluidName fieldName res transform none = some (false, out) ∧
    writeMACVectorField T out fluidName fieldName res transform none a b = some (false, out) ∧
    writeMACVectorField T out fluidName fieldName res transform a none b = some (false, out) ∧
    writeMACVectorField T out fluidName fieldName res transform a b none = some (false, out) ∧
    writeDenseVectorField T out fluidName fieldName res transform none a b = some (false, out) ∧
    writeDenseVectorField T out fluidName fieldName res transform a b none = some (false, out) ∧
    writeSparseVectorField T out fluidName fieldName res transform none a b = some (false, out) ∧
    writeSparseVectorField T out fluidName fieldName res transform a b none = some (false, out) := by
  refine ⟨rfl, rfl, rfl, ?_, ?_, rfl, ?_, rfl, ?_⟩
  · simp [writeMACVectorField]
  · simp [writeMACVectorField]
  · simp [writeDenseVectorField]
  · simp [writeSparseVectorField]

/-- C14 (the code at the failing input). With a null second component array and the
two others not null, `writeDenseVectorField` and `writeSparseVectorField` do not
return failure: on a grid without voxels they return `true` and write a layer to
the store, and on the grid `(1,1,1)` they read through the null pointer (undefined
behaviour). -/
theorem null_second_component_not_rejected :
    (writeDenseVectorField ExportType.float Examples.acceptingOutput "fluid" "color"
        ⟨0, 0, 0⟩ 1 (some []) none (some [])).map (fun r => (r.1, r.2.layers.length)) =
      some (true, 1) ∧
    (writeSparseVectorField ExportType.float Examples.acceptingOutput "fluid" "color"
        ⟨0, 0, 0⟩ 1 (some []) none (some [])).map (fun r => (r.1, r.2.layers.length)) =
      some (true, 1) ∧
    (writeDenseVectorField ExportType.float Examples.acceptingOutput "fluid" "color"
        ⟨1, 1, 1⟩ 1 (some [1]) none (some [1])).isNone = true ∧
    (writeSparseVectorField ExportType.float Examples.acceptingOutput "fluid" "color"
        ⟨1, 1, 1⟩ 1 (some [1]) none (some [1])).isNone = true := by
  refine ⟨rfl, rfl, rfl, rfl⟩

/-! ## Header offset -/

/-- The header write when the node is found and has none of the three dynamic offset
attributes: the offset written is the one the session held. -/
theorem writeHeader_no_plug (scene : Scene) (s : Field3dCacheFormat) (fluid : MFnFluid)
    (stx sty stz : MStatus)
    (howner : (extractFluidName s.m_currentName).isEmpty = false)
    (hnode : MayaTools.getFluidNode scene (extractFluidName s.m_currentName) =
      (MStatus.kSuccess, some fluid))
    (hx : fluid.plug "dynamicOffsetX" = Except.error stx)
    (hy : fluid.plug "dynamicOffsetY" = Except.error sty)
    (hz : fluid.plug "dynamicOffsetZ" = Except.error stz) :
    s.writeHeader scene = (MStatus.kSuccess,
      { s with m_outFile :=
        { s.m_outFile with
          strMetadata := ("Info", "File generated by Maya") ::
            s.m_outFile.strMetadata.filter fun e => e.1 ≠ "Info",
          vecFloatMetadata := ("Offset", s.m_offset) ::
            s.m_outFile.vecFloatMetadata.filter fun e => e.1 ≠ "Offset",
          globalMetadata := some
            (("Info", "File generated by Maya") ::
              s.m_outFile.strMetadata.filter fun e => e.1 ≠ "Info",
             ("Offset", s.m_offset) ::
              s.m_outFile.vecFloatMetadata.filter fun e => e.1 ≠ "Offset") } }) := by
  unfold Field3dCacheFormat.writeHeader
  simp only [howner, hnode, MayaTools.getNodeValue, hx, hy, hz]
  rfl

theorem shiftedSession_facts :
    (extractFluidName Examples.shiftedSession.m_currentName).isEmpty = false ∧
    MayaTools.getFluidNode Examples.bareScene
        (extractFluidName Examples.shiftedSession.m_currentName) =
      (MStatus.kSuccess, some Examples.bareFluid) := by
  have h : extractFluidName Examples.shiftedSession.m_currentName = "fluid" := by decide
  rw [h]
  exact ⟨by decide, rfl⟩

theorem reopenedSession_facts :
    Examples.reopenedSession.m_currentName = "fluid_density" ∧
    Examples.reopenedSession.m_offset = ⟨1, 2, 3⟩ ∧
    Examples.reopenedSession.m_outFile = Examples.acceptingOutput ∧
    Examples.reopenedSession.m_isFileOpened = true := by
  have he : (Examples.shiftedFile.vecFloatMetadata "Offset").getD Field3dCacheFormat.er ≠
      Field3dCacheFormat.er := by
    intro h
    have hx := congrArg Vec3.x h
    simp [Examples.shiftedFile, Field3dCacheFormat.er] at hx
    norm_num at hx
  unfold Examples.reopenedSession
  rw [(doOpen_kRead Examples.shiftedStore _ "fluidFrame1.f3d").2.2 Examples.shiftedFile rfl he]
  simp [Field3dCacheFormat.writeChannelName, Field3dCacheFormat.doOpen,
    Field3dCacheFormat.openWrite, Field3dCacheFormat.openEnd, Examples.shiftedStore,
    Examples.shiftedFile]

/-- C20 (counterexample). A new session opens, in read mode, a file whose `Offset`
metadata is `(1,2,3)`, then opens a file in write mode, selects `fluid_density`
and writes the header for a node found in the scene without any dynamic offset
attribute: the offset stored under `Offset`, and kept by the session, is
`(1,2,3)`, not `(0,0,0)`. -/
theorem header_offset_counterexample :
    (extractFluidName Examples.reopenedSession.m_currentName).isEmpty = false ∧
    MayaTools.getFluidNode Examples.bareScene
        (extractFluidName Examples.reopenedSession.m_currentName) =
      (MStatus.kSuccess, some Examples.bareFluid) ∧
    (Examples.bareFluid.plug "dynamicOffsetX" = Except.error MStatus.kInvalidParameter ∧
      Examples.bareFluid.plug "dynamicOffsetY" = Except.error MStatus.kInvalidParameter ∧
      Examples.bareFluid.plug "dynamicOffsetZ" = Except.error MStatus.kInvalidParameter) ∧
    (Examples.reopenedSession.writeHeader Examples.bareScene).1 = MStatus.kSuccess ∧
    (Examples.reopenedSession.writeHeader Examples.bareScene).2.m_offset = ⟨1, 2, 3⟩ ∧
    (Examples.reopenedSession.writeHeader Examples.bareScene).2.m_outFile.vecFloatMetadata =
      [("Offset", ⟨1, 2, 3⟩)] ∧
    (⟨1, 2, 3⟩ : V3f) ≠ ⟨0, 0, 0⟩ := by
  obtain ⟨hn, ho, hout, -⟩ := reopenedSession_facts
  have howner : (extractFluidName Examples.reopenedSession.m_currentName).isEmpty = false := by
    rw [hn]
    decide
  have hnode : MayaTools.getFluidNode Examples.bareScene
      (extractFluidName Examples.reopenedSession.m_currentName) =
      (MStatus.kSuccess, some Examples.bareFluid) := by
    rw [hn]
    exact shiftedSession_facts.2
  have h := writeHeader_no_plug Examples.bareScene Examples.reopenedSession Examples.bareFluid
    MStatus.kInvalidParameter MStatus.kInvalidParameter MStatus.kInvalidParameter
    howner hnode rfl rfl rfl
  refine ⟨howner, hnode, ⟨rfl, rfl, rfl⟩, ?_, ?_, ?_, ?_⟩
  · rw [h]
  · rw [h]
    exact ho
  · rw [h]
    simp only [ho, hout]
    rfl
  · intro he
    have := congrArg Vec3.x he
    norm_num at this

/-- C20 (amended). When `writeHeader` runs with a non-empty owner whose node is found
and none of the attributes `dynamicOffsetX/Y/Z` is present on the node, it
returns success and the offset vector stored under the `Offset` metadata key,
flushed with the global metadata and kept as the session offset, is the offset
the session held before the call; it is `(0,0,0)` when the session offset was
`(0,0,0)`, as it is in a newly constructed session. -/
theorem header_offset_kept (scene : Scene) (s : Field3dCacheFormat) (fluid : MFnFluid)
    (stx sty stz : MStatus)
    (howner : (extractFluidName s.m_currentName).isEmpty = false)
    (hnode : MayaTools.getFluidNode scene (extractFluidName s.m_currentName) =
      (MStatus.kSuccess, some fluid))
    (hx : fluid.plug "dynamicOffsetX" = Except.error stx)
    (hy : fluid.plug "dynamicOffsetY" = Except.error sty)
    (hz : fluid.plug "dynamicOffsetZ" = Except.error stz) :
    (s.writeHeader scene).1 = MStatus.kSuccess ∧
    (s.writeHeader scene).2.m_offset = s.m_offset ∧
    (s.writeHeader scene).2.m_outFile.vecFloatMetadata.head? = some ("Offset", s.m_offset) ∧
    ((s.writeHeader scene).2.m_outFile.globalMetadata.map fun g => g.2.head?) =
      some (some ("Offset", s.m_offset)) ∧
    (s.m_offset = ⟨0, 0, 0⟩ →
      (s.writeHeader scene).2.m_offset = ⟨0, 0, 0⟩ ∧
      (s.writeHeader scene).2.m_outFile.vecFloatMetadata.head? = some ("Offset", ⟨0, 0, 0⟩)) ∧
    (Field3dCacheFormat.create s.FIELD_TYPE s.FIELD_DATA_TYPE).m_offset = ⟨0, 0, 0⟩ := by
  rw [writeHeader_no_plug scene s fluid stx sty stz howner hnode hx hy hz]
  refine ⟨rfl, rfl, rfl, rfl, fun h0 => ?_, rfl⟩
  rw [← h0]
  exact ⟨rfl, rfl⟩

theorem header_offset_kept_witness :
    (extractFluidName Examples.shiftedSession.m_currentName).isEmpty = false ∧
    MayaTools.getFluidNode Examples.bareScene
        (extractFluidName Examples.shiftedSession.m_currentName) =
      (MStatus.kSuccess, some Examples.bareFluid) ∧
    (Examples.shiftedSession.writeHeader Examples.bareScene).2.m_offset =
      Examples.shiftedSession.m_offset :=
  ⟨shiftedSession_facts.1, shiftedSession_facts.2,
    (header_offset_kept Examples.bareScene Examples.shiftedSession Examples.bareFluid
      MStatus.kInvalidParameter MStatus.kInvalidParameter MStatus.kInvalidParameter
      shiftedSession_facts.1 shiftedSession_facts.2 rfl rfl rfl).2.1⟩

/-! ## Channel suffixes on write -/

theorem bareScene_lookups :
    MayaTools.getFluidNode Examples.bareScene "fluid" =
      (MStatus.kSuccess, some Examples.bareFluid) ∧
    MayaTools.getTransform Examples.bareScene "fluid" = (MStatus.kSuccess, some 1) := by
  refine ⟨rfl, ?_⟩
  simp [MayaTools.getTransform, MayaTools.getDagPath, Examples.bareScene]

/-- A current name with a non-empty owner, found in the scene with its transform, and a
suffix that is none of the ten channels: `writeArray` runs through both branch tests
and returns success with the session as it was. -/
theorem writeArray_unknown (toHalf : ℚ → ℚ) (scene : Scene) (s : Field3dCacheFormat)
    (fluid : MFnFluid) (parentTransf : M44)
    (howner : (extractFluidName s.m_currentName).isEmpty = false)
    (hnode : MayaTools.getFluidNode scene (extractFluidName s.m_currentName) =
      (MStatus.kSuccess, some fluid))
    (htransf : MayaTools.getTransform scene (extractFluidName s.m_currentName) =
      (MStatus.kSuccess, some parentTransf))
    (hsuffix : extractChannelName s.m_currentName ∉
      ["resolution", "offset", "density", "pressure", "fuel", "temperature", "falloff",
       "color", "coord", "velocity"]) :
    s.writeArray toHalf scene = some (MStatus.kSuccess, s) := by
  simp only [List.mem_cons, List.mem_singleton, not_or, List.mem_nil_iff, not_false_eq_true,
    and_true] at hsuffix
  obtain ⟨h1, h2, h3, h4, h5, h6, h7, h8, h9, h10⟩ := hsuffix
  unfold Field3dCacheFormat.writeArray
  simp [howner, hnode, htransf, h1, h2, h3, h4, h5, h6, h7, h8, h9, h10]

/-- C15 (counterexample). The current name `fluid_foo` has the non-empty owner `fluid`,
found in the scene with its transform, and the suffix `foo`, which is none of the
ten channels; `writeArray` (the body of `writeFloatArray` and `writeDoubleArray`)
returns success, not failure. -/
theorem unknown_suffix_counterexample :
    (Examples.fooSession.writeChannelName "fluid_foo").2.m_currentName = "fluid_foo" ∧
    (extractFluidName "fluid_foo").isEmpty = false ∧
    MayaTools.getFluidNode Examples.bareScene (extractFluidName "fluid_foo") =
      (MStatus.kSuccess, some Examples.bareFluid) ∧
    MayaTools.getTransform Examples.bareScene (extractFluidName "fluid_foo") =
      (MStatus.kSuccess, some 1) ∧
    extractChannelName "fluid_foo" ∉
      ["resolution", "offset", "density", "pressure", "fuel", "temperature", "falloff",
       "color", "coord", "velocity"] ∧
    ((Examples.fooSession.writeChannelName "fluid_foo").2.writeArray id
        Examples.bareScene).map (fun r => r.1) = some MStatus.kSuccess ∧
    MStatus.kSuccess ≠ MStatus.kFailure := by
  have ho : extractFluidName "fluid_foo" = "fluid" := by decide
  have hc : extractChannelName "fluid_foo" = "foo" := by decide
  rw [ho, hc]
  refine ⟨rfl, by decide, bareScene_lookups.1, bareScene_lookups.2, by decide, ?_, by decide⟩
  rw [writeArray_unknown id Examples.bareScene _ Examples.bareFluid 1]
  · rfl
  · exact (by decide : (extractFluidName "fluid_foo").isEmpty = false)
  · exact ho ▸ bareScene_lookups.1
  · exact ho ▸ bareScene_lookups.2
  · exact (by decide : extractChannelName "fluid_foo" ∉
      ["resolution", "offset", "density", "pressure", "fuel", "temperature", "falloff",
       "color", "coord", "velocity"])

/-- C15 (amended). `writeChannelName` accepts every name and records it as current, and
for every current name with a non-empty owner (whose node and transform lookups
succeed) and a channel suffix outside resolution, offset, density, pressure, fuel,
temperature, falloff, color, coord, velocity, `writeArray` (the body of
`writeFloatArray` and `writeDoubleArray`) returns success and leaves the session
and its output file unchanged: nothing is written. -/
theorem unknown_suffix_write (toHalf : ℚ → ℚ) (scene : Scene) (s : Field3dCacheFormat)
    (name : String) (fluid : MFnFluid) (parentTransf : M44)
    (howner : (extractFluidName name).isEmpty = false)
    (hnode : MayaTools.getFluidNode scene (extractFluidName name) =
      (MStatus.kSuccess, some fluid))
    (htransf : MayaTools.getTransform scene (extractFluidName name) =
      (MStatus.kSuccess, some parentTransf))
    (hsuffix : extractChannelName name ∉
      ["resolution", "offset", "density", "pressure", "fuel", "temperature", "falloff",
       "color", "coord", "velocity"]) :
    (s.writeChannelName name).1 = MStatus.kSuccess ∧
    (s.writeChannelName name).2 = { s with m_currentName := name } ∧
    (s.writeChannelName name).2.writeArray toHalf scene =
      some (MStatus.kSuccess, (s.writeChannelName name).2) ∧
    (s.writeChannelName name).2.m_outFile = s.m_outFile :=
  ⟨rfl, rfl,
    writeArray_unknown toHalf scene (s.writeChannelName name).2 fluid parentTransf
      howner hnode htransf hsuffix, rfl⟩

theorem unknown_suffix_write_witness :
    (extractFluidName "fluid_foo").isEmpty = false ∧
    extractChannelName "fluid_foo" ∉
      ["resolution", "offset", "density", "pressure", "fuel", "temperature", "falloff",
       "color", "coord", "velocity"] ∧
    (Examples.shiftedSession.writeChannelName "fluid_foo").2.writeArray id
        Examples.bareScene =
      some (MStatus.kSuccess, (Examples.shiftedSession.writeChannelName "fluid_foo").2) :=
  ⟨by decide, by decide,
    (unknown_suffix_write id Examples.bareScene Examples.shiftedSession "fluid_foo"
      Examples.bareFluid 1 (by decide)
      ((by decide : extractFluidName "fluid_foo" = "fluid") ▸ bareScene_lookups.1)
      ((by decide : extractFluidName "fluid_foo" = "fluid") ▸ bareScene_lookups.2)
      (by decide)).2.2.1⟩

/-! ## Writer selection -/

/-- C16. For a current channel with a non-empty owner whose node and transform lookups
succeed, and for every session sparsity and precision, `writeArray` returns the
status of one writer call: `writeDenseVectorField` at the session precision for
`color` and `coord`, whatever the session sparsity, `writeMACVectorField` at the
session precision for `velocity`, and for density, pressure, fuel, temperature
and falloff the dense scalar writer in a dense session and the sparse scalar
writer in a sparse session, at the session precision. -/
theorem write_encoding (toHalf : ℚ → ℚ) (scene : Scene) (s : Field3dCacheFormat)
    (fluid : MFnFluid) (parentTransf : M44)
    (howner : (extractFluidName s.m_currentName).isEmpty = false)
    (hnode : MayaTools.getFluidNode scene (extractFluidName s.m_currentName) =
      (MStatus.kSuccess, some fluid))
    (htransf : MayaTools.getTransform scene (extractFluidName s.m_currentName) =
      (MStatus.kSuccess, some parentTransf)) :
    (extractChannelName s.m_currentName = "color" →
      s.writeArray toHalf scene = s.writeStatus
        (writeDenseVectorField (Field3dCacheFormat.exportType toHalf s.FIELD_DATA_TYPE)
          s.m_outFile (extractFluidName s.m_currentName) "color"
          (fluid.getResolution.getD ⟨1, 1, 1⟩)
          (Field3dCacheFormat.mapTo01 *
            Field3dCacheFormat.autoResize (fluid.getDimensions.getD ⟨0, 0, 0⟩) s.m_offset *
            parentTransf)
          fluid.getColors.1 fluid.getColors.2.1 fluid.getColors.2.2)) ∧
    (extractChannelName s.m_currentName = "coord" →
      s.writeArray toHalf scene = s.writeStatus
        (writeDenseVectorField (Field3dCacheFormat.exportType toHalf s.FIELD_DATA_TYPE)
          s.m_outFile (extractFluidName s.m_currentName) "coord"
          (fluid.getResolution.getD ⟨1, 1, 1⟩)
          (Field3dCacheFormat.mapTo01 *
            Field3dCacheFormat.autoResize (fluid.getDimensions.getD ⟨0, 0, 0⟩) s.m_offset *
            parentTransf)
          fluid.getCoordinates.1 fluid.getCoordinates.2.1 fluid.getCoordinates.2.2)) ∧
    (extractChannelName s.m_currentName = "velocity" →
      s.writeArray toHalf scene = s.writeStatus
        (writeMACVectorField (Field3dCacheFormat.exportType toHalf s.FIELD_DATA_TYPE)
          s.m_outFile (extractFluidName s.m_currentName) "velocity"
          (fluid.getResolution.getD ⟨1, 1, 1⟩)
          (Field3dCacheFormat.mapTo01 *
            Field3dCacheFormat.autoResize (fluid.getDimensions.getD ⟨0, 0, 0⟩) s.m_offset *
            parentTransf)
          fluid.getVelocity.1 fluid.getVelocity.2.1 fluid.getVelocity.2.2)) ∧
    (∀ channel data, (channel, data) ∈
        [("density", fluid.density), ("pressure", fluid.pressure), ("fuel", fluid.fuel),
         ("temperature", fluid.temperature), ("falloff", fluid.falloff)] →
      extractChannelName s.m_currentName = channel →
      s.writeArray toHalf scene = s.writeStatus
        (match s.FIELD_TYPE with
         | FieldTypeEnum.DENSE =>
           writeDenseScalarField (Field3dCacheFormat.exportType toHalf s.FIELD_DATA_TYPE)
             s.m_outFile (extractFluidName s.m_currentName) channel
             (fluid.getResolution.getD ⟨1, 1, 1⟩)
             (Field3dCacheFormat.mapTo01 *
               Field3dCacheFormat.autoResize (fluid.getDimensions.getD ⟨0, 0, 0⟩) s.m_offset *
               parentTransf)
             data
         | FieldTypeEnum.SPARSE =>
           writeSparseScalarField (Field3dCacheFormat.exportType toHalf s.FIELD_DATA_TYPE)
             s.m_outFile (extractFluidName s.m_currentName) channel
             (fluid.getResolution.getD ⟨1, 1, 1⟩)
             (Field3dCacheFormat.mapTo01 *
               Field3dCacheFormat.autoResize (fluid.getDimensions.getD ⟨0, 0, 0⟩) s.m_offset *
               parentTransf)
             data)) := by
  refine ⟨fun hc => ?_, fun hc => ?_, fun hc => ?_, fun channel data hmem hc => ?_⟩
  · unfold Field3dCacheFormat.writeArray Field3dCacheFormat.writeStatus
    simp only [howner, hnode, htransf, hc]
    cases hd : s.FIELD_DATA_TYPE <;> simp [Field3dCacheFormat.exportType]
  · unfold Field3dCacheFormat.writeArray Field3dCacheFormat.writeStatus
    simp only [howner, hnode, htransf, hc]
    cases hd : s.FIELD_DATA_TYPE <;> simp [Field3dCacheFormat.exportType]
  · unfold Field3dCacheFormat.writeArray Field3dCacheFormat.writeStatus
    simp only [howner, hnode, htransf, hc]
    cases hd : s.FIELD_DATA_TYPE <;> simp [Field3dCacheFormat.exportType]
  · simp only [List.mem_cons, Prod.mk.injEq, List.mem_singleton, List.mem_nil_iff,
      or_false] at hmem
    unfold Field3dCacheFormat.writeArray Field3dCacheFormat.writeStatus
    rcases hmem with ⟨h1, h2⟩ | ⟨h1, h2⟩ | ⟨h1, h2⟩ | ⟨h1, h2⟩ | ⟨h1, h2⟩ <;>
      subst h1 <;> subst h2 <;>
      simp only [howner, hnode, htransf, hc] <;>
      cases hd : s.FIELD_DATA_TYPE <;> cases ht : s.FIELD_TYPE <;>
      simp [Field3dCacheFormat.exportType]

theorem colorScene_lookups :
    MayaTools.getFluidNode Examples.colorScene "fluid" =
      (MStatus.kSuccess, some Examples.colorFluid) ∧
    MayaTools.getTransform Examples.colorScene "fluid" = (MStatus.kSuccess, some 1) := by
  refine ⟨rfl, ?_⟩
  simp [MayaTools.getTransform, MayaTools.getDagPath, Examples.colorScene]

theorem write_encoding_witness :
    (extractFluidName Examples.colorSession.m_currentName).isEmpty = false ∧
    extractChannelName Examples.colorSession.m_currentName = "color" ∧
    Examples.colorSession.FIELD_TYPE = FieldTypeEnum.SPARSE ∧
    Examples.colorSession.writeArray id Examples.colorScene =
      Examples.colorSession.writeStatus
        (writeDenseVectorField ExportType.float Examples.acceptingOutput "fluid" "color"
          ⟨1, 1, 1⟩
          (Field3dCacheFormat.mapTo01 * Field3dCacheFormat.autoResize ⟨1, 1, 1⟩ ⟨1, 2, 3⟩ * 1)
          (some [1]) (some [1]) (some [1])) ∧
    ((Examples.colorSession.writeStatus
        (writeDenseVectorField ExportType.float Examples.acceptingOutput "fluid" "color"
          ⟨1, 1, 1⟩
          (Field3dCacheFormat.mapTo01 * Field3dCacheFormat.autoResize ⟨1, 1, 1⟩ ⟨1, 2, 3⟩ * 1)
          (some [1]) (some [1]) (some [1]))).map
        fun r => (r.1, Examples.layerClasses r.2.m_outFile)) =
      some (MStatus.kSuccess, [FieldClass.DenseField]) :=
  ⟨by decide, by decide, rfl,
    (write_encoding id Examples.colorScene Examples.colorSession Examples.colorFluid 1
      (by decide)
      ((by decide : extractFluidName Examples.colorSession.m_currentName = "fluid") ▸
        colorScene_lookups.1)
      ((by decide : extractFluidName Examples.colorSession.m_currentName = "fluid") ▸
        colorScene_lookups.2)).1 (by decide),
    rfl⟩

/-! ## Descriptor of a stored layer -/

/-- C17. `getFieldValueType` takes the first non-empty probe in the order half scalar,
float scalar, half vector, float vector, whatever the later probes hold; the
first layer of that probe gives the descriptor, tried as dense, then sparse,
then (vector probes) MAC, and a first layer that is none of these gives failure
with `TypeUnsupported`; four empty probes give failure with `TypeUnsupported`;
the returned flag is true exactly when the descriptor is not `TypeUnsupported`,
that is, when it is one of the ten supported values. -/
theorem resolver_priority (inFile : Field3DInputFile) (name : String) :
    (∀ l rest, inFile.readScalarLayers SampleType.half name = l :: rest →
      getFieldValueType inFile name =
        if l.cls = FieldClass.DenseField then
          (true, SupportedFieldTypeEnum.DenseScalarField_Half)
        else if l.cls = FieldClass.SparseField then
          (true, SupportedFieldTypeEnum.SparseScalarField_Half)
        else (false, SupportedFieldTypeEnum.TypeUnsupported)) ∧
    (∀ l rest, inFile.readScalarLayers SampleType.half name = [] →
      inFile.readScalarLayers SampleType.float name = l :: rest →
      getFieldValueType inFile name =
        if l.cls = FieldClass.DenseField then
          (true, SupportedFieldTypeEnum.DenseScalarField_Float)
        else if l.cls = FieldClass.SparseField then
          (true, SupportedFieldTypeEnum.SparseScalarField_Float)
        else (false, SupportedFieldTypeEnum.TypeUnsupported)) ∧
    (∀ l rest, inFile.readScalarLayers SampleType.half name = [] →
      inFile.readScalarLayers SampleType.float name = [] →
      inFile.readVectorLayers SampleType.half name = l :: rest →
      getFieldValueType inFile name =
        if l.cls = FieldClass.DenseField then
          (true, SupportedFieldTypeEnum.DenseVectorField_Half)
        else if l.cls = FieldClass.SparseField then
          (true, SupportedFieldTypeEnum.SparseVectorField_Half)
        else if l.cls = FieldClass.MACField then
          (true, SupportedFieldTypeEnum.MACField_Half)
        else (false, SupportedFieldTypeEnum.TypeUnsupported)) ∧
    (∀ l rest, inFile.readScalarLayers SampleType.half name = [] →
      inFile.readScalarLayers SampleType.float name = [] →
      inFile.readVectorLayers SampleType.half name = [] →
      inFile.readVectorLayers SampleType.float name = l :: rest →
      getFieldValueType inFile name =
        if l.cls = FieldClass.DenseField then
          (true, SupportedFieldTypeEnum.DenseVectorField_Float)
        else if l.cls = FieldClass.SparseField then
          (true, SupportedFieldTypeEnum.SparseVectorField_Float)
        else if l.cls = FieldClass.MACField then
          (true, SupportedFieldTypeEnum.MACField_Float)
        else (false, SupportedFieldTypeEnum.TypeUnsupported)) ∧
    (inFile.readScalarLayers SampleType.half name = [] →
      inFile.readScalarLayers SampleType.float name = [] →
      inFile.readVectorLayers SampleType.half name = [] →
      inFile.readVectorLayers SampleType.float name = [] →
      getFieldValueType inFile name = (false, SupportedFieldTypeEnum.TypeUnsupported)) ∧
    ((getFieldValueType inFile name).1 = true ↔
      (getFieldValueType inFile name).2 ≠ SupportedFieldTypeEnum.TypeUnsupported) ∧
    ((getFieldValueType inFile name).2 ≠ SupportedFieldTypeEnum.TypeUnsupported ↔
      (getFieldValueType inFile name).2 ∈
        [SupportedFieldTypeEnum.DenseScalarField_Half,
         SupportedFieldTypeEnum.DenseScalarField_Float,
         SupportedFieldTypeEnum.SparseScalarField_Half,
         SupportedFieldTypeEnum.SparseScalarField_Float,
         SupportedFieldTypeEnum.DenseVectorField_Half,
         SupportedFieldTypeEnum.DenseVectorField_Float,
         SupportedFieldTypeEnum.SparseVectorField_Half,
         SupportedFieldTypeEnum.SparseVectorField_Float,
         SupportedFieldTypeEnum.MACField_Half,
         SupportedFieldTypeEnum.MACField_Float]) := by
  refine ⟨?_, ?_, ?_, ?_, ?_, ?_, ?_⟩
  · intro l rest h1
    simp [getFieldValueType, testScalarDataType, h1]
  · intro l rest h1 h2
    simp [getFieldValueType, testScalarDataType, h1, h2]
  · intro l rest h1 h2 h3
    simp [getFieldValueType, testScalarDataType, testVectorDataType, h1, h2, h3]
  · intro l rest h1 h2 h3 h4
    simp [getFieldValueType, testScalarDataType, testVectorDataType, h1, h2, h3, h4]
  · intro h1 h2 h3 h4
    simp [getFieldValueType, testScalarDataType, testVectorDataType, h1, h2, h3, h4]
  · unfold getFieldValueType
    repeat' split
    all_goals simp
  · generalize (getFieldValueType inFile name).2 = d
    cases d <;> simp

/-! ## Resolution of the file -/

theorem highestStep_foldl (l : List V3u) (acc : Bool × V3u) :
    l.foldl highestStep acc =
      (decide (l ≠ []) || acc.1,
       ⟨(l.map fun r => u32 r.x).foldl max acc.2.x,
        (l.map fun r => u32 r.y).foldl max acc.2.y,
        (l.map fun r => u32 r.z).foldl max acc.2.z⟩) := by
  induction l generalizing acc with
  | nil => simp
  | cons a t ih =>
    rw [List.foldl_cons, ih]
    have hmax : ∀ p q : Nat, (if q > p then q else p) = max p q := by
      intro p q
      rw [max_def]
      split_ifs <;> omega
    simp [highestStep, hmax]

theorem getHighestResolution_eq (T : SampleType) (inFile : Field3DInputFile) (resMax : V3u) :
    getHighestResolution T inFile resMax =
      (((inFile.readScalarLayers T "").map fun its => its.dataResolution) ++
        ((inFile.readVectorLayers T "").map fun itv => itv.dataResolution)).foldl
        highestStep (false, resMax) := by
  simp [getHighestResolution, List.foldl_append, List.foldl_map]

theorem getFieldsResolution_eq (inFile : Field3DInputFile) :
    getFieldsResolution inFile =
      (decide (layerResolutions inFile ≠ []),
       ⟨((layerResolutions inFile).map fun r => u32 r.x).foldl max 0,
        ((layerResolutions inFile).map fun r => u32 r.y).foldl max 0,
        ((layerResolutions inFile).map fun r => u32 r.z).foldl max 0⟩) := by
  unfold getFieldsResolution layerResolutions
  simp only [getHighestResolution_eq, highestStep_foldl]
  simp only [List.foldl_append, List.map_append, Bool.or_false, Prod.mk.injEq, and_true]
  rw [Bool.eq_iff_iff]
  simp only [Bool.or_eq_true, decide_eq_true_eq, ne_eq, List.append_eq_nil, not_and_or]
  tauto

theorem foldl_max_ge (l : List Nat) (a : Nat) :
    a ≤ l.foldl max a ∧ ∀ b ∈ l, b ≤ l.foldl max a := by
  induction l generalizing a with
  | nil => simp
  | cons c t ih =>
    rw [List.foldl_cons]
    refine ⟨le_trans (le_max_left a c) (ih (max a c)).1, ?_⟩
    intro b hb
    rcases List.mem_cons.mp hb with rfl | hb
    · exact le_trans (le_max_right a b) (ih (max a b)).1
    · exact (ih (max a c)).2 b hb

theorem foldl_max_mem (l : List Nat) (a : Nat) :
    l.foldl max a = a ∨ l.foldl max a ∈ l := by
  induction l generalizing a with
  | nil => simp
  | cons c t ih =>
    rw [List.foldl_cons]
    rcases ih (max a c) with h | h
    · rw [h]
      rcases max_choice a c with h2 | h2
      · exact Or.inl h2
      · right
        rw [h2]
        exact List.mem_cons_self _ _
    · exact Or.inr (List.mem_cons_of_mem _ h)

theorem setLength_length (array : List ℚ) (n : Nat) : (setLength array n).length = n := by
  simp [setLength]
  omega

theorem store3 (array : List ℚ) (a b c : ℚ) (h : array.length = 3) :
    ((store array 0 a).bind fun array =>
      (store array 1 b).bind fun array => store array 2 c) = some [a, b, c] := by
  match array, h with
  | [_, _, _], _ => rfl

theorem readArray_resolution (s : Field3dCacheFormat) (array : List ℚ)
    (hres : extractChannelName s.m_currentName = "resolution") :
    s.readArray array 3 = some (MStatus.kSuccess,
      [((getFieldsResolution s.m_inFile).2.x : ℚ), ((getFieldsResolution s.m_inFile).2.y : ℚ),
       ((getFieldsResolution s.m_inFile).2.z : ℚ)]) := by
  unfold Field3dCacheFormat.readArray
  simp only [hres, if_true]
  rw [store3 _ _ _ _ (setLength_length array 3)]
  rfl

/-- C18. `getFieldsResolution` returns, whatever its output argument held, on each axis
the maximum of the data resolutions (as `unsigned int`) of all the scalar and
vector layers of sample type half, float and double, which is `(0,0,0)` when
there is no such layer, and returns true exactly when there is such a layer;
`readArray` for a current channel with the suffix `resolution` and an array of
three entries returns success with exactly these three values. -/
theorem authoritative_resolution (s : Field3dCacheFormat) (array : List ℚ)
    (hres : extractChannelName s.m_currentName = "resolution") :
    (getFieldsResolution s.m_inFile).2 =
      ⟨((layerResolutions s.m_inFile).map fun r => u32 r.x).foldl max 0,
       ((layerResolutions s.m_inFile).map fun r => u32 r.y).foldl max 0,
       ((layerResolutions s.m_inFile).map fun r => u32 r.z).foldl max 0⟩ ∧
    (∀ r ∈ layerResolutions s.m_inFile,
      u32 r.x ≤ (getFieldsResolution s.m_inFile).2.x ∧
      u32 r.y ≤ (getFieldsResolution s.m_inFile).2.y ∧
      u32 r.z ≤ (getFieldsResolution s.m_inFile).2.z) ∧
    (layerResolutions s.m_inFile ≠ [] →
      (∃ r ∈ layerResolutions s.m_inFile, (getFieldsResolution s.m_inFile).2.x = u32 r.x) ∧
      (∃ r ∈ layerResolutions s.m_inFile, (getFieldsResolution s.m_inFile).2.y = u32 r.y) ∧
      (∃ r ∈ layerResolutions s.m_inFile, (getFieldsResolution s.m_inFile).2.z = u32 r.z)) ∧
    (layerResolutions s.m_inFile = [] → (getFieldsResolution s.m_inFile).2 = ⟨0, 0, 0⟩) ∧
    ((getFieldsResolution s.m_inFile).1 = true ↔ layerResolutions s.m_inFile ≠ []) ∧
    s.readArray array s.readArraySize = some (MStatus.kSuccess,
      [((getFieldsResolution s.m_inFile).2.x : ℚ), ((getFieldsResolution s.m_inFile).2.y : ℚ),
       ((getFieldsResolution s.m_inFile).2.z : ℚ)]) := by
  have hsize : s.readArraySize = 3 := by
    unfold Field3dCacheFormat.readArraySize
    simp [hres]
  rw [hsize, readArray_resolution s array hres, getFieldsResolution_eq]
  have hex : ∀ (f : V3u → Nat), layerResolutions s.m_inFile ≠ [] →
      ∃ r ∈ layerResolutions s.m_inFile,
        ((layerResolutions s.m_inFile).map f).foldl max 0 = f r := by
    intro f hne
    rcases foldl_max_mem ((layerResolutions s.m_inFile).map f) 0 with h | h
    · obtain ⟨r, hr⟩ := List.exists_mem_of_ne_nil _ hne
      refine ⟨r, hr, ?_⟩
      have := (foldl_max_ge ((layerResolutions s.m_inFile).map f) 0).2 (f r)
        (List.mem_map_of_mem f hr)
      omega
    · obtain ⟨r, hr, hfr⟩ := List.mem_map.mp h
      exact ⟨r, hr, hfr.symm⟩
  refine ⟨rfl, fun r hr => ⟨?_, ?_, ?_⟩, fun hne => ⟨?_, ?_, ?_⟩, fun hnil => ?_, ?_, rfl⟩
  · exact (foldl_max_ge _ 0).2 _ (List.mem_map_of_mem (fun r => u32 r.x) hr)
  · exact (foldl_max_ge _ 0).2 _ (List.mem_map_of_mem (fun r => u32 r.y) hr)
  · exact (foldl_max_ge _ 0).2 _ (List.mem_map_of_mem (fun r => u32 r.z) hr)
  · exact hex (fun r => u32 r.x) hne
  · exact hex (fun r => u32 r.y) hne
  · exact hex (fun r => u32 r.z) hne
  · simp [hnil]
  · simp

theorem resolutionSession_facts :
    extractChannelName Examples.resolutionSession.m_currentName = "resolution" ∧
    layerResolutions Examples.resolutionSession.m_inFile =
      [⟨4, 1, 1⟩, ⟨1, 1, 1⟩, ⟨1, 5, 1⟩] ∧
    (getFieldsResolution Examples.resolutionSession.m_inFile).2 = ⟨4, 5, 1⟩ := by
  have hl : layerResolutions Examples.resolutionSession.m_inFile =
      [⟨4, 1, 1⟩, ⟨1, 1, 1⟩, ⟨1, 5, 1⟩] := by
    simp [layerResolutions, Examples.resolutionSession, Examples.mixedInput,
      Examples.wideLayer, Examples.tallLayer, unitLayer_facts.1]
  refine ⟨by decide, hl, ?_⟩
  rw [getFieldsResolution_eq, hl]
  simp [u32]

theorem authoritative_resolution_witness :
    extractChannelName Examples.resolutionSession.m_currentName = "resolution" ∧
    layerResolutions Examples.resolutionSession.m_inFile =
      [⟨4, 1, 1⟩, ⟨1, 1, 1⟩, ⟨1, 5, 1⟩] ∧
    Examples.resolutionSession.readArray [] Examples.resolutionSession.readArraySize =
      some (MStatus.kSuccess, [4, 5, 1]) := by
  refine ⟨resolutionSession_facts.1, resolutionSession_facts.2.1, ?_⟩
  have h := (authoritative_resolution Examples.resolutionSession []
    resolutionSession_facts.1).2.2.2.2.2
  rw [resolutionSession_facts.2.2] at h
  rw [h]
  norm_num

/-! ## Offset of the file -/

theorem readArray_offset (s : Field3dCacheFormat) (array : List ℚ)
    (hoff : extractChannelName s.m_currentName = "offset") :
    s.readArray array 3 =
      some (MStatus.kSuccess, [s.m_offset.x, s.m_offset.y, s.m_offset.z]) := by
  unfold Field3dCacheFormat.readArray
  simp only [hoff, (by decide : ¬ ("offset" = "resolution")), if_false, if_true]
  rw [store3 _ _ _ _ (setLength_length array 3)]
  rfl

theorem readArraySize_pseudo (s : Field3dCacheFormat)
    (h : extractChannelName s.m_currentName = "offset" ∨
      extractChannelName s.m_currentName = "resolution") :
    s.readArraySize = 3 := by
  unfold Field3dCacheFormat.readArraySize
  rcases h with h | h <;> simp [h]

/-- C19. After a successful open in read mode of a file whose `Offset` metadata is `v`,
whatever else the file holds, selecting a channel with the suffix `offset` and
calling `readArray` with an array of three entries returns success with exactly
the three components of `v`; `readArraySize` is 3 for a current channel with the
suffix `offset` or `resolution`, whatever input file the session holds. -/
theorem offset_pseudo_channel (fs : FileSystem) (s : Field3dCacheFormat)
    (fileName name : String) (f : Field3DInputFile) (v : V3f) (array : List ℚ)
    (hopen : fs.openFile fileName = some f)
    (hmeta : f.vecFloatMetadata "Offset" = some v)
    (hsucc : (Field3dCacheFormat.doOpen fs s fileName FileAccessMode.kRead).1 =
      MStatus.kSuccess)
    (hname : extractChannelName name = "offset") :
    (((Field3dCacheFormat.doOpen fs s fileName FileAccessMode.kRead).2.findChannelName
        name).1 = MStatus.kSuccess) ∧
    ((Field3dCacheFormat.doOpen fs s fileName FileAccessMode.kRead).2.findChannelName
        name).2.readArray array
        ((Field3dCacheFormat.doOpen fs s fileName FileAccessMode.kRead).2.findChannelName
          name).2.readArraySize =
      some (MStatus.kSuccess, [v.x, v.y, v.z]) ∧
    (∀ (t : Field3dCacheFormat) (inFile : Field3DInputFile),
      extractChannelName t.m_currentName = "offset" ∨
        extractChannelName t.m_currentName = "resolution" →
      Field3dCacheFormat.readArraySize { t with m_inFile := inFile } = 3) := by
  have hfind : ∀ t : Field3dCacheFormat,
      t.findChannelName name = (MStatus.kSuccess, { t with m_currentName := name }) := by
    intro t
    simp [Field3dCacheFormat.findChannelName, hname]
  have hoffset : (Field3dCacheFormat.doOpen fs s fileName FileAccessMode.kRead).2.m_offset
      = v := by
    by_cases he : (f.vecFloatMetadata "Offset").getD Field3dCacheFormat.er =
        Field3dCacheFormat.er
    · rw [(doOpen_kRead fs s fileName).2.1 f hopen he] at hsucc
      simp at hsucc
    · rw [(doOpen_kRead fs s fileName).2.2 f hopen he]
      simp [hmeta]
  refine ⟨by rw [hfind], ?_, fun t inFile h => readArraySize_pseudo _ h⟩
  rw [hfind]
  rw [readArraySize_pseudo _ (Or.inl hname), readArray_offset _ array hname]
  simp only [hoffset]

theorem shiftedDisk_open :
    (Field3dCacheFormat.doOpen Examples.shiftedDisk
      (Field3dCacheFormat.create FieldTypeEnum.DENSE FieldDataTypeEnum.FLOAT)
      "fluidFrame1.f3d" FileAccessMode.kRead).1 = MStatus.kSuccess := by
  have he : (Examples.shiftedFile.vecFloatMetadata "Offset").getD Field3dCacheFormat.er ≠
      Field3dCacheFormat.er := by
    intro h
    have hx := congrArg Vec3.x h
    simp [Examples.shiftedFile, Field3dCacheFormat.er] at hx
    norm_num at hx
  rw [(doOpen_kRead Examples.shiftedDisk _ "fluidFrame1.f3d").2.2 Examples.shiftedFile rfl he]

theorem offset_pseudo_channel_witness :
    Examples.shiftedDisk.openFile "fluidFrame1.f3d" = some Examples.shiftedFile ∧
    Examples.shiftedFile.vecFloatMetadata "Offset" = some ⟨1, 2, 3⟩ ∧
    extractChannelName "fluid_offset" = "offset" ∧
    ((Field3dCacheFormat.doOpen Examples.shiftedDisk
        (Field3dCacheFormat.create FieldTypeEnum.DENSE FieldDataTypeEnum.FLOAT)
        "fluidFrame1.f3d" FileAccessMode.kRead).2.findChannelName
        "fluid_offset").2.readArray []
        ((Field3dCacheFormat.doOpen Examples.shiftedDisk
          (Field3dCacheFormat.create FieldTypeEnum.DENSE FieldDataTypeEnum.FLOAT)
          "fluidFrame1.f3d" FileAccessMode.kRead).2.findChannelName
          "fluid_offset").2.readArraySize =
      some (MStatus.kSuccess, [1, 2, 3]) :=
  ⟨rfl, rfl, by decide,
    (offset_pseudo_channel Examples.shiftedDisk
      (Field3dCacheFormat.create FieldTypeEnum.DENSE FieldDataTypeEnum.FLOAT)
      "fluidFrame1.f3d" "fluid_offset" Examples.shiftedFile ⟨1, 2, 3⟩ [] rfl rfl
      shiftedDisk_open (by decide)).2.1⟩

/-! ## Header without owner -/

/-- C21. When the owner part of the current channel name is empty, `writeHeader`
returns success and the session it leaves is the session it was given, output
file and metadata included, whatever the scene holds (no node is queried). -/
theorem empty_owner_header (scene : Scene) (s : Field3dCacheFormat)
    (hempty : (extractFluidName s.m_currentName).isEmpty = true) :
    s.writeHeader scene = (MStatus.kSuccess, s) ∧
    (∀ scene2 : Scene, s.writeHeader scene2 = s.writeHeader scene) ∧
    (s.writeHeader scene).2.m_outFile = s.m_outFile ∧
    (s.writeHeader scene).2.m_offset = s.m_offset ∧
    (s.writeHeader scene).2.m_currentName = s.m_currentName ∧
    (s.writeHeader scene).2.m_isFileOpened = s.m_isFileOpened ∧
    (s.writeHeader scene).2.m_ReadNameStack = s.m_ReadNameStack ∧
    (s.writeHeader scene).2.m_filename = s.m_filename := by
  have key : ∀ scene : Scene, s.writeHeader scene = (MStatus.kSuccess, s) := by
    intro scene
    unfold Field3dCacheFormat.writeHeader
    simp only [hempty, if_true]
  refine ⟨key scene, fun scene2 => by rw [key scene2, key scene], ?_, ?_, ?_, ?_, ?_, ?_⟩ <;>
    rw [key scene]

theorem empty_owner_header_witness :
    (extractFluidName
      (Examples.shiftedSession.writeChannelName "_density").2.m_currentName).isEmpty = true ∧
    (Examples.shiftedSession.writeChannelName "_density").2.writeHeader Examples.bareScene =
      (MStatus.kSuccess, (Examples.shiftedSession.writeChannelName "_density").2) :=
  ⟨by decide,
    (empty_owner_header Examples.bareScene
      (Examples.shiftedSession.writeChannelName "_density").2 (by decide)).1⟩

/-! ## Close and validity -/

/-- C26. For every session, `close` after `close` leaves the session a single `close`
leaves, and `isValid` returns failure after `close`. -/
theorem close_idempotent (s : Field3dCacheFormat) :
    s.close.close = s.close ∧ s.close.isValid = MStatus.kFailure ∧
    s.close.close.isValid = MStatus.kFailure :=
  ⟨rfl, rfl, rfl⟩

/-- The flag `m_isFileOpened` after `open`: set on success, cleared on every failure
except the one on the reserved offset, which leaves the flag as it was. -/
theorem doOpen_isValid (fs : FileSystem) (s : Field3dCacheFormat) (fileName : String)
    (mode : FileAccessMode) :
    ((Field3dCacheFormat.doOpen fs s fileName mode).1 = MStatus.kSuccess →
      (Field3dCacheFormat.doOpen fs s fileName mode).2.isValid = MStatus.kSuccess) ∧
    ((Field3dCacheFormat.doOpen fs s fileName mode).1 ≠ MStatus.kSuccess →
      (Field3dCacheFormat.doOpen fs s fileName mode).2.isValid = MStatus.kFailure ∨
      ((mode = FileAccessMode.kRead ∨ mode = FileAccessMode.kReadWrite) ∧
        (∃ f, fs.openFile fileName = some f ∧
          (f.vecFloatMetadata "Offset").getD Field3dCacheFormat.er = Field3dCacheFormat.er) ∧
        (Field3dCacheFormat.doOpen fs s fileName mode).2.m_isFileOpened = s.m_isFileOpened)) := by
  cases mode <;> cases ho : fs.openFile fileName <;> cases hc : fs.createFile fileName <;>
    simp [Field3dCacheFormat.doOpen, Field3dCacheFormat.openWrite, Field3dCacheFormat.openEnd,
      Field3dCacheFormat.isValid, ho, hc] <;>
    split <;> simp_all

/-- C30 (the code at the failing input). A new session opens `fluidFrame1.f3d` in read
mode with success; it then opens `fluidFrame2.f3d`, a file without `Offset`
metadata, in read mode: this second `open` returns failure, and `isValid` still
returns success. -/
theorem stale_validity_after_sentinel :
    (Field3dCacheFormat.doOpen Examples.twoFileDisk
      (Field3dCacheFormat.create FieldTypeEnum.DENSE FieldDataTypeEnum.FLOAT)
      "fluidFrame1.f3d" FileAccessMode.kRead).1 = MStatus.kSuccess ∧
    (Field3dCacheFormat.doOpen Examples.twoFileDisk
      (Field3dCacheFormat.doOpen Examples.twoFileDisk
        (Field3dCacheFormat.create FieldTypeEnum.DENSE FieldDataTypeEnum.FLOAT)
        "fluidFrame1.f3d" FileAccessMode.kRead).2
      "fluidFrame2.f3d" FileAccessMode.kRead).1 = MStatus.kFailure ∧
    (Field3dCacheFormat.doOpen Examples.twoFileDisk
      (Field3dCacheFormat.doOpen Examples.twoFileDisk
        (Field3dCacheFormat.create FieldTypeEnum.DENSE FieldDataTypeEnum.FLOAT)
        "fluidFrame1.f3d" FileAccessMode.kRead).2
      "fluidFrame2.f3d" FileAccessMode.kRead).2.isValid = MStatus.kSuccess := by
  have he : (Examples.shiftedFile.vecFloatMetadata "Offset").getD Field3dCacheFormat.er ≠
      Field3dCacheFormat.er := by
    intro h
    have hx := congrArg Vec3.x h
    simp [Examples.shiftedFile, Field3dCacheFormat.er] at hx
    norm_num at hx
  rw [(doOpen_kRead Examples.twoFileDisk _ "fluidFrame1.f3d").2.2 Examples.shiftedFile rfl he]
  rw [(doOpen_kRead Examples.twoFileDisk _ "fluidFrame2.f3d").2.1 Examples.plainFile rfl rfl]
  exact ⟨rfl, rfl, rfl⟩

/-! ## Transform of a written field -/

theorem writeScalarLayer_true (out out2 : Field3DOutputFile) (l : Layer) (b : Bool)
    (h : (if !(out.writeScalarLayer l).1 then some (false, (out.writeScalarLayer l).2)
      else some (true, (out.writeScalarLayer l).2)) = some (b, out2)) (hb : b = true) :
    out2.layers = out.layers ++ [l] := by
  subst hb
  unfold Field3DOutputFile.writeScalarLayer at h
  by_cases hacc : out.accepts out.layers l = true
  · simp [hacc] at h
    rw [← h]
  · simp [hacc] at h

/-- A writer that returns `true` has handed to the store one layer, whose mapping is
the transform the writer was given. -/
theorem writer_mapping (T : ExportType) (out out2 : Field3DOutputFile)
    (fluidName fieldName : String) (res : V3u) (transform : M44)
    (a b c : Option (List ℚ)) :
    (writeDenseScalarField T out fluidName fieldName res transform a = some (true, out2) →
      ∃ l, out2.layers = out.layers ++ [l] ∧ l.mapping = some transform) ∧
    (writeSparseScalarField T out fluidName fieldName res transform a = some (true, out2) →
      ∃ l, out2.layers = out.layers ++ [l] ∧ l.mapping = some transform) ∧
    (writeDenseVectorField T out fluidName fieldName res transform a b c = some (true, out2) →
      ∃ l, out2.layers = out.layers ++ [l] ∧ l.mapping = some transform) ∧
    (writeSparseVectorField T out fluidName fieldName res transform a b c =
        some (true, out2) →
      ∃ l, out2.layers = out.layers ++ [l] ∧ l.mapping = some transform) ∧
    (writeMACVectorField T out fluidName fieldName res transform a b c = some (true, out2) →
      ∃ l, out2.layers = out.layers ++ [l] ∧ l.mapping = some transform) := by
  refine ⟨?_, ?_, ?_, ?_, ?_⟩
  · intro h
    unfold writeDenseScalarField at h
    split at h
    · simp at h
    · cases hf : denseScalarField T fluidName fieldName res transform a with
      | none => simp [hf] at h
      | some field =>
        simp only [hf] at h
        refine ⟨Layer.scalar field, writeScalarLayer_true out out2 _ true h rfl, ?_⟩
        unfold denseScalarField at hf
        simp only [Option.map_eq_some'] at hf
        obtain ⟨vox, -, rfl⟩ := hf
        rfl
  · intro h
    unfold writeSparseScalarField at h
    split at h
    · simp at h
    · cases hf : sparseScalarField T fluidName fieldName res transform a with
      | none => simp [hf] at h
      | some field =>
        simp only [hf] at h
        refine ⟨Layer.scalar field, writeScalarLayer_true out out2 _ true h rfl, ?_⟩
        unfold sparseScalarField at hf
        simp only [Option.map_eq_some'] at hf
        obtain ⟨vox, -, rfl⟩ := hf
        rfl
  · intro h
    unfold writeDenseVectorField at h
    split at h
    · simp at h
    · cases hf : denseVectorField T fluidName fieldName res transform a b c with
      | none => simp [hf] at h
      | some field =>
        simp only [hf] at h
        refine ⟨Layer.vector field, writeScalarLayer_true out out2 _ true h rfl, ?_⟩
        unfold denseVectorField at hf
        simp only [Option.map_eq_some'] at hf
        obtain ⟨vox, -, rfl⟩ := hf
        rfl
  · intro h
    unfold writeSparseVectorField at h
    split at h
    · simp at h
    · cases hf : sparseVectorField T fluidName fieldName res transform a b c with
      | none => simp [hf] at h
      | some field =>
        simp only [hf] at h
        refine ⟨Layer.vector field, writeScalarLayer_true out out2 _ true h rfl, ?_⟩
        unfold sparseVectorField at hf
        simp only [Option.map_eq_some'] at hf
        obtain ⟨vox, -, rfl⟩ := hf
        rfl
  · intro h
    unfold writeMACVectorField at h
    split at h
    · simp at h
    · cases hf : macVectorField T fluidName fieldName res transform a b c with
      | none => simp [hf] at h
      | some field =>
        simp only [hf] at h
        refine ⟨Layer.vector field, writeScalarLayer_true out out2 _ true h rfl, ?_⟩
        unfold macVectorField at hf
        simp only [Option.bind_eq_some, Option.map_eq_some'] at hf
        obtain ⟨uvw, -, u, -, v, -, w, -, rfl⟩ := hf
        rfl

theorem writeStatus_success (s s2 : Field3dCacheFormat)
    (r : Option (Bool × Field3DOutputFile))
    (h : s.writeStatus r = some (MStatus.kSuccess, s2)) :
    ∃ out2, r = some (true, out2) ∧ s2.m_outFile = out2 := by
  unfold Field3dCacheFormat.writeStatus at h
  match r, h with
  | some (true, out2), h =>
    simp at h
    exact ⟨out2, rfl, by rw [← h]⟩
  | some (false, out2), h => simp at h

/-- With a non-empty owner, found in the scene with its transform, and one of the
eight channels of the format, `writeArray` returns the status of one writer call,
and the transform given to that writer is the product of `mapTo01`, `autoResize`
and the transform of the owner. -/
theorem writeArray_cases (toHalf : ℚ → ℚ) (scene : Scene) (s : Field3dCacheFormat)
    (fluid : MFnFluid) (parentTransf : M44)
    (howner : (extractFluidName s.m_currentName).isEmpty = false)
    (hnode : MayaTools.getFluidNode scene (extractFluidName s.m_currentName) =
      (MStatus.kSuccess, some fluid))
    (htransf : MayaTools.getTransform scene (extractFluidName s.m_currentName) =
      (MStatus.kSuccess, some parentTransf))
    (hch : extractChannelName s.m_currentName ∈
      ["density", "pressure", "fuel", "temperature", "falloff", "color", "coord",
       "velocity"]) :
    ∃ (a b c : Option (List ℚ)),
      s.writeArray toHalf scene = s.writeStatus
        (writeDenseScalarField (Field3dCacheFormat.exportType toHalf s.FIELD_DATA_TYPE)
          s.m_outFile (extractFluidName s.m_currentName) (extractChannelName s.m_currentName)
          (fluid.getResolution.getD ⟨1, 1, 1⟩)
          (Field3dCacheFormat.mapTo01 *
            Field3dCacheFormat.autoResize (fluid.getDimensions.getD ⟨0, 0, 0⟩) s.m_offset *
            parentTransf) a) ∨
      s.writeArray toHalf scene = s.writeStatus
        (writeSparseScalarField (Field3dCacheFormat.exportType toHalf s.FIELD_DATA_TYPE)
          s.m_outFile (extractFluidName s.m_currentName) (extractChannelName s.m_currentName)
          (fluid.getResolution.getD ⟨1, 1, 1⟩)
          (Field3dCacheFormat.mapTo01 *
            Field3dCacheFormat.autoResize (fluid.getDimensions.getD ⟨0, 0, 0⟩) s.m_offset *
            parentTransf) a) ∨
      s.writeArray toHalf scene = s.writeStatus
        (writeDenseVectorField (Field3dCacheFormat.exportType toHalf s.FIELD_DATA_TYPE)
          s.m_outFile (extractFluidName s.m_currentName) (extractChannelName s.m_currentName)
          (fluid.getResolution.getD ⟨1, 1, 1⟩)
          (Field3dCacheFormat.mapTo01 *
            Field3dCacheFormat.autoResize (fluid.getDimensions.getD ⟨0, 0, 0⟩) s.m_offset *
            parentTransf) a b c) ∨
      s.writeArray toHalf scene = s.writeStatus
        (writeMACVectorField (Field3dCacheFormat.exportType toHalf s.FIELD_DATA_TYPE)
          s.m_outFile (extractFluidName s.m_currentName) (extractChannelName s.m_currentName)
          (fluid.getResolution.getD ⟨1, 1, 1⟩)
          (Field3dCacheFormat.mapTo01 *
            Field3dCacheFormat.autoResize (fluid.getDimensions.getD ⟨0, 0, 0⟩) s.m_offset *
            parentTransf) a b c) := by
  simp only [List.mem_cons, List.mem_singleton, List.mem_nil_iff, or_false] at hch
  unfold Field3dCacheFormat.writeArray Field3dCacheFormat.writeStatus
  rcases hch with hc | hc | hc | hc | hc | hc | hc | hc
  · refine ⟨fluid.density, none, none, ?_⟩
    simp only [howner, hnode, htransf, hc]
    cases hd : s.FIELD_DATA_TYPE <;> cases ht : s.FIELD_TYPE <;>
      simp [Field3dCacheFormat.exportType]
  · refine ⟨fluid.pressure, none, none, ?_⟩
    simp only [howner, hnode, htransf, hc]
    cases hd : s.FIELD_DATA_TYPE <;> cases ht : s.FIELD_TYPE <;>
      simp [Field3dCacheFormat.exportType]
  · refine ⟨fluid.fuel, none, none, ?_⟩
    simp only [howner, hnode, htransf, hc]
    cases hd : s.FIELD_DATA_TYPE <;> cases ht : s.FIELD_TYPE <;>
      simp [Field3dCacheFormat.exportType]
  · refine ⟨fluid.temperature, none, none, ?_⟩
    simp only [howner, hnode, htransf, hc]
    cases hd : s.FIELD_DATA_TYPE <;> cases ht : s.FIELD_TYPE <;>
      simp [Field3dCacheFormat.exportType]
  · refine ⟨fluid.falloff, none, none, ?_⟩
    simp only [howner, hnode, htransf, hc]
    cases hd : s.FIELD_DATA_TYPE <;> cases ht : s.FIELD_TYPE <;>
      simp [Field3dCacheFormat.exportType]
  · refine ⟨fluid.getColors.1, fluid.getColors.2.1, fluid.getColors.2.2, ?_⟩
    simp only [howner, hnode, htransf, hc]
    cases hd : s.FIELD_DATA_TYPE <;> simp [Field3dCacheFormat.exportType]
  · refine ⟨fluid.getCoordinates.1, fluid.getCoordinates.2.1, fluid.getCoordinates.2.2, ?_⟩
    simp only [howner, hnode, htransf, hc]
    cases hd : s.FIELD_DATA_TYPE <;> simp [Field3dCacheFormat.exportType]
  · refine ⟨fluid.getVelocity.1, fluid.getVelocity.2.1, fluid.getVelocity.2.2, ?_⟩
    simp only [howner, hnode, htransf, hc]
    cases hd : s.FIELD_DATA_TYPE <;> simp [Field3dCacheFormat.exportType]

theorem resTransf_entries (d o : V3f) (W : M44) :
    (∀ j, (Field3dCacheFormat.mapTo01 * Field3dCacheFormat.autoResize d o * W) 0 j =
      d.x * W 0 j) ∧
    (∀ j, (Field3dCacheFormat.mapTo01 * Field3dCacheFormat.autoResize d o * W) 1 j =
      d.y * W 1 j) ∧
    (∀ j, (Field3dCacheFormat.mapTo01 * Field3dCacheFormat.autoResize d o * W) 2 j =
      d.z * W 2 j) ∧
    (∀ j, (Field3dCacheFormat.mapTo01 * Field3dCacheFormat.autoResize d o * W) 3 j =
      (o.x - d.x / 2) * W 0 j + (o.y - d.y / 2) * W 1 j + (o.z - d.z / 2) * W 2 j +
        1 * W 3 j) ∧
    Matrix.vecMul ![1 / 2, 1 / 2, 1 / 2, 1]
        (Field3dCacheFormat.mapTo01 * Field3dCacheFormat.autoResize d o * W) =
      Matrix.vecMul ![o.x, o.y, o.z, 1] W := by
  refine ⟨?_, ?_, ?_, ?_, ?_⟩
  · intro j
    simp [Matrix.mul_apply, Fin.sum_univ_four, Field3dCacheFormat.mapTo01,
      Field3dCacheFormat.autoResize]
  · intro j
    simp [Matrix.mul_apply, Fin.sum_univ_four, Field3dCacheFormat.mapTo01,
      Field3dCacheFormat.autoResize]
  · intro j
    simp [Matrix.mul_apply, Fin.sum_univ_four, Field3dCacheFormat.mapTo01,
      Field3dCacheFormat.autoResize]
  · intro j
    simp [Matrix.mul_apply, Fin.sum_univ_four, Field3dCacheFormat.mapTo01,
      Field3dCacheFormat.autoResize]
    ring
  · ext j
    simp [Matrix.vecMul, Matrix.dotProduct, Matrix.mul_apply, Fin.sum_univ_four,
      Field3dCacheFormat.mapTo01, Field3dCacheFormat.autoResize]
    ring

/-- C22. For every owner world matrix `W`, group dimension `d` and session offset `o`:
the matrix `writeArray` gives to the writer, which the writer attaches to the
layer it hands to the store, is `mapTo01 * autoResize d o * W`, where `mapTo01`
is the identity with translation row `(-1/2,-1/2,-1/2)` and `autoResize d o` is
`diag(d)` with translation row `o`; its upper three rows are the rows of `W`
scaled by `d`, its translation row is `(o - d/2, 1)` times `W`, and the row vector
`(1/2,1/2,1/2,1)` is mapped to `(o,1)` times `W`. -/
theorem transform_composition (toHalf : ℚ → ℚ) (scene : Scene) (s : Field3dCacheFormat)
    (fluid : MFnFluid) (W : M44)
    (howner : (extractFluidName s.m_currentName).isEmpty = false)
    (hnode : MayaTools.getFluidNode scene (extractFluidName s.m_currentName) =
      (MStatus.kSuccess, some fluid))
    (htransf : MayaTools.getTransform scene (extractFluidName s.m_currentName) =
      (MStatus.kSuccess, some W))
    (hch : extractChannelName s.m_currentName ∈
      ["density", "pressure", "fuel", "temperature", "falloff", "color", "coord",
       "velocity"]) :
    (∀ s2, s.writeArray toHalf scene = some (MStatus.kSuccess, s2) →
      ∃ l, s2.m_outFile.layers = s.m_outFile.layers ++ [l] ∧
        l.mapping = some (Field3dCacheFormat.mapTo01 *
          Field3dCacheFormat.autoResize (fluid.getDimensions.getD ⟨0, 0, 0⟩) s.m_offset * W)) ∧
    Field3dCacheFormat.mapTo01 =
      Matrix.of ![![1, 0, 0, 0], ![0, 1, 0, 0], ![0, 0, 1, 0], ![-1 / 2, -1 / 2, -1 / 2, 1]] ∧
    (∀ d o : V3f,
      Field3dCacheFormat.autoResize d o =
        Matrix.of ![![d.x, 0, 0, 0], ![0, d.y, 0, 0], ![0, 0, d.z, 0], ![o.x, o.y, o.z, 1]] ∧
      (∀ j, (Field3dCacheFormat.mapTo01 * Field3dCacheFormat.autoResize d o * W) 0 j =
        d.x * W 0 j) ∧
      (∀ j, (Field3dCacheFormat.mapTo01 * Field3dCacheFormat.autoResize d o * W) 1 j =
        d.y * W 1 j) ∧
      (∀ j, (Field3dCacheFormat.mapTo01 * Field3dCacheFormat.autoResize d o * W) 2 j =
        d.z * W 2 j) ∧
      (∀ j, (Field3dCacheFormat.mapTo01 * Field3dCacheFormat.autoResize d o * W) 3 j =
        (o.x - d.x / 2) * W 0 j + (o.y - d.y / 2) * W 1 j + (o.z - d.z / 2) * W 2 j +
          1 * W 3 j) ∧
      Matrix.vecMul ![1 / 2, 1 / 2, 1 / 2, 1]
          (Field3dCacheFormat.mapTo01 * Field3dCacheFormat.autoResize d o * W) =
        Matrix.vecMul ![o.x, o.y, o.z, 1] W) := by
  refine ⟨?_, rfl, fun d o => ⟨rfl, resTransf_entries d o W⟩⟩
  intro s2 h
  obtain ⟨a, b, c, hcase⟩ := writeArray_cases toHalf scene s fluid W howner hnode htransf hch
  rcases hcase with e | e | e | e
  · rw [e] at h
    obtain ⟨out2, hr, ho⟩ := writeStatus_success s s2 _ h
    rw [ho]
    exact (writer_mapping _ _ _ _ _ _ _ a b c).1 hr
  · rw [e] at h
    obtain ⟨out2, hr, ho⟩ := writeStatus_success s s2 _ h
    rw [ho]
    exact (writer_mapping _ _ _ _ _ _ _ a b c).2.1 hr
  · rw [e] at h
    obtain ⟨out2, hr, ho⟩ := writeStatus_success s s2 _ h
    rw [ho]
    exact (writer_mapping _ _ _ _ _ _ _ a b c).2.2.1 hr
  · rw [e] at h
    obtain ⟨out2, hr, ho⟩ := writeStatus_success s s2 _ h
    rw [ho]
    exact (writer_mapping _ _ _ _ _ _ _ a b c).2.2.2.2 hr

theorem colorSession_write :
    (extractFluidName Examples.colorSession.m_currentName).isEmpty = false ∧
    extractFluidName Examples.colorSession.m_currentName = "fluid" ∧
    extractChannelName Examples.colorSession.m_currentName = "color" ∧
    ((Examples.colorSession.writeArray id Examples.colorScene).map fun r =>
        (r.1, r.2.m_outFile.layers.map fun l => l.mapping)) =
      some (MStatus.kSuccess,
        [some (Field3dCacheFormat.mapTo01 * Field3dCacheFormat.autoResize ⟨1, 1, 1⟩ ⟨1, 2, 3⟩ *
          1)]) := by
  refine ⟨by decide, by decide, by decide, ?_⟩
  rfl

theorem transform_composition_witness :
    (extractFluidName Examples.colorSession.m_currentName).isEmpty = false ∧
    extractChannelName Examples.colorSession.m_currentName = "color" ∧
    ((Examples.colorSession.writeArray id Examples.colorScene).map fun r =>
        (r.1, r.2.m_outFile.layers.map fun l => l.mapping)) =
      some (MStatus.kSuccess,
        [some (Field3dCacheFormat.mapTo01 * Field3dCacheFormat.autoResize ⟨1, 1, 1⟩ ⟨1, 2, 3⟩ *
          1)]) ∧
    Matrix.vecMul ![1 / 2, 1 / 2, 1 / 2, 1]
        (Field3dCacheFormat.mapTo01 * Field3dCacheFormat.autoResize ⟨1, 1, 1⟩ ⟨1, 2, 3⟩ *
          (1 : M44)) =
      Matrix.vecMul ![1, 2, 3, 1] (1 : M44) :=
  ⟨colorSession_write.1, colorSession_write.2.2.1, colorSession_write.2.2.2,
    ((transform_composition id Examples.colorScene Examples.colorSession Examples.colorFluid 1
      colorSession_write.1
      (colorSession_write.2.1 ▸ colorScene_lookups.1)
      (colorSession_write.2.1 ▸ colorScene_lookups.2)
      (by decide)).2.2 ⟨1, 1, 1⟩ ⟨1, 2, 3⟩).2.2.2.2.2⟩

/-! ## Failures of `readArray` -/

/-- The failures `readArray` reports: a resolver failure for any channel other than
`resolution` and `offset`, a descriptor that is not scalar for a scalar channel,
and a descriptor that is not a dense or sparse vector for `color` and `coord`. -/
theorem readArray_reported (s : Field3dCacheFormat) (array : List ℚ) (arraySize : Nat)
    (hres : extractChannelName s.m_currentName ≠ "resolution")
    (hoff : extractChannelName s.m_currentName ≠ "offset") :
    ((getFieldValueType s.m_inFile (extractChannelName s.m_currentName)).1 = false →
      s.readArray array arraySize = some (MStatus.kFailure, setLength array arraySize)) ∧
    (extractChannelName s.m_currentName ∈
        ["density", "pressure", "fuel", "temperature", "falloff"] →
      (getFieldValueType s.m_inFile (extractChannelName s.m_currentName)).2 ∉
        [SupportedFieldTypeEnum.DenseScalarField_Half,
         SupportedFieldTypeEnum.DenseScalarField_Float,
         SupportedFieldTypeEnum.SparseScalarField_Half,
         SupportedFieldTypeEnum.SparseScalarField_Float] →
      s.readArray array arraySize = some (MStatus.kFailure, setLength array arraySize)) ∧
    (extractChannelName s.m_currentName ∈ ["color", "coord"] →
      (getFieldValueType s.m_inFile (extractChannelName s.m_currentName)).2 ∉
        [SupportedFieldTypeEnum.DenseVectorField_Half,
         SupportedFieldTypeEnum.DenseVectorField_Float,
         SupportedFieldTypeEnum.SparseVectorField_Half,
         SupportedFieldTypeEnum.SparseVectorField_Float] →
      s.readArray array arraySize = some (MStatus.kFailure, setLength array arraySize)) := by
  refine ⟨?_, ?_, ?_⟩
  · intro h
    unfold Field3dCacheFormat.readArray
    simp [hres, hoff, h]
  · intro hch hd
    simp only [List.mem_cons, List.mem_singleton, List.mem_nil_iff, or_false, not_or] at hch hd
    obtain ⟨h1, h2, h3, h4⟩ := hd
    unfold Field3dCacheFormat.readArray
    rcases hch with hc | hc | hc | hc | hc <;>
      simp only [hc] at hres hoff h1 h2 h3 h4 ⊢ <;>
      cases hb : (getFieldValueType s.m_inFile _).1 <;>
      simp [h1, h2, h3, h4, hb]
  · intro hch hd
    simp only [List.mem_cons, List.mem_singleton, List.mem_nil_iff, or_false, not_or] at hch hd
    obtain ⟨h1, h2, h3, h4⟩ := hd
    unfold Field3dCacheFormat.readArray
    rcases hch with hc | hc <;>
      simp only [hc] at hres hoff h1 h2 h3 h4 ⊢ <;>
      cases hb : (getFieldValueType s.m_inFile _).1 <;>
      simp [h1, h2, h3, h4, hb]

/-- C25 (the code at the failing input). The current channel is `fluid_velocity` and the
resolver succeeds with the descriptor `DenseVectorField_Float`, which is not a
MAC descriptor: `readArray` does not return failure, it calls through the null
`readFuncPtr` (undefined behaviour). The same happens for the suffix `foo`,
which is no channel of the format, when the resolver succeeds. -/
theorem velocity_null_reader :
    extractChannelName Examples.denseVelocitySession.m_currentName = "velocity" ∧
    getFieldValueType Examples.denseVelocitySession.m_inFile "velocity" =
      (true, SupportedFieldTypeEnum.DenseVectorField_Float) ∧
    Examples.denseVelocitySession.readArray []
      Examples.denseVelocitySession.readArraySize = none ∧
    extractChannelName Examples.fooReadSession.m_currentName = "foo" ∧
    getFieldValueType Examples.fooReadSession.m_inFile "foo" =
      (true, SupportedFieldTypeEnum.DenseVectorField_Float) ∧
    Examples.fooReadSession.readArray [] Examples.fooReadSession.readArraySize = none := by
  refine ⟨by decide, by decide, ?_, by decide, by decide, ?_⟩
  · decide
  · decide

/-! ## Time of a cache file -/

theorem rfindStr_spec (s pat : List Char) (p : Nat) (h : rfindStr s pat = some p) :
    p ≤ s.length ∧ pat.isPrefixOf (s.drop p) = true := by
  induction s generalizing p with
  | nil =>
    unfold rfindStr at h
    by_cases hp : pat = []
    · simp [hp] at h
      subst h
      simp [hp]
    · simp [hp] at h
  | cons a t ih =>
    unfold rfindStr at h
    cases hr : rfindStr t pat with
    | some q =>
      simp only [hr, Option.some.injEq] at h
      subst h
      obtain ⟨h1, h2⟩ := ih q hr
      exact ⟨by simp; omega, by simpa using h2⟩
    | none =>
      simp only [hr] at h
      by_cases hp : pat.isPrefixOf (a :: t) = true
      · simp [hp] at h
        subst h
        exact ⟨by simp, by simpa using hp⟩
      · simp [hp] at h

theorem atoi_letter (rest : List Char) : atoi ('F' :: rest) = some 0 := by
  have h1 : isspace 'F' = false := by decide
  have h2 : Char.isDigit 'F' = false := by decide
  simp [atoi, List.dropWhile, List.takeWhile, h1, h2]

/-- The string `readTime` hands to `atoi` is empty or starts with the `F` of `Frame`,
so that the frame number is zero: `readTime` never returns success. -/
theorem readTime_not_success (s : Field3dCacheFormat) :
    s.readTime = none ∨ s.readTime = some MStatus.kFailure := by
  unfold Field3dCacheFormat.readTime
  cases hf : rfindStr s.m_filename.data "Frame".data with
  | none => left; simp [substr]
  | some p =>
    obtain ⟨hle, hpre⟩ := rfindStr_spec _ _ _ hf
    rw [List.isPrefixOf_iff_prefix] at hpre
    obtain ⟨rest, hrest⟩ := hpre
    have hdrop : s.m_filename.data.drop p = 'F' :: ('r' :: 'a' :: 'm' :: 'e' :: rest) := by
      rw [← hrest]
      rfl
    have hle2 : ¬ (s.m_filename.length < p) := Nat.not_lt.mpr hle
    right
    cases hd : rfindStr s.m_filename.data ".".data with
    | none =>
      simp [substr, hle2, hdrop, atoi_letter]
    | some l =>
      cases l with
      | zero =>
        have h0 : atoi [] = some 0 := by decide
        simp [substr, hle2, h0]
      | succ l =>
        simp [substr, hle2, hdrop, List.take, atoi_letter]

/-- C23 (the code at the failing input). The file path `fluidFrame12.f3d` contains
`Frame12` followed by `.`; `readTime` takes the substring of at most 12
characters that starts at the `F` of `Frame`, which is `Frame12.f3d`, `atoi`
gives 0 for it, and `readTime` and `readNextTime` return failure. -/
theorem readTime_frame12 :
    Examples.frame12Session.m_filename = "fluidFrame12.f3d" ∧
    rfindStr "fluidFrame12.f3d".data "Frame".data = some 5 ∧
    rfindStr "fluidFrame12.f3d".data ".".data = some 12 ∧
    substr "fluidFrame12.f3d".data (some 5) (some 12) = some "Frame12.f3d".data ∧
    atoi "Frame12.f3d".data = some 0 ∧
    atoi "12".data = some 12 ∧
    Examples.frame12Session.readTime = some MStatus.kFailure ∧
    Examples.frame12Session.readNextTime = some (MStatus.kFailure, 0) := by
  refine ⟨rfl, by decide, by decide, by decide, by decide, by decide, by decide, ?_⟩
  have h : Examples.frame12Session.readTime = some MStatus.kFailure := by decide
  simp [Field3dCacheFormat.readNextTime, h]

/-- One pass of the loop of `findTime` for a requested time above zero: the time read
is zero, below the window, and the pass ends with the same session and nothing
else changed but the flag `fileRewound`. -/
theorem findTimeBody_positive (fs : FileSystem) (time : ℚ) (s : Field3dCacheFormat)
    (fileRewound : Bool) (foundTime : ℚ) (st : MStatus) (hpos : 0 < time)
    (hread : s.readTime = some st) :
    Field3dCacheFormat.findTimeBody fs time s fileRewound foundTime =
      Field3dCacheFormat.FindTimeStep.next s true := by
  have h1 : ¬ (time ≤ 0) := not_le.mpr hpos
  have h2 : ¬ (time < 0) := not_lt.mpr (le_of_lt hpos)
  simp [Field3dCacheFormat.findTimeBody, Field3dCacheFormat.findTimeChunk,
    Field3dCacheFormat.beginReadChunk, hread, h1, h2]

theorem findTimeLoop_positive (fs : FileSystem) (time : ℚ) (s : Field3dCacheFormat)
    (foundTime : ℚ) (st : MStatus) (hpos : 0 < time) (hread : s.readTime = some st)
    (n : Nat) (fileRewound : Bool) :
    Field3dCacheFormat.findTimeLoop fs time n s fileRewound foundTime =
      Field3dCacheFormat.LoopResult.unfinished := by
  induction n generalizing fileRewound with
  | zero => rfl
  | succ n ih =>
    unfold Field3dCacheFormat.findTimeLoop
    rw [findTimeBody_positive fs time s fileRewound foundTime st hpos hread]
    exact ih true

/-- The requested times for which `findTime` returns: zero is found in the first pass,
and a time below zero makes it fail in the first pass (failed rewind) or in the
second. -/
theorem findTime_nonpositive (fs : FileSystem) (time : ℚ) (s : Field3dCacheFormat)
    (foundTime : ℚ) (st : MStatus) (hread : s.readTime = some st) (n : Nat) :
    (time = 0 → Field3dCacheFormat.findTime (n + 1) fs s time foundTime =
      Field3dCacheFormat.LoopResult.returned (MStatus.kSuccess, s, 0)) ∧
    (time < 0 → (Field3dCacheFormat.rewind fs s).1 ≠ MStatus.kSuccess →
      Field3dCacheFormat.findTime (n + 1) fs s time foundTime =
        Field3dCacheFormat.LoopResult.returned
          (MStatus.kFailure, (Field3dCacheFormat.rewind fs s).2, foundTime)) ∧
    (time < 0 → (Field3dCacheFormat.rewind fs s).1 = MStatus.kSuccess →
      ∀ st2, (Field3dCacheFormat.rewind fs s).2.readTime = some st2 →
      Field3dCacheFormat.findTime (n + 2) fs s time foundTime =
        Field3dCacheFormat.LoopResult.returned
          (MStatus.kFailure, (Field3dCacheFormat.rewind fs s).2, foundTime)) := by
  refine ⟨?_, ?_, ?_⟩
  · intro h0
    simp [Field3dCacheFormat.findTime, Field3dCacheFormat.findTimeLoop,
      Field3dCacheFormat.findTimeBody, Field3dCacheFormat.findTimeChunk,
      Field3dCacheFormat.beginReadChunk, hread, h0]
  · intro hneg hrw
    have h1 : ¬ (time ≤ 0 ∧ 0 ≤ time) := fun h => absurd h.2 (not_le.mpr hneg)
    simp [Field3dCacheFormat.findTime, Field3dCacheFormat.findTimeLoop,
      Field3dCacheFormat.findTimeBody, Field3dCacheFormat.findTimeChunk,
      Field3dCacheFormat.beginReadChunk, hread, h1, hneg, hrw]
  · intro hneg hrw st2 hread2
    have h1 : ¬ (time ≤ 0 ∧ 0 ≤ time) := fun h => absurd h.2 (not_le.mpr hneg)
    simp [Field3dCacheFormat.findTime, Field3dCacheFormat.findTimeLoop,
      Field3dCacheFormat.findTimeBody, Field3dCacheFormat.findTimeChunk,
      Field3dCacheFormat.beginReadChunk, hread, hread2, h1, hneg, hrw]

/-- C24 (the code at the failing input). For the requested time 1 and a session whose
file path is `fluidFrame12.f3d`, `findTime` does not return, whatever number of
passes its loop is given: every pass reads the time zero, which is below the
window, sets `fileRewound` and starts the loop again. -/
theorem findTime_no_return (fuel : Nat) :
    Field3dCacheFormat.findTime fuel Examples.densityDisk Examples.frame12Session 1 0 =
      Field3dCacheFormat.LoopResult.unfinished ∧
    Field3dCacheFormat.findTimeBody Examples.densityDisk 1 Examples.frame12Session false 0 =
      Field3dCacheFormat.FindTimeStep.next Examples.frame12Session true ∧
    Field3dCacheFormat.findTimeBody Examples.densityDisk 1 Examples.frame12Session true 0 =
      Field3dCacheFormat.FindTimeStep.next Examples.frame12Session true := by
  have hread : Examples.frame12Session.readTime = some MStatus.kFailure := by decide
  exact ⟨findTimeLoop_positive _ 1 _ 0 _ (by norm_num) hread fuel false,
    findTimeBody_positive _ 1 _ false 0 _ (by norm_num) hread,
    findTimeBody_positive _ 1 _ true 0 _ (by norm_num) hread⟩

/-! ## Bounds of the scalar reader -/

/-- Inside a grid whose size fits in 32 bits, the index the scalar reader computes is
the flat index, below the size of the grid, and the size it compares with is
the size of the grid. -/
theorem reader_index_lt {nx ny nz : Nat} (c : V3u) (hx : c.x < nx) (hy : c.y < ny)
    (hz : c.z < nz) (h32 : nx * ny * nz < 4294967296) :
    uadd (uadd c.x (umul (u32 nx) c.y)) (umul (umul (u32 nx) (u32 ny)) c.z) =
      c.x + nx * c.y + nx * ny * c.z ∧
    c.x + nx * c.y + nx * ny * c.z < nx * ny * nz ∧
    umul (umul (u32 nx) (u32 ny)) (u32 nz) = nx * ny * nz := by
  have hlt := flat_index_lt hx hy hz
  refine ⟨?_, hlt, ?_⟩
  · rw [reader_index_eq, u32_eq_of_lt (by omega)]
  · rw [array_size_eq, u32_eq_of_lt h32]

/-- The loop of the scalar reader returns `true` when every index it computes is below
the size of the grid and the destination has at least that many entries. -/
theorem readScalarLoop_in_bounds (vox : V3u → ℚ) (resolution : V3u) (cells : List V3u)
    (data : List ℚ)
    (h : ∀ c ∈ cells,
      uadd (uadd c.x (umul resolution.x c.y)) (umul (umul resolution.x resolution.y) c.z) <
        umul (umul resolution.x resolution.y) resolution.z)
    (hd : cells ≠ [] → umul (umul resolution.x resolution.y) resolution.z ≤ data.length) :
    ∃ dest, readScalarLoop vox resolution cells data = some (true, dest) ∧
      dest.length = data.length := by
  induction cells generalizing data with
  | nil => exact ⟨data, rfl, rfl⟩
  | cons a t ih =>
    have ha := h a (List.mem_cons_self a t)
    have hlen := hd (List.cons_ne_nil a t)
    obtain ⟨dest, hdest, hl⟩ := ih (data.set
        (uadd (uadd a.x (umul resolution.x a.y)) (umul (umul resolution.x resolution.y) a.z))
        (vox a))
      (fun c hc => h c (List.mem_cons_of_mem a hc))
      (fun _ => by rw [List.length_set]; exact hlen)
    refine ⟨dest, ?_, by rw [hl, List.length_set]⟩
    unfold readScalarLoop
    simp only [DEBUG_MODE, if_true, if_pos ha]
    rw [store_eq_some data _ _ (lt_of_lt_of_le ha hlen)]
    exact hdest

/-- The loop of the scalar reader writes outside an empty destination at the first
voxel it visits. -/
theorem readScalarLoop_empty_dest (vox : V3u → ℚ) (resolution : V3u) (a : V3u)
    (t : List V3u)
    (h : uadd (uadd a.x (umul resolution.x a.y)) (umul (umul resolution.x resolution.y) a.z) <
        umul (umul resolution.x resolution.y) resolution.z) :
    readScalarLoop vox resolution (a :: t) [] = none := by
  unfold readScalarLoop
  simp [DEBUG_MODE, h, store]

/-- The size `readArraySize` returns for a scalar channel. -/
theorem readArraySize_scalar (s : Field3dCacheFormat)
    (hch : extractChannelName s.m_currentName ∈
      ["density", "pressure", "fuel", "temperature", "falloff"]) :
    s.readArraySize =
      umul (umul (getFieldsResolution s.m_inFile).2.x (getFieldsResolution s.m_inFile).2.y)
        (getFieldsResolution s.m_inFile).2.z := by
  simp only [List.mem_cons, List.mem_singleton, List.mem_nil_iff, or_false] at hch
  unfold Field3dCacheFormat.readArraySize
  rcases hch with hc | hc | hc | hc | hc <;> simp [hc]

theorem umul_umul_eq (a b c : Nat) : umul (umul a b) c = u32 (a * b * c) := by
  unfold umul
  apply u32_eq_of_zmod
  simp only [u32]
  push_cast [ZMod.natCast_mod]
  ring

/-- C29 (amended). For a scalar layer of resolution `(nx,ny,nz)` with
`nx*ny*nz < 2^32` that is one of the layers of the file, when the product of the
per-axis maxima over all layers is also below `2^32`: `readArraySize` for a scalar
channel is that product, and for every visited voxel `(i,j,k)` with `i < nx`,
`j < ny`, `k < nz` the scatter index `readScalarField` computes is
`i + nx*j + nx*ny*k`, below `nx*ny*nz` and below the destination length
`readArraySize` returns; the out-of-bounds branch is not taken and
`readScalarField` returns `true`. -/
theorem scalar_decode_in_bounds (cls : FieldClass) (T : SampleType) (s : Field3dCacheFormat)
    (fieldName : String) (layer : ScalarLayer) (rest : List ScalarLayer) (nx ny nz : Nat)
    (data : List ℚ)
    (hin : s.m_inFile.readScalarLayers T fieldName = layer :: rest)
    (hcls : layer.cls = cls) (hres : layer.dataResolution = ⟨nx, ny, nz⟩)
    (hmem : layer.dataResolution ∈ layerResolutions s.m_inFile)
    (h32 : nx * ny * nz < 4294967296)
    (hmax : (getFieldsResolution s.m_inFile).2.x * (getFieldsResolution s.m_inFile).2.y *
      (getFieldsResolution s.m_inFile).2.z < 4294967296)
    (hcells : ∀ c ∈ layer.cells, c.x < nx ∧ c.y < ny ∧ c.z < nz)
    (hch : extractChannelName s.m_currentName ∈
      ["density", "pressure", "fuel", "temperature", "falloff"])
    (hdata : data.length = s.readArraySize) :
    s.readArraySize = (getFieldsResolution s.m_inFile).2.x *
      (getFieldsResolution s.m_inFile).2.y * (getFieldsResolution s.m_inFile).2.z ∧
    (∀ c ∈ layer.cells,
      uadd (uadd c.x (umul (u32 nx) c.y)) (umul (umul (u32 nx) (u32 ny)) c.z) =
        c.x + nx * c.y + nx * ny * c.z ∧
      c.x + nx * c.y + nx * ny * c.z < nx * ny * nz ∧
      c.x + nx * c.y + nx * ny * c.z < s.readArraySize) ∧
    ∃ dest, readScalarField cls T s.m_inFile fieldName data = some (true, dest) ∧
      dest.length = data.length := by
  have hsize : s.readArraySize = (getFieldsResolution s.m_inFile).2.x *
      (getFieldsResolution s.m_inFile).2.y * (getFieldsResolution s.m_inFile).2.z := by
    rw [readArraySize_scalar s hch, umul_umul_eq, u32_eq_of_lt hmax]
  have hle : layer.cells ≠ [] → nx * ny * nz ≤ s.readArraySize := by
    intro hne
    obtain ⟨c, hc⟩ := List.exists_mem_of_ne_nil _ hne
    obtain ⟨h1, h2, h3⟩ := hcells c hc
    obtain ⟨-, -, bx, by1, bz⟩ := flat_products h1 h2 h3 h32
    have hM := getFieldsResolution_eq s.m_inFile
    have hx : nx ≤ (getFieldsResolution s.m_inFile).2.x := by
      rw [hM]
      have := (foldl_max_ge ((layerResolutions s.m_inFile).map fun r => u32 r.x) 0).2
        (u32 layer.dataResolution.x) (List.mem_map_of_mem (fun r => u32 r.x) hmem)
      rw [hres, u32_eq_of_lt bx] at this
      exact this
    have hy : ny ≤ (getFieldsResolution s.m_inFile).2.y := by
      rw [hM]
      have := (foldl_max_ge ((layerResolutions s.m_inFile).map fun r => u32 r.y) 0).2
        (u32 layer.dataResolution.y) (List.mem_map_of_mem (fun r => u32 r.y) hmem)
      rw [hres, u32_eq_of_lt by1] at this
      exact this
    have hz : nz ≤ (getFieldsResolution s.m_inFile).2.z := by
      rw [hM]
      have := (foldl_max_ge ((layerResolutions s.m_inFile).map fun r => u32 r.z) 0).2
        (u32 layer.dataResolution.z) (List.mem_map_of_mem (fun r => u32 r.z) hmem)
      rw [hres, u32_eq_of_lt bz] at this
      exact this
    rw [hsize]
    exact Nat.mul_le_mul (Nat.mul_le_mul hx hy) hz
  have hidx : ∀ c ∈ layer.cells,
      uadd (uadd c.x (umul (u32 nx) c.y)) (umul (umul (u32 nx) (u32 ny)) c.z) =
        c.x + nx * c.y + nx * ny * c.z ∧
      c.x + nx * c.y + nx * ny * c.z < nx * ny * nz ∧
      umul (umul (u32 nx) (u32 ny)) (u32 nz) = nx * ny * nz := by
    intro c hc
    obtain ⟨h1, h2, h3⟩ := hcells c hc
    exact reader_index_lt c h1 h2 h3 h32
  refine ⟨hsize, ?_, ?_⟩
  · intro c hc
    obtain ⟨e, hlt, -⟩ := hidx c hc
    exact ⟨e, hlt, lt_of_lt_of_le hlt (hle (List.ne_nil_of_mem hc))⟩
  · unfold readScalarField
    rw [hin]
    simp only [hcls, ne_eq, not_true_eq_false, if_false, hres]
    apply readScalarLoop_in_bounds
    · intro c hc
      obtain ⟨e, hlt, hs⟩ := hidx c hc
      rw [e, hs]
      exact hlt
    · intro hne
      obtain ⟨c, hc⟩ := List.exists_mem_of_ne_nil _ hne
      rw [(hidx c hc).2.2, hdata]
      exact hle hne

theorem denseLayer_facts :
    Examples.denseLayer.dataResolution = ⟨2, 2, 2⟩ ∧
    Examples.denseLayer.cls = FieldClass.DenseField := by
  obtain ⟨vox, hcopy, -⟩ :=
    (scalarCopy_spec ExportType.float 2 2 2 Examples.onesDensity rfl (by decide)).1
  have hfield : denseScalarField ExportType.float "fluid" "density" ⟨2, 2, 2⟩ 1
      (some Examples.onesDensity) = some
        { name := "fluid", attributeName := "density", mapping := some 1,
          dataResolution := ⟨2, 2, 2⟩, cls := FieldClass.DenseField,
          sample := SampleType.float, vox := vox } := by
    unfold denseScalarField
    simp only [ScalarField.create, setFieldProperties]
    rw [hcopy]
    rfl
  unfold Examples.denseLayer
  simp [hfield]

theorem denseSession_facts :
    layerResolutions Examples.denseSession.m_inFile = [⟨2, 2, 2⟩, ⟨2, 2, 2⟩, ⟨2, 2, 2⟩] ∧
    (getFieldsResolution Examples.denseSession.m_inFile).2 = ⟨2, 2, 2⟩ ∧
    Examples.denseSession.readArraySize = 8 := by
  have hl : layerResolutions Examples.denseSession.m_inFile =
      [⟨2, 2, 2⟩, ⟨2, 2, 2⟩, ⟨2, 2, 2⟩] := by
    simp [layerResolutions, Examples.denseSession, Examples.denseInput, denseLayer_facts.1]
  have hg : (getFieldsResolution Examples.denseSession.m_inFile).2 = ⟨2, 2, 2⟩ := by
    rw [getFieldsResolution_eq, hl]
    simp [u32]
  refine ⟨hl, hg, ?_⟩
  rw [readArraySize_scalar _ (by decide), hg]
  decide

theorem scalar_decode_in_bounds_witness :
    Examples.denseSession.m_inFile.readScalarLayers SampleType.float "density" =
      [Examples.denseLayer] ∧
    Examples.denseLayer.dataResolution = ⟨2, 2, 2⟩ ∧
    Examples.denseSession.readArraySize = 8 ∧
    ∃ dest, readScalarField FieldClass.DenseField SampleType.float
        Examples.denseSession.m_inFile "density" [0, 0, 0, 0, 0, 0, 0, 0] = some (true, dest) ∧
      dest.length = 8 :=
  ⟨rfl, denseLayer_facts.1, denseSession_facts.2.2,
    (scalar_decode_in_bounds FieldClass.DenseField SampleType.float Examples.denseSession
      "density" Examples.denseLayer [] 2 2 2 [0, 0, 0, 0, 0, 0, 0, 0] rfl denseLayer_facts.2
      denseLayer_facts.1
      (by rw [denseSession_facts.1, denseLayer_facts.1]; exact List.mem_cons_self _ _)
      (by decide)
      (by rw [denseSession_facts.2.1]; decide)
      (fun c hc => (mem_loopKJI ⟨2, 2, 2⟩ c).1 hc)
      (by decide)
      (by rw [denseSession_facts.2.2]; rfl)).2.2⟩

theorem overflowSession_facts :
    layerResolutions Examples.overflowSession.m_inFile = [⟨65536, 1, 1⟩, ⟨1, 65536, 1⟩] ∧
    (getFieldsResolution Examples.overflowSession.m_inFile).2 = ⟨65536, 65536, 1⟩ ∧
    Examples.overflowSession.readArraySize = 0 := by
  have hl : layerResolutions Examples.overflowSession.m_inFile =
      [⟨65536, 1, 1⟩, ⟨1, 65536, 1⟩] := by
    simp [layerResolutions, Examples.overflowSession, Examples.overflowInput,
      Examples.rowLayer, Examples.columnLayer]
  have hg : (getFieldsResolution Examples.overflowSession.m_inFile).2 =
      ⟨65536, 65536, 1⟩ := by
    rw [getFieldsResolution_eq, hl]
    simp [u32]
  refine ⟨hl, hg, ?_⟩
  rw [readArraySize_scalar _ (by decide), hg]
  decide

/-- C29 (counterexample). A file holds the scalar layers `density`, of resolution
`(65536,1,1)`, and `fuel`, of resolution `(1,65536,1)`. For `density`,
`nx*ny*nz = 65536 < 2^32` and the voxel `(1,0,0)` is visited, with scatter index
`1 < 65536`; the per-axis maxima are `(65536,65536,1)`, whose product wraps to
zero, so that `readArraySize` returns 0: the index is not below the destination
length, and `readScalarField` on a destination of that length does not return
`true` (it writes outside the array). -/
theorem scalar_decode_counterexample :
    Examples.overflowSession.m_inFile.readScalarLayers SampleType.half "density" =
      [Examples.rowLayer] ∧
    Examples.rowLayer.dataResolution = ⟨65536, 1, 1⟩ ∧
    65536 * 1 * 1 < 4294967296 ∧
    (⟨1, 0, 0⟩ : V3u) ∈ Examples.rowLayer.cells ∧
    uadd (uadd 1 (umul (u32 65536) 0)) (umul (umul (u32 65536) (u32 1)) 0) = 1 ∧
    1 < 65536 * 1 * 1 ∧
    extractChannelName Examples.overflowSession.m_currentName = "density" ∧
    (getFieldsResolution Examples.overflowSession.m_inFile).2 = ⟨65536, 65536, 1⟩ ∧
    Examples.overflowSession.readArraySize = 0 ∧
    ¬ (1 < Examples.overflowSession.readArraySize) ∧
    readScalarField FieldClass.DenseField SampleType.half Examples.overflowSession.m_inFile
      "density" (setLength [] Examples.overflowSession.readArraySize) = none := by
  obtain ⟨-, hg, hsize⟩ := overflowSession_facts
  have hmem : (⟨0, 0, 0⟩ : V3u) ∈ loopKJI ⟨65536, 1, 1⟩ :=
    (mem_loopKJI ⟨65536, 1, 1⟩ ⟨0, 0, 0⟩).2 ⟨by decide, by decide, by decide⟩
  refine ⟨rfl, rfl, by decide, (mem_loopKJI ⟨65536, 1, 1⟩ ⟨1, 0, 0⟩).2
    ⟨by decide, by decide, by decide⟩, by decide, by decide, by decide, hg, hsize,
    by rw [hsize]; decide, ?_⟩
  rw [hsize]
  have hset : setLength [] 0 = [] := rfl
  rw [hset]
  unfold readScalarField
  have hin : Examples.overflowSession.m_inFile.readScalarLayers SampleType.half "density" =
      [Examples.rowLayer] := rfl
  rw [hin]
  have hcls : Examples.rowLayer.cls = FieldClass.DenseField := rfl
  simp only [hcls, ne_eq, not_true_eq_false, if_false]
  have hcells : Examples.rowLayer.cells = loopKJI ⟨65536, 1, 1⟩ := rfl
  rw [hcells]
  cases hc : loopKJI ⟨65536, 1, 1⟩ with
  | nil => rw [hc] at hmem; simp at hmem
  | cons a t =>
    apply readScalarLoop_empty_dest
    have ha : a ∈ loopKJI ⟨65536, 1, 1⟩ := by rw [hc]; exact List.mem_cons_self _ _
    obtain ⟨h1, h2, h3⟩ := (mem_loopKJI ⟨65536, 1, 1⟩ a).1 ha
    have hres : Examples.rowLayer.dataResolution = ⟨65536, 1, 1⟩ := rfl
    rw [hres]
    obtain ⟨e, hlt, hs⟩ := reader_index_lt a h1 h2 h3 (by decide : 65536 * 1 * 1 < 4294967296)
    rw [e, hs]
    exact hlt

/-! ## Vector fields -/

